import Mathlib

/-!
# Notification service: cache-aside reads, the lock-guarded rebuild of the recent list
and the transactional writes with their background fan-out

A shallow embedding of the orchestration layer of the notification service
(`internal/service/notification.go`, `internal/cache/redis.go`,
`internal/repository/notification.go`, `internal/domain`).

Modelling conventions.

* A Go method that talks to Redis or to the database is a computation `M σ α`:
  a function from the state `σ` of the outside world to its return value, the
  next state and the list of collaborator calls it made (`Event`), each
  recorded with the arguments sent and the reply received.
* The go-redis client and the gorm handle are *parameters*
  (`RedisClient σ`, `GormDB σ`): arbitrary functions of the outside state, so
  that a theorem quantified over them covers every reply the collaborators can
  give, failures and the effects of other actors included.
* Go's `(value, error)` results are pairs `α × Option Error`; a nil pointer is
  `none`; a nil slice and an empty slice are both `[]` (the code only looks at
  `len`).
* `time.Time` is the integer number of nanoseconds since the Unix epoch,
  `time.Duration` an integer number of nanoseconds.
* `context.Context` and `log.Printf` are not modelled.
* A `go func() { ... }()` statement is recorded as `Event.Go t`, where `t : Task`
  names the closure; it is not run by the spawning function.
* A `*gorm.DB` bound to a transaction is not a separate value: whether a
  transaction is open is part of the outside state, and the calls made on the
  transactional repository are the calls between `Begin` and `Commit` or
  `Rollback`.
-/

namespace NotificationService

/-! ## Domain -/

/-- The `domain.Notification` entity (`internal/domain/notification.go`).
`Type_` is the field `Type`; `CreatedAt` is in Unix nanoseconds. -/
structure Notification where
  ID : Int
  Type_ : String
  Recipient : String
  Subject : String
  Content : String
  CreatedAt : Int
  Version : Int
deriving DecidableEq, Repr, Inhabited

/-- Go `time.Duration` constants, in nanoseconds. -/
def Millisecond : Int := 1000000

/-- One second, in nanoseconds. -/
def Second : Int := 1000 * Millisecond

/-- One minute, in nanoseconds. -/
def Minute : Int := 60 * Second

/-- The method `time.Time.UnixMilli`: milliseconds since the epoch, rounded down. -/
def UnixMilli (t : Int) : Int := t / 1000000

/-- The zero `time.Time` (1 January of year 1, UTC), in Unix nanoseconds. -/
def zeroTime : Int := -62135596800000000000

/-- The type `domain.NotificationType`, a Go string type. -/
abbrev NotificationType := String

/-- The constant `domain.NotificationTypeEmail`. -/
def NotificationTypeEmail : NotificationType := "EMAIL"

/-- The constant `domain.NotificationTypeSMS`. -/
def NotificationTypeSMS : NotificationType := "SMS"

/-- The map `validNotificationTypes` (domain/types.go:17-20). -/
def validNotificationTypes : List (NotificationType × Bool) :=
  [(NotificationTypeEmail, true), (NotificationTypeSMS, true)]

/-- Method `NotificationType.IsValid` (domain/types.go:32-34): a map lookup, `false`
for a key that is not in the map. -/
def NotificationType.IsValid (t : NotificationType) : Bool :=
  (validNotificationTypes.lookup t).getD false

/-- The type `domain.NotificationMessageType`, a Go string type. -/
abbrev NotificationMessageType := String

/-- The constant `domain.MessageTypeCreate`. -/
def MessageTypeCreate : NotificationMessageType := "CREATE"

/-- The constant `domain.MessageTypeUpdate`. -/
def MessageTypeUpdate : NotificationMessageType := "UPDATE"

/-- The constant `domain.MessageTypeDelete`. -/
def MessageTypeDelete : NotificationMessageType := "DELETE"

/-- Go error values: the two sentinels the code compares against, errors made by
a library, and `fmt.Errorf("<context>: %w", cause)`. -/
inductive Error where
  | redisNil
  | ErrRecordNotFound
  | New (msg : String)
  | Errorf (context : String) (cause : Error)
deriving DecidableEq, Repr

/-- The method `Error()` of a Go error: `%w` prints the cause after the context. -/
def Error.message : Error → String
  | Error.redisNil => "redis: nil"
  | Error.ErrRecordNotFound => "record not found"
  | Error.New msg => msg
  | Error.Errorf context cause => context ++ ": " ++ cause.message

/-- Method `NotificationType.FromString` (domain/types.go:23-29); the receiver is
not used. The error is `fmt.Errorf("unsupported type: %s", s)`. -/
def NotificationType.FromString (_t : NotificationType) (s : String) :
    NotificationType × Option Error :=
  let nt : NotificationType := s
  if !(validNotificationTypes.lookup nt).getD false then
    ("", some (Error.New ("unsupported type: " ++ s)))
  else
    (nt, none)

/-- The map `validMessageTypes` (domain/types.go:67-71). -/
def validMessageTypes : List (NotificationMessageType × Bool) :=
  [(MessageTypeCreate, true), (MessageTypeUpdate, true), (MessageTypeDelete, true)]

/-- Method `NotificationMessageType.IsValid` (domain/types.go:83-85). -/
def NotificationMessageType.IsValid (m : NotificationMessageType) : Bool :=
  (validMessageTypes.lookup m).getD false

/-! ## `internal/dto` -/

/-- The struct `dto.NotificationRequest`. -/
structure NotificationRequest where
  Type_ : NotificationType
  Recipient : String
  Subject : String
  Content : String
deriving DecidableEq, Repr, Inhabited

/-- The struct `dto.UpdateNotificationRequest`. -/
structure UpdateNotificationRequest where
  Subject : String
  Content : String
deriving DecidableEq, Repr, Inhabited

/-- The struct `dto.NotificationMessage`. -/
structure NotificationMessage where
  ID : Int
  NotificationType : NotificationType
  NotificationMessageType : NotificationMessageType
  Recipient : String
  Subject : String
  Content : String
deriving DecidableEq, Repr, Inhabited

/-- Function `NewNotificationMessage` (dto/message.go:16-25). -/
def NewNotificationMessage (n : Notification) (messageType : NotificationMessageType) :
    NotificationMessage :=
  { ID := n.ID
    NotificationType := n.Type_
    NotificationMessageType := messageType
    Recipient := n.Recipient
    Subject := n.Subject
    Content := n.Content }

/-- The struct `dto.NotificationResponse`. -/
structure NotificationResponse where
  ID : Int
  Type_ : NotificationType
  Recipient : String
  Subject : String
  Content : String
  CreatedAt : Int
deriving DecidableEq, Repr, Inhabited

/-- Function `FromEntity` (dto/response.go:20-29). -/
def FromEntity (n : Notification) : NotificationResponse :=
  { ID := n.ID
    Type_ := n.Type_
    Recipient := n.Recipient
    Subject := n.Subject
    Content := n.Content
    CreatedAt := n.CreatedAt }

/-! ## Collaborator calls and the computation type -/

/-- A command queued on a go-redis pipeline. -/
inductive PipeCmd where
  | ZAdd (key : String) (score : Int) (member : String)
  | ZRemRangeByRank (key : String) (start stop : Int)
deriving DecidableEq, Repr

/-- The closures started with `go func() { ... }()`.
`CacheNotification n` is the closure of `GetNotificationByID`
(service/notification.go:119-124); `CreateFanout`, `UpdateFanout` and
`DeleteFanout` are the closures of the three write operations
(service/notification.go:74-92, 235-253, 289-307), with the values they capture. -/
inductive Task where
  | CacheNotification (n : Notification)
  | CreateFanout (n : Notification)
  | UpdateFanout (id : Int) (n : Notification)
  | DeleteFanout (id : Int) (n : Notification)
deriving DecidableEq, Repr

/-- One collaborator call, with what was sent and what came back. -/
inductive Event where
  | Get (key : String) (val : String) (err : Option Error)
  | Set (key value : String) (ttl : Int) (err : Option Error)
  | Del (key : String) (err : Option Error)
  | ZRevRange (key : String) (start stop : Int) (val : List String) (err : Option Error)
  | SetNX (key value : String) (ttl : Int) (val : Bool) (err : Option Error)
  | Exec (cmds : List PipeCmd) (err : Option Error)
  | First (id : Int) (row : Notification) (err : Option Error)
  | Find (order : String) (limit : Int) (rows : List Notification) (err : Option Error)
  | Sleep (d : Int)
  | Go (t : Task)
  | Begin (err : Option Error)
  | FirstForUpdate (id : Int) (row : Notification) (err : Option Error)
  | Save (value out : Notification) (err : Option Error)
  | Delete (id : Int) (err : Option Error)
  | Commit (err : Option Error)
  | Rollback (err : Option Error)
  | SendSync (topic tag body : String) (status : Int) (err : Option Error)
deriving DecidableEq, Repr

/-- A computation over the outside state `σ`: return value, next state, calls made. -/
def M (σ α : Type) : Type := σ → α × σ × List Event

/-- Return without touching the outside world. -/
def M.pure {σ α : Type} (a : α) : M σ α := fun w => (a, w, [])

/-- Sequencing: the second computation starts in the state the first one left,
and the calls are concatenated in order. -/
def M.bind {σ α β : Type} (x : M σ α) (f : α → M σ β) : M σ β := fun w =>
  ((f (x w).1 (x w).2.1).1, (f (x w).1 (x w).2.1).2.1, (x w).2.2 ++ (f (x w).1 (x w).2.1).2.2)

instance {σ : Type} : Monad (M σ) where
  pure := M.pure
  bind := M.bind

/-- A call that does not touch the outside state and is only recorded. -/
def M.emit {σ : Type} (e : Event) : M σ Unit := fun w => ((), w, [e])

/-- The go-redis client, as the replies it gives in each outside state. -/
structure RedisClient (σ : Type) where
  get : String → σ → (String × Option Error) × σ
  set : String → String → Int → σ → Option Error × σ
  del : String → σ → Option Error × σ
  zRevRange : String → Int → Int → σ → (List String × Option Error) × σ
  setNX : String → String → Int → σ → (Bool × Option Error) × σ
  exec : List PipeCmd → σ → Option Error × σ

/-- The gorm handle, as the replies it gives in each outside state.
`first id` is `First(&notification, id)`; `find order limit` is
`Order(order).Limit(limit).Find(&notifications)`; `firstForUpdate id` is
`Clauses(clause.Locking{Strength: "UPDATE"}).First(&notification, id)`;
`save value` is `Save(value)`, replying the struct as gorm leaves it behind the
pointer; `delete id` is `Delete(&domain.Notification{}, id)`. -/
structure GormDB (σ : Type) where
  first : Int → σ → (Notification × Option Error) × σ
  find : String → Int → σ → (List Notification × Option Error) × σ
  begin : σ → Option Error × σ
  firstForUpdate : Int → σ → (Notification × Option Error) × σ
  save : Notification → σ → (Notification × Option Error) × σ
  delete : Int → σ → Option Error × σ
  commit : σ → Option Error × σ
  rollback : σ → Option Error × σ

/-- The RocketMQ producer, as the replies it gives in each outside state:
`sendSync topic tag body` is `SendSync(ctx, msg)`, replying the send status and
an error. -/
structure MQProducer (σ : Type) where
  sendSync : String → String → String → σ → (Int × Option Error) × σ

/-- The constant `primitive.SendOK`. -/
def SendOK : Int := 0

/-- The functions `json.Marshal` and `json.Unmarshal` at type `domain.Notification`. -/
structure Json where
  Marshal : Notification → String × Option Error
  Unmarshal : String → Notification × Option Error

namespace RedisClient
variable {σ : Type}

/-- The call `client.Get(ctx, key).Result()`. -/
def Get (c : RedisClient σ) (key : String) : M σ (String × Option Error) := fun w =>
  ((c.get key w).1, (c.get key w).2, [Event.Get key (c.get key w).1.1 (c.get key w).1.2])

/-- The call `client.Set(ctx, key, value, ttl).Err()`. -/
def Set (c : RedisClient σ) (key value : String) (ttl : Int) : M σ (Option Error) := fun w =>
  ((c.set key value ttl w).1, (c.set key value ttl w).2,
    [Event.Set key value ttl (c.set key value ttl w).1])

/-- The call `client.Del(ctx, key).Err()`. -/
def Del (c : RedisClient σ) (key : String) : M σ (Option Error) := fun w =>
  ((c.del key w).1, (c.del key w).2, [Event.Del key (c.del key w).1])

/-- The call `client.ZRevRange(ctx, key, start, stop).Result()`. -/
def ZRevRange (c : RedisClient σ) (key : String) (start stop : Int) :
    M σ (List String × Option Error) := fun w =>
  ((c.zRevRange key start stop w).1, (c.zRevRange key start stop w).2,
    [Event.ZRevRange key start stop (c.zRevRange key start stop w).1.1
      (c.zRevRange key start stop w).1.2])

/-- The call `client.SetNX(ctx, key, value, ttl).Result()`. -/
def SetNX (c : RedisClient σ) (key value : String) (ttl : Int) :
    M σ (Bool × Option Error) := fun w =>
  ((c.setNX key value ttl w).1, (c.setNX key value ttl w).2,
    [Event.SetNX key value ttl (c.setNX key value ttl w).1.1 (c.setNX key value ttl w).1.2])

/-- The call `pipe.Exec(ctx)` on a pipeline holding `cmds`. -/
def Exec (c : RedisClient σ) (cmds : List PipeCmd) : M σ (Option Error) := fun w =>
  ((c.exec cmds w).1, (c.exec cmds w).2, [Event.Exec cmds (c.exec cmds w).1])

end RedisClient

namespace GormDB
variable {σ : Type}

/-- The call `db.WithContext(ctx).First(&notification, id).Error`, with the row read. -/
def First (d : GormDB σ) (id : Int) : M σ (Notification × Option Error) := fun w =>
  ((d.first id w).1, (d.first id w).2, [Event.First id (d.first id w).1.1 (d.first id w).1.2])

/-- The call `db.WithContext(ctx).Order(order).Limit(limit).Find(&notifications).Error`,
with the rows read. -/
def Find (d : GormDB σ) (order : String) (limit : Int) :
    M σ (List Notification × Option Error) := fun w =>
  ((d.find order limit w).1, (d.find order limit w).2,
    [Event.Find order limit (d.find order limit w).1.1 (d.find order limit w).1.2])

/-- The call `db.WithContext(ctx).Begin()`, with its `Error` field. -/
def Begin (d : GormDB σ) : M σ (Option Error) := fun w =>
  ((d.begin w).1, (d.begin w).2, [Event.Begin (d.begin w).1])

/-- The call `db.WithContext(ctx).Clauses(clause.Locking{...}).First(&notification, id).Error`,
with the row read. -/
def FirstForUpdate (d : GormDB σ) (id : Int) : M σ (Notification × Option Error) := fun w =>
  ((d.firstForUpdate id w).1, (d.firstForUpdate id w).2,
    [Event.FirstForUpdate id (d.firstForUpdate id w).1.1 (d.firstForUpdate id w).1.2])

/-- The call `db.WithContext(ctx).Save(value).Error`, with the struct left behind the pointer. -/
def Save (d : GormDB σ) (value : Notification) : M σ (Notification × Option Error) := fun w =>
  ((d.save value w).1, (d.save value w).2,
    [Event.Save value (d.save value w).1.1 (d.save value w).1.2])

/-- The call `db.WithContext(ctx).Delete(&domain.Notification{}, id).Error`. -/
def Delete (d : GormDB σ) (id : Int) : M σ (Option Error) := fun w =>
  ((d.delete id w).1, (d.delete id w).2, [Event.Delete id (d.delete id w).1])

/-- The call `db.Commit().Error`. -/
def Commit (d : GormDB σ) : M σ (Option Error) := fun w =>
  ((d.commit w).1, (d.commit w).2, [Event.Commit (d.commit w).1])

/-- The call `db.Rollback().Error`. -/
def Rollback (d : GormDB σ) : M σ (Option Error) := fun w =>
  ((d.rollback w).1, (d.rollback w).2, [Event.Rollback (d.rollback w).1])

end GormDB

/-- The call `producer.SendSync(ctx, msg)` for a message with the given topic, tag and body. -/
def MQProducer.SendSync {σ : Type} (p : MQProducer σ) (topic tag body : String) :
    M σ (Int × Option Error) := fun w =>
  ((p.sendSync topic tag body w).1, (p.sendSync topic tag body w).2,
    [Event.SendSync topic tag body (p.sendSync topic tag body w).1.1
      (p.sendSync topic tag body w).1.2])

/-! ## `internal/cache/redis.go` -/

/-- The struct `cache.RedisCache`; `json` stands for the `encoding/json` package
its methods call. -/
structure RedisCache (σ : Type) where
  client : RedisClient σ
  recentListKey : String
  notificationKeyPrefix : String
  cacheTTL : Int
  json : Json

namespace RedisCache
variable {σ : Type}

/-- The key `fmt.Sprintf("%s%d", r.notificationKeyPrefix, id)`. -/
def notificationKey (r : RedisCache σ) (id : Int) : String :=
  r.notificationKeyPrefix ++ toString id

/-- Method `FindNotificationByID` (redis.go:46-63). -/
def FindNotificationByID (r : RedisCache σ) (id : Int) :
    M σ (Option Notification × Option Error) := do
  let key := r.notificationKey id
  let res ← r.client.Get key
  if res.2 = some Error.redisNil then
    pure (none, none)
  else
    match res.2 with
    | some err => pure (none, some (Error.Errorf "failed to get notification from cache" err))
    | none =>
      match (r.json.Unmarshal res.1).2 with
      | some err => pure (none, some (Error.Errorf "failed to unmarshal notification" err))
      | none => pure (some (r.json.Unmarshal res.1).1, none)

/-- Method `CacheNotification` (redis.go:66-79). -/
def CacheNotification (r : RedisCache σ) (notification : Notification) : M σ (Option Error) := do
  let key := r.notificationKey notification.ID
  match (r.json.Marshal notification).2 with
  | some err => pure (some (Error.Errorf "failed to marshal notification" err))
  | none =>
    let err ← r.client.Set key (r.json.Marshal notification).1 r.cacheTTL
    match err with
    | some err => pure (some (Error.Errorf "failed to cache notification" err))
    | none => pure none

/-- The loop body of `FindRecentNotifications` (redis.go:100-106): unmarshal every
member in order, stopping at the first failure. -/
def unmarshalAll (j : Json) : List String → List Notification → List Notification × Option Error
  | [], acc => (acc, none)
  | data :: rest, acc =>
    match (j.Unmarshal data).2 with
    | some err => ([], some (Error.Errorf "failed to unmarshal notification" err))
    | none => unmarshalAll j rest (acc ++ [(j.Unmarshal data).1])

/-- Method `FindRecentNotifications` (redis.go:88-109). -/
def FindRecentNotifications (r : RedisCache σ) : M σ (List Notification × Option Error) := do
  let res ← r.client.ZRevRange r.recentListKey 0 (-1)
  match res.2 with
  | some err => pure ([], some (Error.Errorf "failed to get recent notifications from cache" err))
  | none =>
    if res.1.length = 0 then
      pure ([], none)
    else
      pure (unmarshalAll r.json res.1 [])

/-- The first loop of `PopulateRecentList` (redis.go:120-131): marshal every
notification and queue a `ZADD` scored by `CreatedAt.UnixMilli()`; a marshal
failure abandons the pipeline. -/
def queueZAdds (r : RedisCache σ) : List Notification → List PipeCmd → List PipeCmd × Option Error
  | [], pipe => (pipe, none)
  | notification :: rest, pipe =>
    match (r.json.Marshal notification).2 with
    | some err => (pipe, some (Error.Errorf "failed to marshal notification" err))
    | none =>
      queueZAdds r rest
        (pipe ++ [PipeCmd.ZAdd r.recentListKey (UnixMilli notification.CreatedAt)
          (r.json.Marshal notification).1])

/-- Method `PopulateRecentList` (redis.go:112-142). -/
def PopulateRecentList (r : RedisCache σ) (notifications : List Notification) :
    M σ (Option Error) :=
  if notifications.length = 0 then
    pure none
  else
    match (r.queueZAdds notifications []).2 with
    | some err => pure (some err)
    | none => do
      let pipe := (r.queueZAdds notifications []).1 ++
        [PipeCmd.ZRemRangeByRank r.recentListKey 0 (-11)]
      let err ← r.client.Exec pipe
      match err with
      | some err => pure (some (Error.Errorf "failed to populate recent list" err))
      | none => pure none

/-- Method `DeleteNotification` (redis.go:82-85). -/
def DeleteNotification (r : RedisCache σ) (id : Int) : M σ (Option Error) :=
  r.client.Del (r.notificationKey id)

/-- Method `ClearRecentList` (redis.go:145-147). -/
def ClearRecentList (r : RedisCache σ) : M σ (Option Error) :=
  r.client.Del r.recentListKey

/-- Method `SetNXWithExpiration` (redis.go:150-152). -/
def SetNXWithExpiration (r : RedisCache σ) (key value : String) (expiration : Int) :
    M σ (Bool × Option Error) :=
  r.client.SetNX key value expiration

/-- Method `DeleteKey` (redis.go:155-157). -/
def DeleteKey (r : RedisCache σ) (key : String) : M σ (Option Error) :=
  r.client.Del key

/-- Method `GetLockKey` (redis.go:160-162): `fmt.Sprintf("%s:%s:lock", r.recentListKey, operation)`. -/
def GetLockKey (r : RedisCache σ) (operation : String) : String :=
  r.recentListKey ++ ":" ++ operation ++ ":lock"

end RedisCache

/-! ## `internal/repository/notification.go` -/

/-- The struct `repository.NotificationRepository`. -/
structure NotificationRepository (σ : Type) where
  db : GormDB σ

namespace NotificationRepository
variable {σ : Type}

/-- Method `FindByID` (repository/notification.go:43-53). -/
def FindByID (r : NotificationRepository σ) (id : Int) :
    M σ (Option Notification × Option Error) := do
  let res ← r.db.First id
  if res.2 = some Error.ErrRecordNotFound then
    pure (none, none)
  else
    match res.2 with
    | some err => pure (none, some err)
    | none => pure (some res.1, none)

/-- Method `FindTop10ByOrderByCreatedAtDesc` (repository/notification.go:72-82). -/
def FindTop10ByOrderByCreatedAtDesc (r : NotificationRepository σ) :
    M σ (List Notification × Option Error) := do
  let res ← r.db.Find "created_at DESC" 10
  match res.2 with
  | some err => pure ([], some err)
  | none => pure (res.1, none)

/-- Method `Save` (repository/notification.go:38-40); the first component is the
struct behind the pointer after the call. -/
def Save (r : NotificationRepository σ) (notification : Notification) :
    M σ (Notification × Option Error) :=
  r.db.Save notification

/-- Method `FindNotificationAndLockByID` (repository/notification.go:57-69). -/
def FindNotificationAndLockByID (r : NotificationRepository σ) (id : Int) :
    M σ (Option Notification × Option Error) := do
  let res ← r.db.FirstForUpdate id
  if res.2 = some Error.ErrRecordNotFound then
    pure (none, none)
  else
    match res.2 with
    | some err => pure (none, some err)
    | none => pure (some res.1, none)

/-- Method `DeleteByID` (repository/notification.go:85-87). -/
def DeleteByID (r : NotificationRepository σ) (id : Int) : M σ (Option Error) :=
  r.db.Delete id

/-- Method `BeginTx` (repository/notification.go:90-96): the repository bound to
the transaction, and the error of `Begin`. With an error the Go method returns a
nil repository, which no caller uses; the model returns the repository all the same. -/
def BeginTx (r : NotificationRepository σ) :
    M σ (NotificationRepository σ × Option Error) := do
  let err ← r.db.Begin
  match err with
  | some err => pure (⟨r.db⟩, some err)
  | none => pure (⟨r.db⟩, none)

/-- Method `Commit` (repository/notification.go:99-101). -/
def Commit (r : NotificationRepository σ) : M σ (Option Error) :=
  r.db.Commit

/-- Method `Rollback` (repository/notification.go:104-106). -/
def Rollback (r : NotificationRepository σ) : M σ (Option Error) :=
  r.db.Rollback

end NotificationRepository

/-! ## `internal/mq/producer.go` -/

/-- The struct `mq.NotificationProducer`; `marshal` stands for `json.Marshal` at
type `dto.NotificationMessage`. -/
structure NotificationProducer (σ : Type) where
  producer : MQProducer σ
  topic : String
  marshal : NotificationMessage → String × Option Error

/-- Method `SendNotification` (mq/producer.go:46-69). -/
def NotificationProducer.SendNotification {σ : Type} (p : NotificationProducer σ)
    (message : NotificationMessage) : M σ (Option Error) :=
  match (p.marshal message).2 with
  | some err => pure (some (Error.Errorf "failed to marshal message" err))
  | none => do
    let res ← p.producer.SendSync p.topic message.NotificationMessageType (p.marshal message).1
    match res.2 with
    | some err => pure (some (Error.Errorf "failed to send message" err))
    | none =>
      if res.1 ≠ SendOK then
        pure (some (Error.New ("message send status not OK: " ++ toString res.1)))
      else
        pure none

/-! ## `internal/service/notification.go` -/

/-- The struct `service.NotificationServiceImpl`. -/
structure NotificationServiceImpl (σ : Type) where
  repo : NotificationRepository σ
  cache : RedisCache σ
  producer : NotificationProducer σ

namespace NotificationServiceImpl
variable {σ : Type}

/-- The body of a spawned closure. `Task.CacheNotification n` is
service/notification.go:119-124, `Task.CreateFanout n` is 74-92,
`Task.UpdateFanout id n` is 235-253 and `Task.DeleteFanout id n` is 289-307;
every error is only logged. -/
def runTask (s : NotificationServiceImpl σ) : Task → M σ Unit
  | Task.CacheNotification n => do
    let _ ← s.cache.CacheNotification n
    pure ()
  | Task.CreateFanout n => do
    let _ ← s.producer.SendNotification (NewNotificationMessage n MessageTypeCreate)
    let _ ← s.cache.CacheNotification n
    let _ ← s.cache.ClearRecentList
    pure ()
  | Task.UpdateFanout id n => do
    let _ ← s.cache.ClearRecentList
    let _ ← s.cache.DeleteNotification id
    let _ ← s.producer.SendNotification (NewNotificationMessage n MessageTypeUpdate)
    pure ()
  | Task.DeleteFanout id n => do
    let _ ← s.cache.ClearRecentList
    let _ ← s.cache.DeleteNotification id
    let _ ← s.producer.SendNotification (NewNotificationMessage n MessageTypeDelete)
    pure ()

/-- Method `CreateNotification` (service/notification.go:46-95). -/
def CreateNotification (s : NotificationServiceImpl σ) (req : NotificationRequest) :
    M σ (Option Notification × Option Error) := do
  let notification : Notification :=
    { ID := 0
      Type_ := req.Type_
      Recipient := req.Recipient
      Subject := req.Subject
      Content := req.Content
      CreatedAt := zeroTime
      Version := 0 }
  let tx ← s.repo.BeginTx
  match tx.2 with
  | some err => pure (none, some (Error.Errorf "failed to begin transaction" err))
  | none =>
    let txRepo := tx.1
    let saved ← txRepo.Save notification
    match saved.2 with
    | some err =>
      let _ ← txRepo.Rollback
      pure (none, some (Error.Errorf "failed to save notification" err))
    | none =>
      let cerr ← txRepo.Commit
      match cerr with
      | some err => pure (none, some (Error.Errorf "failed to commit transaction" err))
      | none =>
        M.emit (Event.Go (Task.CreateFanout saved.1))
        pure (some saved.1, none)

/-- Method `UpdateNotification` (service/notification.go:201-256). -/
def UpdateNotification (s : NotificationServiceImpl σ) (id : Int)
    (req : UpdateNotificationRequest) : M σ (Option Notification × Option Error) := do
  let tx ← s.repo.BeginTx
  match tx.2 with
  | some err => pure (none, some (Error.Errorf "failed to begin transaction" err))
  | none =>
    let txRepo := tx.1
    let found ← txRepo.FindNotificationAndLockByID id
    match found.2 with
    | some err =>
      let _ ← txRepo.Rollback
      pure (none, some (Error.Errorf "failed to find and lock notification" err))
    | none =>
      match found.1 with
      | none =>
        let _ ← txRepo.Rollback
        pure (none, none)
      | some locked =>
        let notification := { locked with Subject := req.Subject, Content := req.Content }
        let saved ← txRepo.Save notification
        match saved.2 with
        | some err =>
          let _ ← txRepo.Rollback
          pure (none, some (Error.Errorf "failed to update notification" err))
        | none =>
          let cerr ← txRepo.Commit
          match cerr with
          | some err => pure (none, some (Error.Errorf "failed to commit transaction" err))
          | none =>
            M.emit (Event.Go (Task.UpdateFanout id saved.1))
            pure (some saved.1, none)

/-- Method `DeleteNotification` (service/notification.go:259-310). -/
def DeleteNotification (s : NotificationServiceImpl σ) (id : Int) :
    M σ (Bool × Option Error) := do
  let tx ← s.repo.BeginTx
  match tx.2 with
  | some err => pure (false, some (Error.Errorf "failed to begin transaction" err))
  | none =>
    let txRepo := tx.1
    let found ← txRepo.FindNotificationAndLockByID id
    match found.2 with
    | some err =>
      let _ ← txRepo.Rollback
      pure (false, some (Error.Errorf "failed to find and lock notification" err))
    | none =>
      match found.1 with
      | none =>
        let _ ← txRepo.Rollback
        pure (false, none)
      | some notification =>
        let derr ← txRepo.DeleteByID id
        match derr with
        | some err =>
          let _ ← txRepo.Rollback
          pure (false, some (Error.Errorf "failed to delete notification" err))
        | none =>
          let cerr ← txRepo.Commit
          match cerr with
          | some err => pure (false, some (Error.Errorf "failed to commit transaction" err))
          | none =>
            M.emit (Event.Go (Task.DeleteFanout id notification))
            pure (true, none)

/-- Method `GetNotificationByID` (service/notification.go:98-127). -/
def GetNotificationByID (s : NotificationServiceImpl σ) (id : Int) :
    M σ (Option Notification × Option Error) := do
  let cached ← s.cache.FindNotificationByID id
  match cached.1 with
  | some cachedNotification => pure (some cachedNotification, none)
  | none =>
    let found ← s.repo.FindByID id
    match found.2 with
    | some err => pure (none, some (Error.Errorf "failed to find notification" err))
    | none =>
      match found.1 with
      | none => pure (none, none)
      | some notification =>
        M.emit (Event.Go (Task.CacheNotification notification))
        pure (some notification, none)

/-- The branch of `GetRecentNotifications` taken once the lock is acquired
(service/notification.go:158-180), without the deferred release. -/
def rebuildRecent (s : NotificationServiceImpl σ) : M σ (List Notification × Option Error) := do
  let recent ← s.cache.FindRecentNotifications
  if recent.1.length > 0 then
    pure (recent.1, none)
  else
    let fetched ← s.repo.FindTop10ByOrderByCreatedAtDesc
    match fetched.2 with
    | some err => pure ([], some (Error.Errorf "failed to fetch recent notifications" err))
    | none =>
      if fetched.1.length > 0 then
        let _ ← s.cache.PopulateRecentList fetched.1
        pure (fetched.1, none)
      else
        pure (fetched.1, none)

/-- Method `GetRecentNotifications` (service/notification.go:130-198). The deferred
`DeleteKey` of the acquired branch runs after that branch has computed its
return value, on each of its exits. -/
def GetRecentNotifications (s : NotificationServiceImpl σ) :
    M σ (List Notification × Option Error) := do
  let recent ← s.cache.FindRecentNotifications
  if recent.1.length > 0 then
    pure (recent.1, none)
  else
    let lockKey := s.cache.GetLockKey "getRecentNotifications"
    let lock ← s.cache.SetNXWithExpiration lockKey "locked" (30 * Second)
    match lock.2 with
    | some _ => s.repo.FindTop10ByOrderByCreatedAtDesc
    | none =>
      if lock.1 then
        let result ← s.rebuildRecent
        let _ ← s.cache.DeleteKey lockKey
        pure result
      else
        M.emit (Event.Sleep (100 * Millisecond))
        let retried ← s.cache.FindRecentNotifications
        if retried.1.length > 0 then
          pure (retried.1, none)
        else
          s.repo.FindTop10ByOrderByCreatedAtDesc

end NotificationServiceImpl

/-! ## Goroutines run to completion -/

/-- The tasks started by the calls of a trace, in the order they were started. -/
def spawned : List Event → List Task
  | [] => []
  | Event.Go t :: rest => t :: spawned rest
  | _ :: rest => spawned rest

/-- The tasks run one after the other. -/
def NotificationServiceImpl.runTasks {σ : Type} (s : NotificationServiceImpl σ) :
    List Task → M σ Unit
  | [] => pure ()
  | t :: ts => do
    s.runTask t
    s.runTasks ts

/-- An operation followed by the completion of the goroutines it started, with
nothing else in between: the value is that of the operation, the state is the
one the last goroutine leaves. -/
def NotificationServiceImpl.settled {σ α : Type} (s : NotificationServiceImpl σ)
    (op : M σ α) : M σ α := fun w =>
  ((op w).1, (s.runTasks (spawned (op w).2.2) (op w).2.1).2.1,
    (op w).2.2 ++ (s.runTasks (spawned (op w).2.2) (op w).2.1).2.2)

/-! ## `internal/handler/notification.go` -/

/-- The struct `dto.ErrorResponse`. -/
structure ErrorResponse where
  Message : String
deriving DecidableEq, Repr

/-- What a handler writes with `c.JSON`. -/
inductive Body where
  | error (r : ErrorResponse)
  | notification (r : NotificationResponse)
deriving DecidableEq, Repr

/-- The HTTP response a handler writes: status code and JSON body. -/
structure HTTPResponse where
  status : Nat
  body : Body
deriving DecidableEq, Repr

/-- The constant `http.StatusBadRequest`. -/
def StatusBadRequest : Nat := 400

/-- The constant `http.StatusInternalServerError`. -/
def StatusInternalServerError : Nat := 500

/-- The constant `http.StatusCreated`. -/
def StatusCreated : Nat := 201

/-- The struct `handler.NotificationHandler`. -/
structure NotificationHandler (σ : Type) where
  service : NotificationServiceImpl σ

/-- Method `NotificationHandler.CreateNotification` (handler/notification.go:37-63).
The argument `bound` is the outcome of `c.ShouldBindJSON(&req)`: the request it
filled in and its error. A nil notification next to a nil error, which the
service never returns, would make `dto.FromEntity` panic; gin's recovery answers
500, with a body that is not modelled. -/
def NotificationHandler.CreateNotification {σ : Type} (h : NotificationHandler σ)
    (bound : NotificationRequest × Option Error) : M σ HTTPResponse :=
  match bound.2 with
  | some err =>
    pure ⟨StatusBadRequest, Body.error ⟨"Invalid request body: " ++ err.message⟩⟩
  | none =>
    if !bound.1.Type_.IsValid then
      pure ⟨StatusBadRequest, Body.error ⟨"Invalid notification type"⟩⟩
    else do
      let res ← h.service.CreateNotification bound.1
      match res.2 with
      | some err =>
        pure ⟨StatusInternalServerError,
          Body.error ⟨"Failed to create notification: " ++ err.message⟩⟩
      | none =>
        match res.1 with
        | some notification => pure ⟨StatusCreated, Body.notification (FromEntity notification)⟩
        | none => pure ⟨StatusInternalServerError, Body.error ⟨""⟩⟩

/-! ## Which calls each method makes -/

/-- A query of the entity store for the most recent rows. -/
def Event.isFind : Event → Bool
  | Event.Find _ _ _ _ => true
  | _ => false

/-- Any query of the entity store. -/
def Event.isStoreQuery : Event → Bool
  | Event.Find _ _ _ _ => true
  | Event.First _ _ _ => true
  | _ => false

/-- A pipeline execution, the only call that writes the recent list. -/
def Event.isExec : Event → Bool
  | Event.Exec _ _ => true
  | _ => false

/-- A `DEL` command. -/
def Event.isDel : Event → Bool
  | Event.Del _ _ => true
  | _ => false

/-- A `SETNX` command, the lock-acquisition attempt. -/
def Event.isSetNX : Event → Bool
  | Event.SetNX _ _ _ _ _ => true
  | _ => false

/-- A `ZREVRANGE` command, the read of the cached recent list. -/
def Event.isZRevRange : Event → Bool
  | Event.ZRevRange _ _ _ _ _ => true
  | _ => false

/-- A started goroutine. -/
def Event.isGo : Event → Bool
  | Event.Go _ => true
  | _ => false

/-- A `SETNX` that reported the lock as acquired: value `true`, no error. -/
def Event.isAcquired : Event → Bool
  | Event.SetNX _ _ _ true none => true
  | _ => false

/-- The wait of the contended path. -/
def Event.isSleep : Event → Bool
  | Event.Sleep _ => true
  | _ => false

/-- A `Rollback` of the transaction. -/
def Event.isRollback : Event → Bool
  | Event.Rollback _ => true
  | _ => false

/-- A `Commit` of the transaction. -/
def Event.isCommit : Event → Bool
  | Event.Commit _ => true
  | _ => false

/-- A statement that failed inside the open transaction: a `Save` or a `Delete`
with an error, or a locking read with an error other than not-found. -/
def Event.isFailedTxStep : Event → Bool
  | Event.Save _ _ (some _) => true
  | Event.Delete _ (some _) => true
  | Event.FirstForUpdate _ _ (some err) => decide (err ≠ Error.ErrRecordNotFound)
  | _ => false

/-- A `Save` of an entity. -/
def Event.isSave : Event → Bool
  | Event.Save _ _ _ => true
  | _ => false

/-- A write to the entity store: `Save` or `Delete`. -/
def Event.isStoreWrite : Event → Bool
  | Event.Save _ _ _ => true
  | Event.Delete _ _ => true
  | _ => false

/-- Any call to the entity store. -/
def Event.isStoreAccess : Event → Bool
  | Event.First _ _ _ => true
  | Event.Find _ _ _ _ => true
  | Event.Begin _ => true
  | Event.FirstForUpdate _ _ _ => true
  | Event.Save _ _ _ => true
  | Event.Delete _ _ => true
  | Event.Commit _ => true
  | Event.Rollback _ => true
  | _ => false

/-- Any call to Redis. -/
def Event.isCacheCall : Event → Bool
  | Event.Get _ _ _ => true
  | Event.Set _ _ _ _ => true
  | Event.Del _ _ => true
  | Event.ZRevRange _ _ _ _ _ => true
  | Event.SetNX _ _ _ _ _ => true
  | Event.Exec _ _ => true
  | _ => false

/-- A message handed to the broker. -/
def Event.isSendSync : Event → Bool
  | Event.SendSync _ _ _ _ _ => true
  | _ => false

/-- A `SET` command, the only call that writes a per-id cache entry. -/
def Event.isSet : Event → Bool
  | Event.Set _ _ _ _ => true
  | _ => false

/-! ## Scripted collaborators

Test doubles used to exhibit concrete executions: the outside state is the list
of replies each kind of call will receive, consumed in order. -/

/-- The replies still to be given, per kind of call. -/
structure Script where
  gets : List (String × Option Error)
  sets : List (Option Error)
  dels : List (Option Error)
  zRevRanges : List (List String × Option Error)
  setNXs : List (Bool × Option Error)
  execs : List (Option Error)
  firsts : List (Notification × Option Error)
  finds : List (List Notification × Option Error)
  begins : List (Option Error)
  firstForUpdates : List (Notification × Option Error)
  saves : List (Notification × Option Error)
  deletes : List (Option Error)
  commits : List (Option Error)
  rollbacks : List (Option Error)
  sends : List (Int × Option Error)
deriving DecidableEq, Repr

/-- The reply given when a script has run out: the connection is closed. -/
def Script.closed : Error := Error.New "use of closed network connection"

/-- A script with no replies left. -/
def Script.empty : Script := ⟨[], [], [], [], [], [], [], [], [], [], [], [], [], [], []⟩

/-- A Redis client that answers from the script. -/
def scriptedClient : RedisClient Script where
  get _ w := (w.gets.headD ("", some Script.closed), { w with gets := w.gets.tail })
  set _ _ _ w := (w.sets.headD (some Script.closed), { w with sets := w.sets.tail })
  del _ w := (w.dels.headD (some Script.closed), { w with dels := w.dels.tail })
  zRevRange _ _ _ w :=
    (w.zRevRanges.headD ([], some Script.closed), { w with zRevRanges := w.zRevRanges.tail })
  setNX _ _ _ w := (w.setNXs.headD (false, some Script.closed), { w with setNXs := w.setNXs.tail })
  exec _ w := (w.execs.headD (some Script.closed), { w with execs := w.execs.tail })

/-- A database handle that answers from the script. -/
def scriptedDB : GormDB Script where
  first _ w := (w.firsts.headD (default, some Script.closed), { w with firsts := w.firsts.tail })
  find _ _ w := (w.finds.headD ([], some Script.closed), { w with finds := w.finds.tail })
  begin w := (w.begins.headD (some Script.closed), { w with begins := w.begins.tail })
  firstForUpdate _ w :=
    (w.firstForUpdates.headD (default, some Script.closed),
      { w with firstForUpdates := w.firstForUpdates.tail })
  save value w := (w.saves.headD (value, some Script.closed), { w with saves := w.saves.tail })
  delete _ w := (w.deletes.headD (some Script.closed), { w with deletes := w.deletes.tail })
  commit w := (w.commits.headD (some Script.closed), { w with commits := w.commits.tail })
  rollback w := (w.rollbacks.headD (some Script.closed), { w with rollbacks := w.rollbacks.tail })

/-- A broker that answers from the script. -/
def scriptedProducer : MQProducer Script where
  sendSync _ _ _ w := (w.sends.headD (SendOK, some Script.closed), { w with sends := w.sends.tail })

/-- A message codec that writes the kind and the id of the event. -/
def sampleMarshal (m : NotificationMessage) : String × Option Error :=
  (m.NotificationMessageType ++ ":" ++ toString m.ID, none)

/-- A sample row. -/
def nA : Notification :=
  ⟨1, "EMAIL", "a@example.com", "hello", "first", 1700000000000000000, 0⟩

/-- A second, more recent sample row. -/
def nB : Notification :=
  ⟨2, "SMS", "+15550100", "", "second", 1700000001000000000, 0⟩

/-- A codec that knows the two sample rows and rejects everything else. -/
def sampleJson : Json where
  Marshal n :=
    if n = nA then ("A", none)
    else if n = nB then ("B", none)
    else ("", some (Error.New "json: unsupported value"))
  Unmarshal data :=
    if data = "A" then (nA, none)
    else if data = "B" then (nB, none)
    else (default, some (Error.New "invalid character"))

/-- A cache over the scripted client. -/
def sampleCache : RedisCache Script :=
  ⟨scriptedClient, "notifications:recent", "notification:", 10 * Minute, sampleJson⟩

/-- A service over the scripted collaborators. -/
def sampleService : NotificationServiceImpl Script :=
  ⟨⟨scriptedDB⟩, sampleCache, ⟨scriptedProducer, "notification-topic", sampleMarshal⟩⟩

/-- The lock key of `sampleService`. -/
def sampleLockKey : String := "notifications:recent:getRecentNotifications:lock"

/-- Cold cache, free lock, two rows in the store. -/
def rebuildScript : Script :=
  { Script.empty with
    zRevRanges := [([], none), ([], none)]
    setNXs := [(true, none)]
    finds := [([nB, nA], none)]
    execs := [none]
    dels := [none] }

/-- Warm cache: the first read already returns the list. -/
def hitScript : Script :=
  { Script.empty with zRevRanges := [(["B", "A"], none)] }

/-- Cold cache at the first read, filled by another actor before the double check. -/
def dclHitScript : Script :=
  { Script.empty with
    zRevRanges := [([], none), (["B", "A"], none)]
    setNXs := [(true, none)]
    dels := [none] }

/-- Cold cache, lock held by another actor who fills the cache during the wait. -/
def retryHitScript : Script :=
  { Script.empty with
    zRevRanges := [([], none), (["B"], none)]
    setNXs := [(false, none)] }

/-- Cold cache and a lock acquisition that fails. -/
def lockErrorScript : Script :=
  { Script.empty with
    zRevRanges := [([], none)]
    setNXs := [(false, some Script.closed)]
    finds := [([nB, nA], none)] }

/-- Cold cache, lock held by another actor, cache still cold after the wait. -/
def contendedScript : Script :=
  { Script.empty with
    zRevRanges := [([], none), ([], none)]
    setNXs := [(false, none)]
    finds := [([nA], none)] }

/-- The entity is in the cache. -/
def entityHitScript : Script :=
  { Script.empty with gets := [("A", none)] }

/-- Cache miss and a row in the store. -/
def entityMissScript : Script :=
  { Script.empty with
    gets := [("", some Error.redisNil)]
    firsts := [(nA, none)] }

/-- Cache miss and no row in the store. -/
def entityAbsentScript : Script :=
  { Script.empty with
    gets := [("", some Error.redisNil)]
    firsts := [(default, some Error.ErrRecordNotFound)] }

/-- Redis unreachable and the store failing as well. -/
def outageScript : Script := Script.empty
/-! ## A reference model of the Redis server

The commands the cache issues, with the semantics of the Redis documentation,
over a keyspace without expiry. A sorted set is kept as the list of its
`(score, member)` entries in rank order (ascending score, ties by member). The
score `float64(CreatedAt.UnixMilli())` is kept as the integer it converts: the
conversion is exact below `2^53` milliseconds, which covers every time
`json.Marshal` accepts (years 0 to 9999). -/

/-- A value held under a key. -/
inductive RedisValue where
  | str (s : String)
  | zset (z : List (Int × String))
deriving DecidableEq, Repr

/-- The outside state of the reference model: the Redis keyspace, the rows of
the `notifications` table and, while a transaction is open, the rows as they
were when it began. -/
structure Store where
  redis : String → Option RedisValue
  rows : List Notification
  tx : Option (List Notification)

/-- Bind `key` to `v` (`none` removes the key). -/
def Store.setKey (w : Store) (key : String) (v : Option RedisValue) : Store :=
  { w with redis := fun k => if k = key then v else w.redis k }

/-- The sorted set held under `key`; a missing key is the empty sorted set. -/
def Store.zsetAt (w : Store) (key : String) : List (Int × String) :=
  match w.redis key with
  | some (RedisValue.zset z) => z
  | _ => []

/-- The reply to a command sent to a key of the wrong type. -/
def wrongType : Error :=
  Error.New "WRONGTYPE Operation against a key holding the wrong kind of value"

/-- Rank order of a sorted set: by score, then by member. -/
def ZLe (a b : Int × String) : Prop := a.1 < b.1 ∨ (a.1 = b.1 ∧ a.2 ≤ b.2)

instance ZLe.decidable : DecidableRel ZLe := fun a b =>
  decidable_of_iff (a.1 < b.1 ∨ (a.1 = b.1 ∧ a.2.toList ≤ b.2.toList))
    (by unfold ZLe; rw [String.le_iff_toList_le])

instance ZLe.isTotal : IsTotal (Int × String) ZLe where
  total a b := by
    unfold ZLe
    rcases lt_trichotomy a.1 b.1 with h | h | h
    · exact Or.inl (Or.inl h)
    · rcases le_total a.2 b.2 with h2 | h2
      · exact Or.inl (Or.inr ⟨h, h2⟩)
      · exact Or.inr (Or.inr ⟨h.symm, h2⟩)
    · exact Or.inr (Or.inl h)

instance ZLe.isTrans : IsTrans (Int × String) ZLe where
  trans a b c hab hbc := by
    unfold ZLe at *
    rcases hab with h1 | ⟨h1, h2⟩ <;> rcases hbc with h3 | ⟨h3, h4⟩
    · exact Or.inl (lt_trans h1 h3)
    · exact Or.inl (h3 ▸ h1)
    · exact Or.inl (h1 ▸ h3)
    · exact Or.inr ⟨h1.trans h3, le_trans h2 h4⟩

namespace ZSet

/-- Redis `ZADD`: a member already present takes the new score, a new member is
inserted; either way the entry goes to its rank. -/
def add (score : Int) (member : String) (z : List (Int × String)) : List (Int × String) :=
  List.orderedInsert ZLe (score, member) (z.filter (fun e => decide (e.2 ≠ member)))

/-- Redis `ZADD` of several entries, in order. -/
def addAll (entries : List (Int × String)) (z : List (Int × String)) : List (Int × String) :=
  entries.foldl (fun acc e => add e.1 e.2 acc) z

/-- A well-formed sorted set: entries in rank order, no member twice. -/
def WF (z : List (Int × String)) : Prop :=
  z.Sorted ZLe ∧ (z.map Prod.snd).Nodup

instance WF.decidable (z : List (Int × String)) : Decidable (WF z) :=
  inferInstanceAs (Decidable (z.Sorted ZLe ∧ (z.map Prod.snd).Nodup))

/-- Redis index normalisation for a collection of `n` elements: negative indexes
count from the end; the result is the inclusive range of offsets, or `none`
when the range is empty. -/
def rankRange (start stop : Int) (n : Nat) : Option (Nat × Nat) :=
  let s1 := if start < 0 then (n : Int) + start else start
  let e1 := if stop < 0 then (n : Int) + stop else stop
  let s2 := if s1 < 0 then 0 else s1
  if s2 > e1 ∨ s2 ≥ (n : Int) then none
  else some (s2.toNat, (if e1 ≥ (n : Int) then (n : Int) - 1 else e1).toNat)

/-- Redis `ZREMRANGEBYRANK start stop`: remove the entries whose ascending rank lies in the range. -/
def remRangeByRank (start stop : Int) (z : List (Int × String)) : List (Int × String) :=
  match rankRange start stop z.length with
  | none => z
  | some (a, b) => z.take a ++ z.drop (b + 1)

/-- Redis `ZREVRANGE start stop`: the members whose descending rank lies in the range. -/
def revRange (start stop : Int) (z : List (Int × String)) : List String :=
  match rankRange start stop z.length with
  | none => []
  | some (a, b) => ((z.reverse.drop a).take (b + 1 - a)).map Prod.snd

end ZSet

/-- One pipelined command applied to the keyspace. -/
def applyCmd : PipeCmd → Store → Option Error × Store
  | PipeCmd.ZAdd key score member, w =>
    match w.redis key with
    | none => (none, w.setKey key (some (RedisValue.zset (ZSet.add score member []))))
    | some (RedisValue.zset z) =>
      (none, w.setKey key (some (RedisValue.zset (ZSet.add score member z))))
    | some (RedisValue.str _) => (some wrongType, w)
  | PipeCmd.ZRemRangeByRank key start stop, w =>
    match w.redis key with
    | none => (none, w)
    | some (RedisValue.zset z) =>
      (none, w.setKey key
        (if ZSet.remRangeByRank start stop z = [] then none
         else some (RedisValue.zset (ZSet.remRangeByRank start stop z))))
    | some (RedisValue.str _) => (some wrongType, w)

/-- A pipeline: every command is applied in order; the error reported is that of
the first command that failed. -/
def execAll : List PipeCmd → Store → Option Error × Store
  | [], w => (none, w)
  | c :: cs, w =>
    (match (applyCmd c w).1 with
      | some err => some err
      | none => (execAll cs (applyCmd c w).2).1,
     (execAll cs (applyCmd c w).2).2)

/-- The Redis server seen through the client. -/
def redisServer : RedisClient Store where
  get key w :=
    match w.redis key with
    | none => (("", some Error.redisNil), w)
    | some (RedisValue.str s) => ((s, none), w)
    | some (RedisValue.zset _) => (("", some wrongType), w)
  set key value _ w := (none, w.setKey key (some (RedisValue.str value)))
  del key w := (none, w.setKey key none)
  zRevRange key start stop w :=
    match w.redis key with
    | none => (([], none), w)
    | some (RedisValue.zset z) => ((ZSet.revRange start stop z, none), w)
    | some (RedisValue.str _) => (([], some wrongType), w)
  setNX key value _ w :=
    match w.redis key with
    | none => ((true, none), w.setKey key (some (RedisValue.str value)))
    | some _ => ((false, none), w)
  exec cmds w := execAll cmds w

/-- The entries `PopulateRecentList` sends with `ZADD`: score `CreatedAt.UnixMilli()`,
member the JSON of the entity. -/
def RedisCache.zaddEntries {σ : Type} (r : RedisCache σ) (ns : List Notification) :
    List (Int × String) :=
  ns.map (fun n => (UnixMilli n.CreatedAt, (r.json.Marshal n).1))

/-- The recent list once the entities `ns` have been added to its prior content
and before it is trimmed. -/
def RedisCache.afterZAdds (r : RedisCache Store) (ns : List Notification) (w : Store) :
    List (Int × String) :=
  ZSet.addAll (r.zaddEntries ns) (w.zsetAt r.recentListKey)

/-- A third sample row, older than the other two. -/
def nC : Notification :=
  ⟨3, "EMAIL", "c@example.com", "old", "third", 1600000000000000000, 0⟩

/-- A codec that writes the id and reads nothing back. -/
def idJson : Json where
  Marshal n := (toString n.ID, none)
  Unmarshal _ := (default, some (Error.New "invalid character"))

/-- A cache over the reference Redis server. -/
def modelCache : RedisCache Store :=
  ⟨redisServer, "notifications:recent", "notification:", 10 * Minute, idJson⟩

/-- A row with the given id created at the given millisecond. -/
def rowAt (id ms : Int) : Notification :=
  ⟨id, "EMAIL", "a@example.com", "", "x", ms * 1000000, 0⟩

/-- A keyspace whose recent list already holds ten members, scored 1 to 10. -/
def fullStore : Store where
  redis k :=
    if k = "notifications:recent" then
      some (RedisValue.zset
        [(1, "1"), (2, "2"), (3, "3"), (4, "4"), (5, "5"), (6, "6"), (7, "7"), (8, "8"),
          (9, "9"), (10, "10")])
    else none
  rows := []
  tx := none

/-! ## A reference model of the entity store and of the broker

The `notifications` table as a list of rows, written through one connection:
no statement fails, `Begin` remembers the rows, `Rollback` restores them. A new
row takes an id above every id in the table and, when its `CreatedAt` is zero,
the time `now` of the clock. The broker accepts every message. -/

/-- The row with the given id, if any. -/
def Store.findRow (w : Store) (id : Int) : Option Notification :=
  w.rows.find? (fun row => row.ID = id)

/-- The next auto-increment id: above every id in the table, and above zero. -/
def Store.nextID (w : Store) : Int :=
  (w.rows.map (fun row => row.ID)).foldl max 0 + 1

/-- The rows after `Save(value)`, and the struct left behind the pointer: a
struct without id is inserted under the next id; a struct with an id replaces
the row of that id, or is inserted when there is none. -/
def Store.saveRow (now : Int) (w : Store) (value : Notification) :
    Notification × List Notification :=
  let stamped : Notification :=
    { value with CreatedAt := if value.CreatedAt = zeroTime then now else value.CreatedAt }
  if value.ID = 0 then
    ({ stamped with ID := w.nextID }, w.rows ++ [{ stamped with ID := w.nextID }])
  else if (w.findRow value.ID).isSome then
    (value, w.rows.map (fun row => if row.ID = value.ID then value else row))
  else
    (stamped, w.rows ++ [stamped])

/-- The rows ordered as `ORDER BY created_at DESC` orders them; rows with the
same `created_at` keep their table order. -/
def Store.byCreatedAtDesc (w : Store) : List Notification :=
  w.rows.insertionSort (fun a b => a.CreatedAt ≥ b.CreatedAt)

/-- The entity store seen through gorm, with the clock reading `now`. -/
def database (now : Int) : GormDB Store where
  first id w :=
    match w.findRow id with
    | some row => ((row, none), w)
    | none => ((default, some Error.ErrRecordNotFound), w)
  find order limit w :=
    (((if order = "created_at DESC" then w.byCreatedAtDesc else w.rows).take limit.toNat,
      none), w)
  begin w := (none, { w with tx := some w.rows })
  firstForUpdate id w :=
    match w.findRow id with
    | some row => ((row, none), w)
    | none => ((default, some Error.ErrRecordNotFound), w)
  save value w := (((w.saveRow now value).1, none), { w with rows := (w.saveRow now value).2 })
  delete id w := (none, { w with rows := w.rows.filter (fun row => row.ID ≠ id) })
  commit w := (none, { w with tx := none })
  rollback w := (none, { w with rows := w.tx.getD w.rows, tx := none })

/-- The broker seen through the producer: every message is accepted. -/
def broker : MQProducer Store where
  sendSync _ _ _ w := ((SendOK, none), w)

/-- The service over the reference models, for a given cache configuration,
codecs, topic and clock reading. -/
def modelService (recentListKey notificationKeyPrefix topic : String) (cacheTTL : Int)
    (json : Json) (marshal : NotificationMessage → String × Option Error) (now : Int) :
    NotificationServiceImpl Store :=
  { repo := ⟨database now⟩
    cache := ⟨redisServer, recentListKey, notificationKeyPrefix, cacheTTL, json⟩
    producer := ⟨broker, topic, marshal⟩ }

/-- A keyspace with nothing in it and a table holding the two sample rows. -/
def sampleStore : Store :=
  { redis := fun _ => none, rows := [nA, nB], tx := none }

/-- The service over the reference models with the sample configuration. -/
def sampleModel : NotificationServiceImpl Store :=
  modelService "notifications:recent" "notification:" "notification-topic" (10 * Minute)
    sampleJson sampleMarshal 1700000002000000000

/-- A table read that finds the first sample row, an update and a commit that succeed. -/
def updateScript : Script :=
  { Script.empty with
    begins := [none]
    firstForUpdates := [(nA, none)]
    saves := [({ nA with Subject := "changed", Content := "new text" }, none)]
    commits := [none] }

/-- The replies to the fan-out of an update: both `DEL`s answered, the broker accepting. -/
def fanoutScript : Script :=
  { Script.empty with
    dels := [none, none]
    sends := [(SendOK, none)] }

/-- The replies to the fan-out of a create while the broker is unreachable. -/
def brokerDownScript : Script :=
  { Script.empty with
    sets := [none]
    dels := [none] }

/-- A sample create request. -/
def sampleRequest : NotificationRequest := ⟨"EMAIL", "a@example.com", "hello", "first"⟩

/-- The entity `CreateNotification` builds from `sampleRequest`, before it is saved. -/
def sampleDraft : Notification :=
  ⟨0, "EMAIL", "a@example.com", "hello", "first", zeroTime, 0⟩

/-- The transaction begins and the insert succeeds; the connection is gone at the commit. -/
def commitFailScript : Script :=
  { Script.empty with
    begins := [none]
    saves := [(nA, none)] }

/-- The transaction begins; the insert fails; the rollback is answered. -/
def saveFailScript : Script :=
  { Script.empty with
    begins := [none]
    saves := [(sampleDraft, some (Error.New "Error 1406: Data too long for column"))]
    rollbacks := [none] }

/-- A handler over the scripted service. -/
def sampleHandler : NotificationHandler Script := ⟨sampleService⟩

/-- A create request whose type is not a notification type. -/
def pushRequest : NotificationRequest := ⟨"PUSH", "a@example.com", "hello", "first"⟩

/-- The service over the reference models with the codec that writes the id. -/
def idModel : NotificationServiceImpl Store :=
  modelService "notifications:recent" "notification:" "notification-topic" (10 * Minute)
    idJson sampleMarshal 1700000002000000000

/-- The sample table, with the old JSON of the first row still in the cache. -/
def staleStore : Store :=
  { redis := fun k => if k = "notification:1" then some (RedisValue.str "A") else none
    rows := [nA, nB]
    tx := none }

/-- The cached recent list is as `PopulateRecentList` writes it: a well-formed
sorted set in which every member decodes, and is scored by the creation
time, in milliseconds, of the entity it decodes to. -/
def RedisCache.RecentInv (r : RedisCache Store) (w : Store) : Prop :=
  ZSet.WF (w.zsetAt r.recentListKey) ∧
  ∀ e ∈ w.zsetAt r.recentListKey,
    (r.json.Unmarshal e.2).2 = none ∧ UnixMilli (r.json.Unmarshal e.2).1.CreatedAt = e.1

/-- Two rows created in the same millisecond, at the same instant. -/
def tA : Notification := rowAt 1 5

/-- The second row of the same instant. -/
def tB : Notification := rowAt 2 5

/-- A row created one nanosecond after `uB`, within the same millisecond. -/
def uA : Notification := ⟨3, "EMAIL", "a@example.com", "", "x", 5000001, 0⟩

/-- A row created at the start of the millisecond. -/
def uB : Notification := ⟨4, "EMAIL", "a@example.com", "", "x", 5000000, 0⟩

/-- A codec that writes the id and reads the four rows back from it. -/
def tieJson : Json where
  Marshal n := (toString n.ID, none)
  Unmarshal data :=
    if data = "1" then (tA, none)
    else if data = "2" then (tB, none)
    else if data = "3" then (uA, none)
    else if data = "4" then (uB, none)
    else (default, some (Error.New "invalid character"))

/-- A cache over the reference Redis server with `tieJson`. -/
def tieCache : RedisCache Store :=
  ⟨redisServer, "notifications:recent", "notification:", 10 * Minute, tieJson⟩

/-- A keyspace and a table with nothing in them. -/
def emptyStore : Store :=
  { redis := fun _ => none, rows := [], tx := none }

/-! ## More scripted runs -/

/-- The cache is unreachable at the per-id read; the store has the row. -/
def cacheDownScript : Script :=
  { Script.empty with
    gets := [("", some Script.closed)]
    firsts := [(nA, none)] }

/-- The per-id entry does not unmarshal; the store has the row. -/
def corruptEntryScript : Script :=
  { Script.empty with
    gets := [("garbage", none)]
    firsts := [(nA, none)] }

/-- The run of `rebuildScript` with the first read of the recent list failing. -/
def listDownScript : Script :=
  { rebuildScript with zRevRanges := [([], some Script.closed), ([], none)] }

/-- The run of `rebuildScript` with a first read whose second member does not
unmarshal, after a first member that does. -/
def corruptListScript : Script :=
  { rebuildScript with zRevRanges := [(["A", "garbage"], none), ([], none)] }

/-- A locking read that finds the first sample row, a delete and a commit that
succeed, then the replies to the fan-out. -/
def deleteScript : Script :=
  { Script.empty with
    begins := [none]
    firstForUpdates := [(nA, none)]
    deletes := [none]
    commits := [none]
    dels := [none, none]
    sends := [(SendOK, none)] }

/-- The row is read and deleted; the connection is gone at the commit. -/
def deleteCommitFailScript : Script :=
  { Script.empty with
    begins := [none]
    firstForUpdates := [(nA, none)]
    deletes := [none] }

/-! ## A Redis server that can be unreachable

The reference server behind a connection that may fail: for each command, key
and state of the keyspace, `Faults` tells whether the call fails, and with which
error. A call that fails does not reach the server: the keyspace is as it was. -/

/-- Which Redis calls fail, and with which error. -/
structure Faults where
  get : String → Store → Option Error
  set : String → Store → Option Error
  del : String → Store → Option Error
  zRevRange : String → Store → Option Error
  setNX : String → Store → Option Error
  exec : List PipeCmd → Store → Option Error

/-- No call fails. -/
def Faults.never : Faults :=
  ⟨fun _ _ => none, fun _ _ => none, fun _ _ => none, fun _ _ => none, fun _ _ => none,
    fun _ _ => none⟩

/-- The reference Redis server seen through a client whose calls fail as `f` tells. -/
def flakyServer (f : Faults) : RedisClient Store where
  get key w :=
    match f.get key w with
    | some err => (("", some err), w)
    | none => redisServer.get key w
  set key value ttl w :=
    match f.set key w with
    | some err => (some err, w)
    | none => redisServer.set key value ttl w
  del key w :=
    match f.del key w with
    | some err => (some err, w)
    | none => redisServer.del key w
  zRevRange key start stop w :=
    match f.zRevRange key w with
    | some err => (([], some err), w)
    | none => redisServer.zRevRange key start stop w
  setNX key value ttl w :=
    match f.setNX key w with
    | some err => ((false, some err), w)
    | none => redisServer.setNX key value ttl w
  exec cmds w :=
    match f.exec cmds w with
    | some err => (some err, w)
    | none => redisServer.exec cmds w

/-- Every `DEL` fails: the connection is closed. -/
def delDown : Faults :=
  { Faults.never with del := fun _ _ => some Script.closed }

/-- The `DEL` of the recent list and every `GET` fail; the other calls go through. -/
def recentDown : Faults :=
  { Faults.never with
    get := fun _ _ => some Script.closed
    del := fun key _ => if key = "notifications:recent" then some Script.closed else none }

/-- The sample service over the reference store, behind a Redis client whose calls
fail as `f` tells. -/
def flakyModel (f : Faults) : NotificationServiceImpl Store :=
  { sampleModel with cache := { sampleModel.cache with client := flakyServer f } }

/-! ## Sequences of operations -/

/-- The service of `idModel` behind a Redis client whose calls fail as `f` tells. -/
def flakyIdModel (f : Faults) : NotificationServiceImpl Store :=
  { idModel with cache := { idModel.cache with client := flakyServer f } }

/-- The number that a list of decimal digits stands for, most significant digit
first; a character below `0` counts as zero. -/
def decimalValue (ds : List Char) : Nat :=
  ds.foldl (fun acc c => acc * 10 + (c.toNat - 48)) 0

/-- A keyspace that holds cached entities under the ids 5 and -5. -/
def pairStore : Store :=
  { redis := fun k =>
      if k = "notification:5" then some (RedisValue.str "A")
      else if k = "notification:-5" then some (RedisValue.str "B")
      else none
    rows := []
    tx := none }

/-! ## Basic facts about computations -/

section Basic
variable {σ α β : Type}

@[simp] theorem M.pure_apply (a : α) (w : σ) : (Pure.pure a : M σ α) w = (a, w, []) := rfl

@[simp] theorem M.bind_apply (x : M σ α) (f : α → M σ β) (w : σ) :
    (x >>= f) w =
      ((f (x w).1 (x w).2.1).1, (f (x w).1 (x w).2.1).2.1,
        (x w).2.2 ++ (f (x w).1 (x w).2.1).2.2) := rfl

@[simp] theorem M.emit_apply (e : Event) (w : σ) : (M.emit e : M σ Unit) w = ((), w, [e]) := rfl

end Basic

section Traces
variable {σ : Type}

theorem RedisCache.FindRecentNotifications_trace (r : RedisCache σ) (w : σ) :
    (r.FindRecentNotifications w).2.2 =
      [Event.ZRevRange r.recentListKey 0 (-1) (r.client.zRevRange r.recentListKey 0 (-1) w).1.1
        (r.client.zRevRange r.recentListKey 0 (-1) w).1.2] := by
  unfold RedisCache.FindRecentNotifications
  simp only [M.bind_apply, RedisClient.ZRevRange]
  cases (r.client.zRevRange r.recentListKey 0 (-1) w).1.2 with
  | some err => simp
  | none =>
    by_cases hl : (r.client.zRevRange r.recentListKey 0 (-1) w).1.1.length = 0 <;> simp [hl]

theorem RedisCache.SetNXWithExpiration_trace (r : RedisCache σ) (key value : String)
    (expiration : Int) (w : σ) :
    (r.SetNXWithExpiration key value expiration w).2.2 =
      [Event.SetNX key value expiration (r.SetNXWithExpiration key value expiration w).1.1
        (r.SetNXWithExpiration key value expiration w).1.2] := rfl

theorem RedisCache.DeleteKey_trace (r : RedisCache σ) (key : String) (w : σ) :
    (r.DeleteKey key w).2.2 = [Event.Del key (r.client.del key w).1] := rfl

theorem RedisCache.PopulateRecentList_trace (r : RedisCache σ) (ns : List Notification) (w : σ) :
    (r.PopulateRecentList ns w).2.2 = [] ∨
      ∃ cmds err, (r.PopulateRecentList ns w).2.2 = [Event.Exec cmds err] := by
  unfold RedisCache.PopulateRecentList
  by_cases hl : ns.length = 0
  · left; simp [hl]
  · simp only [hl, if_false]
    cases (r.queueZAdds ns []).2 with
    | some err => left; simp
    | none =>
      right
      refine ⟨(r.queueZAdds ns []).1 ++ [PipeCmd.ZRemRangeByRank r.recentListKey 0 (-11)],
        (r.client.exec ((r.queueZAdds ns []).1 ++
          [PipeCmd.ZRemRangeByRank r.recentListKey 0 (-11)]) w).1, ?_⟩
      simp only [M.bind_apply, RedisClient.Exec]
      cases (r.client.exec ((r.queueZAdds ns []).1 ++
          [PipeCmd.ZRemRangeByRank r.recentListKey 0 (-11)]) w).1 <;> simp

theorem RedisCache.FindNotificationByID_trace (r : RedisCache σ) (id : Int) (w : σ) :
    (r.FindNotificationByID id w).2.2 =
      [Event.Get (r.notificationKey id) (r.client.get (r.notificationKey id) w).1.1
        (r.client.get (r.notificationKey id) w).1.2] := by
  unfold RedisCache.FindNotificationByID
  simp only [M.bind_apply, RedisClient.Get]
  by_cases hn : (r.client.get (r.notificationKey id) w).1.2 = some Error.redisNil
  · simp [hn]
  · simp only [hn, if_false]
    cases (r.client.get (r.notificationKey id) w).1.2 with
    | some err => simp
    | none =>
      cases (r.json.Unmarshal (r.client.get (r.notificationKey id) w).1.1).2 <;> simp

theorem NotificationRepository.FindTop10ByOrderByCreatedAtDesc_trace
    (r : NotificationRepository σ) (w : σ) :
    (r.FindTop10ByOrderByCreatedAtDesc w).2.2 =
      [Event.Find "created_at DESC" 10 (r.db.find "created_at DESC" 10 w).1.1
        (r.FindTop10ByOrderByCreatedAtDesc w).1.2] := by
  unfold NotificationRepository.FindTop10ByOrderByCreatedAtDesc
  simp only [M.bind_apply, GormDB.Find]
  cases (r.db.find "created_at DESC" 10 w).1.2 <;> simp

theorem NotificationRepository.FindByID_trace (r : NotificationRepository σ) (id : Int) (w : σ) :
    (r.FindByID id w).2.2 = [Event.First id (r.db.first id w).1.1 (r.db.first id w).1.2] := by
  unfold NotificationRepository.FindByID
  simp only [M.bind_apply, GormDB.First]
  by_cases hn : (r.db.first id w).1.2 = some Error.ErrRecordNotFound
  · simp [hn]
  · simp only [hn, if_false]
    cases (r.db.first id w).1.2 <;> simp

end Traces

/-! ## The paths of `GetRecentNotifications` -/

section Paths
variable {σ : Type}

/-- Path: the initial read of the cached list is non-empty. -/
theorem GetRecentNotifications_hit (s : NotificationServiceImpl σ) (w w1 : σ)
    (l1 : List Notification) (e1 : Option Error) (t1 : List Event)
    (h1 : s.cache.FindRecentNotifications w = ((l1, e1), w1, t1)) (hl : l1 ≠ []) :
    s.GetRecentNotifications w = ((l1, none), w1, t1) := by
  have hpos : 0 < l1.length := List.length_pos.mpr hl
  unfold NotificationServiceImpl.GetRecentNotifications
  simp [h1, hpos]

/-- Path: the initial read is empty and the lock acquisition returns an error. -/
theorem GetRecentNotifications_lockError (s : NotificationServiceImpl σ) (w w1 w2 : σ)
    (e1 : Option Error) (t1 t2 : List Event) (b : Bool) (lerr : Error)
    (h1 : s.cache.FindRecentNotifications w = (([], e1), w1, t1))
    (h2 : s.cache.SetNXWithExpiration (s.cache.GetLockKey "getRecentNotifications") "locked"
      (30 * Second) w1 = ((b, some lerr), w2, t2)) :
    s.GetRecentNotifications w =
      ((s.repo.FindTop10ByOrderByCreatedAtDesc w2).1,
        (s.repo.FindTop10ByOrderByCreatedAtDesc w2).2.1,
        t1 ++ t2 ++ (s.repo.FindTop10ByOrderByCreatedAtDesc w2).2.2) := by
  unfold NotificationServiceImpl.GetRecentNotifications
  simp [h1, h2]

/-- Path: the initial read is empty and the lock is acquired. -/
theorem GetRecentNotifications_acquired (s : NotificationServiceImpl σ) (w w1 w2 : σ)
    (e1 : Option Error) (t1 t2 : List Event)
    (h1 : s.cache.FindRecentNotifications w = (([], e1), w1, t1))
    (h2 : s.cache.SetNXWithExpiration (s.cache.GetLockKey "getRecentNotifications") "locked"
      (30 * Second) w1 = ((true, none), w2, t2)) :
    s.GetRecentNotifications w =
      ((s.rebuildRecent w2).1,
        (s.cache.DeleteKey (s.cache.GetLockKey "getRecentNotifications")
          (s.rebuildRecent w2).2.1).2.1,
        t1 ++ t2 ++ (s.rebuildRecent w2).2.2 ++
          (s.cache.DeleteKey (s.cache.GetLockKey "getRecentNotifications")
            (s.rebuildRecent w2).2.1).2.2) := by
  unfold NotificationServiceImpl.GetRecentNotifications
  simp [h1, h2]

/-- Path: the initial read is empty and the lock is held by another actor. -/
theorem GetRecentNotifications_notAcquired (s : NotificationServiceImpl σ) (w w1 w2 w3 : σ)
    (e1 e3 : Option Error) (t1 t2 t3 : List Event) (l3 : List Notification)
    (h1 : s.cache.FindRecentNotifications w = (([], e1), w1, t1))
    (h2 : s.cache.SetNXWithExpiration (s.cache.GetLockKey "getRecentNotifications") "locked"
      (30 * Second) w1 = ((false, none), w2, t2))
    (h3 : s.cache.FindRecentNotifications w2 = ((l3, e3), w3, t3)) :
    s.GetRecentNotifications w =
      if l3 ≠ [] then ((l3, none), w3, t1 ++ t2 ++ [Event.Sleep (100 * Millisecond)] ++ t3)
      else
        ((s.repo.FindTop10ByOrderByCreatedAtDesc w3).1,
          (s.repo.FindTop10ByOrderByCreatedAtDesc w3).2.1,
          t1 ++ t2 ++ [Event.Sleep (100 * Millisecond)] ++ t3 ++
            (s.repo.FindTop10ByOrderByCreatedAtDesc w3).2.2) := by
  unfold NotificationServiceImpl.GetRecentNotifications
  by_cases hl : l3 = []
  · subst hl
    simp [h1, h2, h3]
  · have hpos : 0 < l3.length := List.length_pos.mpr hl
    simp [h1, h2, h3, hl, hpos]

/-- The rebuild branch when the double-check read is non-empty. -/
theorem rebuildRecent_hit (s : NotificationServiceImpl σ) (w2 w3 : σ)
    (l3 : List Notification) (e3 : Option Error) (t3 : List Event)
    (h3 : s.cache.FindRecentNotifications w2 = ((l3, e3), w3, t3)) (hl : l3 ≠ []) :
    s.rebuildRecent w2 = ((l3, none), w3, t3) := by
  have hpos : 0 < l3.length := List.length_pos.mpr hl
  unfold NotificationServiceImpl.rebuildRecent
  simp [h3, hpos]

/-- The rebuild branch when the double-check read is empty. -/
theorem rebuildRecent_miss (s : NotificationServiceImpl σ) (w2 w3 w4 : σ)
    (e3 qerr : Option Error) (t3 t4 : List Event) (ns : List Notification)
    (h3 : s.cache.FindRecentNotifications w2 = (([], e3), w3, t3))
    (h4 : s.repo.FindTop10ByOrderByCreatedAtDesc w3 = ((ns, qerr), w4, t4)) :
    s.rebuildRecent w2 =
      match qerr with
      | some err =>
        (([], some (Error.Errorf "failed to fetch recent notifications" err)), w4, t3 ++ t4)
      | none =>
        if ns ≠ [] then
          ((ns, none), (s.cache.PopulateRecentList ns w4).2.1,
            t3 ++ t4 ++ (s.cache.PopulateRecentList ns w4).2.2)
        else (([], none), w4, t3 ++ t4) := by
  unfold NotificationServiceImpl.rebuildRecent
  cases qerr with
  | some err => simp [h3, h4]
  | none =>
    by_cases hl : ns = []
    · subst hl
      simp [h3, h4]
    · have hpos : 0 < ns.length := List.length_pos.mpr hl
      simp [h3, h4, hl, hpos]

end Paths
/-! ## Claims about `GetRecentNotifications` -/

section RecentClaims
variable {σ : Type}

/-- C1. In `GetRecentNotifications`, when the first cache read is empty, the lock
is acquired and the double-check read is still empty, the entity store's top-10
query runs exactly once; if it succeeds with a non-empty result the operation is
exactly: `PopulateRecentList` of that result, then the release of the lock, and
the result is returned; if it succeeds with an empty result nothing is populated
and the empty result is returned; if it fails an error is returned and nothing is
populated. -/
theorem GetRecentNotifications_rebuild (s : NotificationServiceImpl σ) (w w1 w2 w3 w4 : σ)
    (e1 e3 qerr : Option Error) (t1 t2 t3 t4 : List Event) (ns : List Notification)
    (h1 : s.cache.FindRecentNotifications w = (([], e1), w1, t1))
    (h2 : s.cache.SetNXWithExpiration (s.cache.GetLockKey "getRecentNotifications") "locked"
      (30 * Second) w1 = ((true, none), w2, t2))
    (h3 : s.cache.FindRecentNotifications w2 = (([], e3), w3, t3))
    (h4 : s.repo.FindTop10ByOrderByCreatedAtDesc w3 = ((ns, qerr), w4, t4)) :
    (s.GetRecentNotifications w).2.2.countP Event.isFind = 1 ∧
    (qerr = none → ns ≠ [] →
      s.GetRecentNotifications w =
        ((ns, none),
          (s.cache.DeleteKey (s.cache.GetLockKey "getRecentNotifications")
            (s.cache.PopulateRecentList ns w4).2.1).2.1,
          t1 ++ t2 ++ t3 ++ t4 ++ (s.cache.PopulateRecentList ns w4).2.2 ++
            (s.cache.DeleteKey (s.cache.GetLockKey "getRecentNotifications")
              (s.cache.PopulateRecentList ns w4).2.1).2.2)) ∧
    (qerr = none → ns = [] →
      s.GetRecentNotifications w =
        (([], none),
          (s.cache.DeleteKey (s.cache.GetLockKey "getRecentNotifications") w4).2.1,
          t1 ++ t2 ++ t3 ++ t4 ++
            (s.cache.DeleteKey (s.cache.GetLockKey "getRecentNotifications") w4).2.2) ∧
      (s.GetRecentNotifications w).2.2.countP Event.isExec = 0) ∧
    (∀ err, qerr = some err →
      s.GetRecentNotifications w =
        (([], some (Error.Errorf "failed to fetch recent notifications" err)),
          (s.cache.DeleteKey (s.cache.GetLockKey "getRecentNotifications") w4).2.1,
          t1 ++ t2 ++ t3 ++ t4 ++
            (s.cache.DeleteKey (s.cache.GetLockKey "getRecentNotifications") w4).2.2) ∧
      (s.GetRecentNotifications w).2.2.countP Event.isExec = 0) := by
  have ht1 := s.cache.FindRecentNotifications_trace w
  have ht2 := s.cache.SetNXWithExpiration_trace
    (s.cache.GetLockKey "getRecentNotifications") "locked" (30 * Second) w1
  have ht3 := s.cache.FindRecentNotifications_trace w2
  have ht4 := s.repo.FindTop10ByOrderByCreatedAtDesc_trace w3
  have htd := fun v => s.cache.DeleteKey_trace (s.cache.GetLockKey "getRecentNotifications") v
  rw [h1] at ht1
  rw [h2] at ht2
  rw [h3] at ht3
  rw [h4] at ht4
  simp only at ht1 ht2 ht3 ht4
  have hacq := GetRecentNotifications_acquired s w w1 w2 e1 t1 t2 h1 h2
  have hreb := rebuildRecent_miss s w2 w3 w4 e3 qerr t3 t4 ns h3 h4
  rw [hacq, hreb]
  cases qerr with
  | some err =>
    refine ⟨?_, ?_, ?_, ?_⟩
    · simp [htd, ht1, ht2, ht3, ht4, Event.isFind]
    · intro h; cases h
    · intro h; cases h
    · intro err2 h
      cases h
      simp [htd, ht1, ht2, ht3, ht4, Event.isExec]
  | none =>
    by_cases hl : ns = []
    · subst hl
      refine ⟨?_, ?_, ?_, ?_⟩
      · simp [htd, ht1, ht2, ht3, ht4, Event.isFind]
      · intro _ h; exact absurd rfl h
      · intro _ _
        simp [htd, ht1, ht2, ht3, ht4, Event.isExec]
      · intro err h; cases h
    · refine ⟨?_, ?_, ?_, ?_⟩
      · rcases s.cache.PopulateRecentList_trace ns w4 with hp | ⟨cmds, perr, hp⟩ <;>
          simp [hl, hp, htd, ht1, ht2, ht3, ht4, Event.isFind]
      · intro _ _
        simp [hl]
      · intro _ h; exact absurd h hl
      · intro err h; cases h

/-- Witness for C1: a cold cache, a free lock and two rows in the store. -/
theorem GetRecentNotifications_rebuild_witness :
    sampleService.GetRecentNotifications rebuildScript =
      (([nB, nA], none), Script.empty,
        [Event.ZRevRange "notifications:recent" 0 (-1) [] none,
          Event.SetNX sampleLockKey "locked" (30 * Second) true none,
          Event.ZRevRange "notifications:recent" 0 (-1) [] none,
          Event.Find "created_at DESC" 10 [nB, nA] none,
          Event.Exec
            [PipeCmd.ZAdd "notifications:recent" 1700000001000 "B",
              PipeCmd.ZAdd "notifications:recent" 1700000000000 "A",
              PipeCmd.ZRemRangeByRank "notifications:recent" 0 (-11)] none,
          Event.Del sampleLockKey none]) :=
  ((GetRecentNotifications_rebuild sampleService rebuildScript _ _ _ _ _ _ _ _ _ _ _ _
    rfl rfl rfl rfl).2.1 rfl (by decide)).trans (by decide)


/-- C2. In every execution of `GetRecentNotifications` in which `SetNXWithExpiration`
reported the lock as acquired, exactly one `DEL` is issued, it is the last call
before the operation returns, and its key is the key of every acquiring `SETNX`;
in every execution in which no `SETNX` reported the lock as acquired, no `DEL`
is issued at all. -/
theorem GetRecentNotifications_lock_release (s : NotificationServiceImpl σ) (w : σ) :
    ((∃ e ∈ (s.GetRecentNotifications w).2.2, e.isAcquired = true) →
      (s.GetRecentNotifications w).2.2.countP Event.isDel = 1 ∧
      ∃ k derr, (s.GetRecentNotifications w).2.2.getLast? = some (Event.Del k derr) ∧
        k = s.cache.GetLockKey "getRecentNotifications" ∧
        ∀ k2 v ttl, Event.SetNX k2 v ttl true none ∈ (s.GetRecentNotifications w).2.2 →
          k2 = k) ∧
    ((∀ e ∈ (s.GetRecentNotifications w).2.2, e.isAcquired = false) →
      (s.GetRecentNotifications w).2.2.countP Event.isDel = 0) := by
  rcases h1 : s.cache.FindRecentNotifications w with ⟨⟨l1, e1⟩, w1, t1⟩
  have ht1 := s.cache.FindRecentNotifications_trace w
  rw [h1] at ht1
  simp only at ht1
  have htd := fun v => s.cache.DeleteKey_trace (s.cache.GetLockKey "getRecentNotifications") v
  have htq := fun v => s.repo.FindTop10ByOrderByCreatedAtDesc_trace v
  by_cases hl1 : l1 = []
  · subst hl1
    rcases h2 : s.cache.SetNXWithExpiration (s.cache.GetLockKey "getRecentNotifications")
      "locked" (30 * Second) w1 with ⟨⟨b, lerr⟩, w2, t2⟩
    have ht2 := s.cache.SetNXWithExpiration_trace
      (s.cache.GetLockKey "getRecentNotifications") "locked" (30 * Second) w1
    rw [h2] at ht2
    simp only at ht2
    cases lerr with
    | some le =>
      rw [GetRecentNotifications_lockError s w w1 w2 e1 t1 t2 b le h1 h2]
      simp [ht1, ht2, htq, Event.isAcquired, Event.isDel]
    | none =>
      rcases h3 : s.cache.FindRecentNotifications w2 with ⟨⟨l3, e3⟩, w3, t3⟩
      have ht3 := s.cache.FindRecentNotifications_trace w2
      rw [h3] at ht3
      simp only at ht3
      cases b with
      | false =>
        rw [GetRecentNotifications_notAcquired s w w1 w2 w3 e1 e3 t1 t2 t3 l3 h1 h2 h3]
        by_cases hl3 : l3 = [] <;>
          simp [hl3, ht1, ht2, ht3, htq, Event.isAcquired, Event.isDel]
      | true =>
        rw [GetRecentNotifications_acquired s w w1 w2 e1 t1 t2 h1 h2]
        by_cases hl3 : l3 = []
        · subst hl3
          rcases h4 : s.repo.FindTop10ByOrderByCreatedAtDesc w3 with ⟨⟨ns, qerr⟩, w4, t4⟩
          have ht4 := htq w3
          rw [h4] at ht4
          simp only at ht4
          rw [rebuildRecent_miss s w2 w3 w4 e3 qerr t3 t4 ns h3 h4]
          cases qerr with
          | some err =>
            simp [ht1, ht2, ht3, ht4, htd, Event.isAcquired, Event.isDel]
            intros
            assumption
          | none =>
            by_cases hn : ns = []
            · simp [hn, ht1, ht2, ht3, ht4, htd, Event.isAcquired, Event.isDel]
              intros
              assumption
            · rcases s.cache.PopulateRecentList_trace ns w4 with hp | ⟨cmds, perr, hp⟩ <;>
                simp [hn, hp, ht1, ht2, ht3, ht4, htd, Event.isAcquired, Event.isDel] <;>
                (intros; assumption)
        · rw [rebuildRecent_hit s w2 w3 l3 e3 t3 h3 hl3]
          simp [ht1, ht2, ht3, htd, Event.isAcquired, Event.isDel]
          intros
          assumption
  · rw [GetRecentNotifications_hit s w w1 l1 e1 t1 h1 hl1]
    simp [ht1, Event.isAcquired, Event.isDel]

/-- Witness for C2: in the rebuild execution the lock is acquired and released once. -/
theorem GetRecentNotifications_lock_release_witness :
    (sampleService.GetRecentNotifications rebuildScript).2.2.countP Event.isDel = 1 ∧
    ∃ k derr, (sampleService.GetRecentNotifications rebuildScript).2.2.getLast? =
        some (Event.Del k derr) ∧
      k = sampleCache.GetLockKey "getRecentNotifications" ∧
      ∀ k2 v ttl, Event.SetNX k2 v ttl true none ∈
          (sampleService.GetRecentNotifications rebuildScript).2.2 → k2 = k :=
  (GetRecentNotifications_lock_release sampleService rebuildScript).1
    ⟨Event.SetNX sampleLockKey "locked" (30 * Second) true none, by decide, rfl⟩


/-- C3. In `GetRecentNotifications`, whenever a read of the cached recent list
returns a non-empty list (the initial read; the double-check read after the lock
was acquired; the retry read after the lock was not acquired), that list is
returned unchanged with no error, and no entity store query and no pipeline
execution (cache population) occurs. -/
theorem GetRecentNotifications_cached (s : NotificationServiceImpl σ) :
    (∀ (w w1 : σ) (l1 : List Notification) (e1 : Option Error) (t1 : List Event),
      s.cache.FindRecentNotifications w = ((l1, e1), w1, t1) → l1 ≠ [] →
      s.GetRecentNotifications w = ((l1, none), w1, t1) ∧
      (s.GetRecentNotifications w).2.2.countP Event.isStoreQuery = 0 ∧
      (s.GetRecentNotifications w).2.2.countP Event.isExec = 0) ∧
    (∀ (w w1 w2 w3 : σ) (l3 : List Notification) (e1 e3 : Option Error) (t1 t2 t3 : List Event),
      s.cache.FindRecentNotifications w = (([], e1), w1, t1) →
      s.cache.SetNXWithExpiration (s.cache.GetLockKey "getRecentNotifications") "locked"
        (30 * Second) w1 = ((true, none), w2, t2) →
      s.cache.FindRecentNotifications w2 = ((l3, e3), w3, t3) → l3 ≠ [] →
      s.GetRecentNotifications w =
        ((l3, none),
          (s.cache.DeleteKey (s.cache.GetLockKey "getRecentNotifications") w3).2.1,
          t1 ++ t2 ++ t3 ++
            (s.cache.DeleteKey (s.cache.GetLockKey "getRecentNotifications") w3).2.2) ∧
      (s.GetRecentNotifications w).2.2.countP Event.isStoreQuery = 0 ∧
      (s.GetRecentNotifications w).2.2.countP Event.isExec = 0) ∧
    (∀ (w w1 w2 w3 : σ) (l3 : List Notification) (e1 e3 : Option Error) (t1 t2 t3 : List Event),
      s.cache.FindRecentNotifications w = (([], e1), w1, t1) →
      s.cache.SetNXWithExpiration (s.cache.GetLockKey "getRecentNotifications") "locked"
        (30 * Second) w1 = ((false, none), w2, t2) →
      s.cache.FindRecentNotifications w2 = ((l3, e3), w3, t3) → l3 ≠ [] →
      s.GetRecentNotifications w =
        ((l3, none), w3, t1 ++ t2 ++ [Event.Sleep (100 * Millisecond)] ++ t3) ∧
      (s.GetRecentNotifications w).2.2.countP Event.isStoreQuery = 0 ∧
      (s.GetRecentNotifications w).2.2.countP Event.isExec = 0) := by
  have htd := fun v => s.cache.DeleteKey_trace (s.cache.GetLockKey "getRecentNotifications") v
  refine ⟨?_, ?_, ?_⟩
  · intro w w1 l1 e1 t1 h1 hl
    have ht1 := s.cache.FindRecentNotifications_trace w
    rw [h1] at ht1
    simp only at ht1
    rw [GetRecentNotifications_hit s w w1 l1 e1 t1 h1 hl]
    simp [ht1, Event.isStoreQuery, Event.isExec]
  · intro w w1 w2 w3 l3 e1 e3 t1 t2 t3 h1 h2 h3 hl
    have ht1 := s.cache.FindRecentNotifications_trace w
    have ht2 := s.cache.SetNXWithExpiration_trace
      (s.cache.GetLockKey "getRecentNotifications") "locked" (30 * Second) w1
    have ht3 := s.cache.FindRecentNotifications_trace w2
    rw [h1] at ht1
    rw [h2] at ht2
    rw [h3] at ht3
    simp only at ht1 ht2 ht3
    rw [GetRecentNotifications_acquired s w w1 w2 e1 t1 t2 h1 h2,
      rebuildRecent_hit s w2 w3 l3 e3 t3 h3 hl]
    simp [ht1, ht2, ht3, htd, Event.isStoreQuery, Event.isExec]
  · intro w w1 w2 w3 l3 e1 e3 t1 t2 t3 h1 h2 h3 hl
    have ht1 := s.cache.FindRecentNotifications_trace w
    have ht2 := s.cache.SetNXWithExpiration_trace
      (s.cache.GetLockKey "getRecentNotifications") "locked" (30 * Second) w1
    have ht3 := s.cache.FindRecentNotifications_trace w2
    rw [h1] at ht1
    rw [h2] at ht2
    rw [h3] at ht3
    simp only at ht1 ht2 ht3
    rw [GetRecentNotifications_notAcquired s w w1 w2 w3 e1 e3 t1 t2 t3 l3 h1 h2 h3]
    simp [hl, ht1, ht2, ht3, Event.isStoreQuery, Event.isExec]

/-- Witness for C3: the three executions that end on a non-empty cached list. -/
theorem GetRecentNotifications_cached_witness :
    sampleService.GetRecentNotifications hitScript =
      (([nB, nA], none), Script.empty,
        [Event.ZRevRange "notifications:recent" 0 (-1) ["B", "A"] none]) ∧
    sampleService.GetRecentNotifications dclHitScript =
      (([nB, nA], none), Script.empty,
        [Event.ZRevRange "notifications:recent" 0 (-1) [] none,
          Event.SetNX sampleLockKey "locked" (30 * Second) true none,
          Event.ZRevRange "notifications:recent" 0 (-1) ["B", "A"] none,
          Event.Del sampleLockKey none]) ∧
    sampleService.GetRecentNotifications retryHitScript =
      (([nB], none), Script.empty,
        [Event.ZRevRange "notifications:recent" 0 (-1) [] none,
          Event.SetNX sampleLockKey "locked" (30 * Second) false none,
          Event.Sleep (100 * Millisecond),
          Event.ZRevRange "notifications:recent" 0 (-1) ["B"] none]) :=
  ⟨(((GetRecentNotifications_cached sampleService).1 hitScript _ _ _ _ rfl
      (by decide)).1).trans (by decide),
    (((GetRecentNotifications_cached sampleService).2.1 dclHitScript _ _ _ _ _ _ _ _ _
      rfl rfl rfl (by decide)).1).trans (by decide),
    (((GetRecentNotifications_cached sampleService).2.2 retryHitScript _ _ _ _ _ _ _ _ _
      rfl rfl rfl (by decide)).1).trans (by decide)⟩

/-- C4. In `GetRecentNotifications`, when the first cache read is empty and the
lock acquisition itself returns an error, the operation returns exactly the value
and error of one entity store top-10 query, and makes no further cache read, no
pipeline execution (cache population) and no `DEL` (lock release). -/
theorem GetRecentNotifications_degrades_on_lock_error (s : NotificationServiceImpl σ)
    (w w1 w2 : σ) (e1 : Option Error) (t1 t2 : List Event) (b : Bool) (lerr : Error)
    (h1 : s.cache.FindRecentNotifications w = (([], e1), w1, t1))
    (h2 : s.cache.SetNXWithExpiration (s.cache.GetLockKey "getRecentNotifications") "locked"
      (30 * Second) w1 = ((b, some lerr), w2, t2)) :
    s.GetRecentNotifications w =
      ((s.repo.FindTop10ByOrderByCreatedAtDesc w2).1,
        (s.repo.FindTop10ByOrderByCreatedAtDesc w2).2.1,
        t1 ++ t2 ++ (s.repo.FindTop10ByOrderByCreatedAtDesc w2).2.2) ∧
    (s.GetRecentNotifications w).2.2.countP Event.isFind = 1 ∧
    (s.GetRecentNotifications w).2.2.countP Event.isZRevRange = 1 ∧
    (s.GetRecentNotifications w).2.2.countP Event.isExec = 0 ∧
    (s.GetRecentNotifications w).2.2.countP Event.isDel = 0 := by
  have ht1 := s.cache.FindRecentNotifications_trace w
  have ht2 := s.cache.SetNXWithExpiration_trace
    (s.cache.GetLockKey "getRecentNotifications") "locked" (30 * Second) w1
  have htq := s.repo.FindTop10ByOrderByCreatedAtDesc_trace w2
  rw [h1] at ht1
  rw [h2] at ht2
  simp only at ht1 ht2
  rw [GetRecentNotifications_lockError s w w1 w2 e1 t1 t2 b lerr h1 h2]
  simp [ht1, ht2, htq, Event.isFind, Event.isZRevRange, Event.isExec, Event.isDel]

/-- Witness for C4: Redis drops the connection at the lock acquisition. -/
theorem GetRecentNotifications_degrades_on_lock_error_witness :
    sampleService.GetRecentNotifications lockErrorScript =
      (([nB, nA], none), Script.empty,
        [Event.ZRevRange "notifications:recent" 0 (-1) [] none,
          Event.SetNX sampleLockKey "locked" (30 * Second) false (some Script.closed),
          Event.Find "created_at DESC" 10 [nB, nA] none]) :=
  ((GetRecentNotifications_degrades_on_lock_error sampleService lockErrorScript _ _ _ _ _ _ _
    rfl rfl).1).trans (by decide)

/-- C5. In `GetRecentNotifications`, when the first cache read is empty and the
lock is held by another actor, the operation waits 100ms and re-reads the cached
list exactly once; if that read is empty or fails it returns exactly the value
and error of one entity store top-10 query; the whole execution contains exactly
one `SETNX` and no pipeline execution (cache population). -/
theorem GetRecentNotifications_contended (s : NotificationServiceImpl σ)
    (w w1 w2 w3 : σ) (e1 e3 : Option Error) (t1 t2 t3 : List Event) (l3 : List Notification)
    (h1 : s.cache.FindRecentNotifications w = (([], e1), w1, t1))
    (h2 : s.cache.SetNXWithExpiration (s.cache.GetLockKey "getRecentNotifications") "locked"
      (30 * Second) w1 = ((false, none), w2, t2))
    (h3 : s.cache.FindRecentNotifications w2 = ((l3, e3), w3, t3)) :
    (l3 = [] →
      s.GetRecentNotifications w =
        ((s.repo.FindTop10ByOrderByCreatedAtDesc w3).1,
          (s.repo.FindTop10ByOrderByCreatedAtDesc w3).2.1,
          t1 ++ t2 ++ [Event.Sleep (100 * Millisecond)] ++ t3 ++
            (s.repo.FindTop10ByOrderByCreatedAtDesc w3).2.2) ∧
      (s.GetRecentNotifications w).2.2.countP Event.isFind = 1) ∧
    (l3 ≠ [] →
      s.GetRecentNotifications w =
        ((l3, none), w3, t1 ++ t2 ++ [Event.Sleep (100 * Millisecond)] ++ t3)) ∧
    (s.GetRecentNotifications w).2.2.countP Event.isSetNX = 1 ∧
    (s.GetRecentNotifications w).2.2.countP Event.isExec = 0 ∧
    (s.GetRecentNotifications w).2.2.countP Event.isZRevRange = 2 ∧
    ((s.GetRecentNotifications w).2.2.dropWhile (fun e => !e.isSleep)).countP
      Event.isZRevRange = 1 := by
  have ht1 := s.cache.FindRecentNotifications_trace w
  have ht2 := s.cache.SetNXWithExpiration_trace
    (s.cache.GetLockKey "getRecentNotifications") "locked" (30 * Second) w1
  have ht3 := s.cache.FindRecentNotifications_trace w2
  have htq := s.repo.FindTop10ByOrderByCreatedAtDesc_trace w3
  rw [h1] at ht1
  rw [h2] at ht2
  rw [h3] at ht3
  simp only at ht1 ht2 ht3
  rw [GetRecentNotifications_notAcquired s w w1 w2 w3 e1 e3 t1 t2 t3 l3 h1 h2 h3]
  by_cases hl : l3 = [] <;>
    simp [hl, ht1, ht2, ht3, htq, Event.isFind, Event.isZRevRange, Event.isExec,
      Event.isSetNX, Event.isSleep, List.dropWhile]

/-- Witness for C5: the cache is still cold after the wait. -/
theorem GetRecentNotifications_contended_witness :
    sampleService.GetRecentNotifications contendedScript =
      (([nA], none), Script.empty,
        [Event.ZRevRange "notifications:recent" 0 (-1) [] none,
          Event.SetNX sampleLockKey "locked" (30 * Second) false none,
          Event.Sleep (100 * Millisecond),
          Event.ZRevRange "notifications:recent" 0 (-1) [] none,
          Event.Find "created_at DESC" 10 [nA] none]) :=
  (((GetRecentNotifications_contended sampleService contendedScript _ _ _ _ _ _ _ _ _
    rfl rfl rfl).1 rfl).1).trans (by decide)

end RecentClaims
/-! ## Claims about `GetNotificationByID` and error propagation -/

section ByID
variable {σ : Type}

/-- Path: the cache lookup yields an entity. -/
theorem GetNotificationByID_hit (s : NotificationServiceImpl σ) (id : Int) (w w1 : σ)
    (n : Notification) (e : Option Error) (t1 : List Event)
    (h1 : s.cache.FindNotificationByID id w = ((some n, e), w1, t1)) :
    s.GetNotificationByID id w = ((some n, none), w1, t1) := by
  unfold NotificationServiceImpl.GetNotificationByID
  simp [h1]

/-- Path: the cache lookup yields no entity. -/
theorem GetNotificationByID_miss (s : NotificationServiceImpl σ) (id : Int) (w w1 w2 : σ)
    (e ferr : Option Error) (found : Option Notification) (t1 t2 : List Event)
    (h1 : s.cache.FindNotificationByID id w = ((none, e), w1, t1))
    (h2 : s.repo.FindByID id w1 = ((found, ferr), w2, t2)) :
    s.GetNotificationByID id w =
      match ferr, found with
      | some err, _ => ((none, some (Error.Errorf "failed to find notification" err)), w2, t1 ++ t2)
      | none, none => ((none, none), w2, t1 ++ t2)
      | none, some n =>
        ((some n, none), w2, t1 ++ t2 ++ [Event.Go (Task.CacheNotification n)]) := by
  unfold NotificationServiceImpl.GetNotificationByID
  cases ferr with
  | some err => simp [h1, h2]
  | none => cases found <;> simp [h1, h2]

/-- What `FindByID` returns for each reply of `First`. -/
theorem FindByID_eq (r : NotificationRepository σ) (id : Int) (w w2 : σ) (row : Notification)
    (err : Option Error) (h : r.db.first id w = ((row, err), w2)) :
    r.FindByID id w =
      ((if err = some Error.ErrRecordNotFound then (none, none)
        else match err with
          | some e => (none, some e)
          | none => (some row, none)), w2, [Event.First id row err]) := by
  unfold NotificationRepository.FindByID
  simp only [M.bind_apply, GormDB.First, h]
  by_cases hn : err = some Error.ErrRecordNotFound
  · simp [hn]
  · cases err <;> simp_all

/-- C8. For every id, when the cache lookup in `GetNotificationByID` yields an
entity, that entity is returned with no error, and the execution contains no
entity store query and starts no goroutine (no cache population is scheduled). -/
theorem GetNotificationByID_cached (s : NotificationServiceImpl σ) (id : Int) (w w1 : σ)
    (n : Notification) (e : Option Error) (t1 : List Event)
    (h1 : s.cache.FindNotificationByID id w = ((some n, e), w1, t1)) :
    s.GetNotificationByID id w = ((some n, none), w1, t1) ∧
    (s.GetNotificationByID id w).2.2.countP Event.isStoreQuery = 0 ∧
    (s.GetNotificationByID id w).2.2.countP Event.isGo = 0 := by
  have ht1 := s.cache.FindNotificationByID_trace id w
  rw [h1] at ht1
  simp only at ht1
  rw [GetNotificationByID_hit s id w w1 n e t1 h1]
  simp [ht1, Event.isStoreQuery, Event.isGo]

/-- Witness for C8: the entity is served from the cache. -/
theorem GetNotificationByID_cached_witness :
    sampleService.GetNotificationByID 1 entityHitScript =
      ((some nA, none), Script.empty, [Event.Get "notification:1" "A" none]) :=
  ((GetNotificationByID_cached sampleService 1 entityHitScript _ _ _ _ rfl).1).trans
    (by decide)

/-- C9. For every id, when the cache lookup in `GetNotificationByID` yields no
entity: if the store has no row (`First` replies `ErrRecordNotFound`) the
operation returns no entity and no error and starts no goroutine; if `First`
fails otherwise the operation returns an error, so the two are told apart; if
the store has a row the operation returns exactly that row and starts exactly
one goroutine, whose task runs `CacheNotification` on that row; and the whole
outcome is the same whatever `Set` and `json.Marshal`, the only calls the
population makes, would do. -/
theorem GetNotificationByID_miss_outcomes (s : NotificationServiceImpl σ) (id : Int)
    (w w1 : σ) (e : Option Error) (t1 : List Event)
    (h1 : s.cache.FindNotificationByID id w = ((none, e), w1, t1)) :
    (∀ row w2, s.repo.db.first id w1 = ((row, some Error.ErrRecordNotFound), w2) →
      s.GetNotificationByID id w =
        ((none, none), w2, t1 ++ [Event.First id row (some Error.ErrRecordNotFound)]) ∧
      (s.GetNotificationByID id w).2.2.countP Event.isGo = 0) ∧
    (∀ row err w2, s.repo.db.first id w1 = ((row, some err), w2) →
      err ≠ Error.ErrRecordNotFound →
      s.GetNotificationByID id w =
        ((none, some (Error.Errorf "failed to find notification" err)), w2,
          t1 ++ [Event.First id row (some err)])) ∧
    (∀ row w2, s.repo.db.first id w1 = ((row, none), w2) →
      s.GetNotificationByID id w =
        ((some row, none), w2,
          t1 ++ [Event.First id row none, Event.Go (Task.CacheNotification row)]) ∧
      (s.GetNotificationByID id w).2.2.countP Event.isGo = 1 ∧
      ∀ v, (s.runTask (Task.CacheNotification row) v).2 = (s.cache.CacheNotification row v).2) ∧
    (∀ (set2 : String → String → Int → σ → Option Error × σ)
        (marshal2 : Notification → String × Option Error),
      NotificationServiceImpl.GetNotificationByID
        { s with cache := { s.cache with
            client := { s.cache.client with set := set2 }
            json := { s.cache.json with Marshal := marshal2 } } } id w =
      s.GetNotificationByID id w) := by
  have ht1 := s.cache.FindNotificationByID_trace id w
  rw [h1] at ht1
  simp only at ht1
  refine ⟨?_, ?_, ?_, ?_⟩
  · intro row w2 h2
    have h3 := FindByID_eq s.repo id w1 w2 row _ h2
    simp only [if_true] at h3
    rw [GetNotificationByID_miss s id w w1 w2 e none none t1 _ h1 h3]
    simp [ht1, Event.isGo]
  · intro row err w2 h2 hne
    have h3 := FindByID_eq s.repo id w1 w2 row _ h2
    have hne2 : ¬ (some err = some Error.ErrRecordNotFound) := fun h => hne (Option.some.inj h)
    simp only [hne2, if_false] at h3
    rw [GetNotificationByID_miss s id w w1 w2 e (some err) none t1 _ h1 h3]
  · intro row w2 h2
    have h3 := FindByID_eq s.repo id w1 w2 row _ h2
    have hne2 : ¬ ((none : Option Error) = some Error.ErrRecordNotFound) := fun h => by cases h
    simp only [hne2, if_false] at h3
    rw [GetNotificationByID_miss s id w w1 w2 e none (some row) t1 _ h1 h3]
    refine ⟨?_, ?_, ?_⟩
    · simp
    · simp [ht1, Event.isGo]
    · intro v
      simp [NotificationServiceImpl.runTask]
  · intro set2 marshal2
    rfl

/-- Witness for C9: a miss served by the store, and a miss with no row. -/
theorem GetNotificationByID_miss_outcomes_witness :
    sampleService.GetNotificationByID 1 entityMissScript =
      ((some nA, none), Script.empty,
        [Event.Get "notification:1" "" (some Error.redisNil),
          Event.First 1 nA none, Event.Go (Task.CacheNotification nA)]) ∧
    sampleService.GetNotificationByID 7 entityAbsentScript =
      ((none, none), Script.empty,
        [Event.Get "notification:7" "" (some Error.redisNil),
          Event.First 7 default (some Error.ErrRecordNotFound)]) :=
  ⟨((((GetNotificationByID_miss_outcomes sampleService 1 entityMissScript _ _ _
      rfl).2.2.1 _ _ rfl).1).trans (by decide)),
    ((((GetNotificationByID_miss_outcomes sampleService 7 entityAbsentScript _ _ _
      rfl).1 _ _ rfl).1).trans (by decide))⟩

end ByID
section Propagation
variable {σ : Type}

/-- The loop of `FindRecentNotifications` fails exactly when some member does not
unmarshal, and then gives back no entity at all, whatever it had decoded. -/
theorem RedisCache.unmarshalAll_error (j : Json) (members : List String) :
    ∀ acc : List Notification,
      ((RedisCache.unmarshalAll j members acc).2 ≠ none ↔
        ∃ m ∈ members, (j.Unmarshal m).2 ≠ none) ∧
      ((RedisCache.unmarshalAll j members acc).2 ≠ none →
        (RedisCache.unmarshalAll j members acc).1 = []) := by
  induction members with
  | nil => intro acc; simp [RedisCache.unmarshalAll]
  | cons m rest ih =>
    intro acc
    unfold RedisCache.unmarshalAll
    cases hm : (j.Unmarshal m).2 with
    | some err => simp [hm]
    | none =>
      simp only [hm]
      have := ih (acc ++ [(j.Unmarshal m).1])
      refine ⟨?_, this.2⟩
      rw [this.1]
      simp [hm]

/-- The per-id cache read fails exactly when `GET` fails with an error other than
`redis.Nil` or the entry does not unmarshal, and a failed read gives no entity. -/
theorem RedisCache.FindNotificationByID_error (r : RedisCache σ) (id : Int) (w : σ) :
    ((r.FindNotificationByID id w).1.2 ≠ none ↔
      ((r.client.get (r.notificationKey id) w).1.2 ≠ none ∧
        (r.client.get (r.notificationKey id) w).1.2 ≠ some Error.redisNil) ∨
      ((r.client.get (r.notificationKey id) w).1.2 = none ∧
        (r.json.Unmarshal (r.client.get (r.notificationKey id) w).1.1).2 ≠ none)) ∧
    ((r.FindNotificationByID id w).1.2 ≠ none → (r.FindNotificationByID id w).1.1 = none) := by
  unfold RedisCache.FindNotificationByID
  simp only [M.bind_apply, RedisClient.Get]
  by_cases hn : (r.client.get (r.notificationKey id) w).1.2 = some Error.redisNil
  · simp [hn]
  · simp only [hn, if_false]
    cases hg : (r.client.get (r.notificationKey id) w).1.2 with
    | some err =>
      rw [hg] at hn
      simp [hn]
    | none =>
      cases hu : (r.json.Unmarshal (r.client.get (r.notificationKey id) w).1.1).2 <;> simp [hu]

/-- The recent-list cache read fails exactly when `ZREVRANGE` fails or some member
does not unmarshal, and a failed read gives an empty list. -/
theorem RedisCache.FindRecentNotifications_error (r : RedisCache σ) (w : σ) :
    ((r.FindRecentNotifications w).1.2 ≠ none ↔
      (r.client.zRevRange r.recentListKey 0 (-1) w).1.2 ≠ none ∨
      ((r.client.zRevRange r.recentListKey 0 (-1) w).1.2 = none ∧
        ∃ m ∈ (r.client.zRevRange r.recentListKey 0 (-1) w).1.1,
          (r.json.Unmarshal m).2 ≠ none)) ∧
    ((r.FindRecentNotifications w).1.2 ≠ none → (r.FindRecentNotifications w).1.1 = []) := by
  unfold RedisCache.FindRecentNotifications
  simp only [M.bind_apply, RedisClient.ZRevRange]
  cases hz : (r.client.zRevRange r.recentListKey 0 (-1) w).1.2 with
  | some err => simp
  | none =>
    by_cases hl : (r.client.zRevRange r.recentListKey 0 (-1) w).1.1.length = 0
    · have hnil := List.length_eq_zero.mp hl
      simp [hl, hnil]
    · have hu := RedisCache.unmarshalAll_error r.json
        (r.client.zRevRange r.recentListKey 0 (-1) w).1.1 []
      simp only [hl, if_false, M.pure_apply]
      refine ⟨?_, hu.2⟩
      rw [hu.1]
      simp

/-- C7. Cache and lock failures never reach the caller of the two read
operations: `GetNotificationByID` returns an error exactly when the cache yielded
no entity and `FindByID` failed; `GetRecentNotifications` returns an error
exactly when its execution contains an entity store top-10 query that failed.
A per-id cache read fails exactly when `GET` fails (other than `redis.Nil`) or
the entry does not unmarshal, a recent-list cache read fails exactly when
`ZREVRANGE` fails or some member does not unmarshal, and a failed cache read
hands over no entity (an empty list); so an operation whose cache read fails
returns the same value and leaves the same state as one whose cache read
misses and leaves the same state behind. -/
theorem read_errors_come_from_the_store (s : NotificationServiceImpl σ) :
    (∀ (id : Int) (w : σ),
      (s.GetNotificationByID id w).1.2 ≠ none ↔
        (s.cache.FindNotificationByID id w).1.1 = none ∧
        (s.repo.FindByID id (s.cache.FindNotificationByID id w).2.1).1.2 ≠ none) ∧
    (∀ w : σ,
      (s.GetRecentNotifications w).1.2 ≠ none ↔
        ∃ rows err, Event.Find "created_at DESC" 10 rows (some err) ∈
          (s.GetRecentNotifications w).2.2) ∧
    (∀ (id : Int) (w : σ),
      ((s.cache.FindNotificationByID id w).1.2 ≠ none ↔
        ((s.cache.client.get (s.cache.notificationKey id) w).1.2 ≠ none ∧
          (s.cache.client.get (s.cache.notificationKey id) w).1.2 ≠ some Error.redisNil) ∨
        ((s.cache.client.get (s.cache.notificationKey id) w).1.2 = none ∧
          (s.cache.json.Unmarshal
            (s.cache.client.get (s.cache.notificationKey id) w).1.1).2 ≠ none)) ∧
      ((s.cache.FindNotificationByID id w).1.2 ≠ none →
        (s.cache.FindNotificationByID id w).1.1 = none)) ∧
    (∀ w : σ,
      ((s.cache.FindRecentNotifications w).1.2 ≠ none ↔
        (s.cache.client.zRevRange s.cache.recentListKey 0 (-1) w).1.2 ≠ none ∨
        ((s.cache.client.zRevRange s.cache.recentListKey 0 (-1) w).1.2 = none ∧
          ∃ m ∈ (s.cache.client.zRevRange s.cache.recentListKey 0 (-1) w).1.1,
            (s.cache.json.Unmarshal m).2 ≠ none)) ∧
      ((s.cache.FindRecentNotifications w).1.2 ≠ none →
        (s.cache.FindRecentNotifications w).1.1 = [])) ∧
    (∀ (id : Int) (w v : σ),
      (s.cache.FindNotificationByID id w).1.2 ≠ none →
      (s.cache.FindNotificationByID id v).1 = (none, none) →
      (s.cache.FindNotificationByID id w).2.1 = (s.cache.FindNotificationByID id v).2.1 →
      (s.GetNotificationByID id w).1 = (s.GetNotificationByID id v).1 ∧
      (s.GetNotificationByID id w).2.1 = (s.GetNotificationByID id v).2.1) ∧
    (∀ (w v : σ),
      (s.cache.FindRecentNotifications w).1.2 ≠ none →
      (s.cache.FindRecentNotifications v).1 = ([], none) →
      (s.cache.FindRecentNotifications w).2.1 = (s.cache.FindRecentNotifications v).2.1 →
      (s.GetRecentNotifications w).1 = (s.GetRecentNotifications v).1 ∧
      (s.GetRecentNotifications w).2.1 = (s.GetRecentNotifications v).2.1) := by
  have htd := fun v => s.cache.DeleteKey_trace (s.cache.GetLockKey "getRecentNotifications") v
  refine ⟨?_, ?_, fun id w => s.cache.FindNotificationByID_error id w,
    fun w => s.cache.FindRecentNotifications_error w, ?_, ?_⟩
  · intro id w
    rcases h1 : s.cache.FindNotificationByID id w with ⟨⟨c, e⟩, w1, t1⟩
    cases c with
    | some n =>
      rw [GetNotificationByID_hit s id w w1 n e t1 h1]
      simp
    | none =>
      rcases h2 : s.repo.FindByID id w1 with ⟨⟨found, ferr⟩, w2, t2⟩
      rw [GetNotificationByID_miss s id w w1 w2 e ferr found t1 t2 h1 h2]
      cases ferr with
      | some err => simp
      | none => cases found <;> simp
  · intro w
    rcases h1 : s.cache.FindRecentNotifications w with ⟨⟨l1, e1⟩, w1, t1⟩
    have ht1 := s.cache.FindRecentNotifications_trace w
    rw [h1] at ht1
    simp only at ht1
    by_cases hl1 : l1 = []
    · subst hl1
      rcases h2 : s.cache.SetNXWithExpiration (s.cache.GetLockKey "getRecentNotifications")
        "locked" (30 * Second) w1 with ⟨⟨b, lerr⟩, w2, t2⟩
      have ht2 := s.cache.SetNXWithExpiration_trace
        (s.cache.GetLockKey "getRecentNotifications") "locked" (30 * Second) w1
      rw [h2] at ht2
      simp only at ht2
      cases lerr with
      | some le =>
        rw [GetRecentNotifications_lockError s w w1 w2 e1 t1 t2 b le h1 h2]
        rcases h4 : s.repo.FindTop10ByOrderByCreatedAtDesc w2 with ⟨⟨ns, qerr⟩, w4, t4⟩
        have ht4 := s.repo.FindTop10ByOrderByCreatedAtDesc_trace w2
        rw [h4] at ht4
        simp only at ht4
        cases qerr <;> simp [ht1, ht2, ht4]
      | none =>
        rcases h3 : s.cache.FindRecentNotifications w2 with ⟨⟨l3, e3⟩, w3, t3⟩
        have ht3 := s.cache.FindRecentNotifications_trace w2
        rw [h3] at ht3
        simp only at ht3
        rcases h4 : s.repo.FindTop10ByOrderByCreatedAtDesc w3 with ⟨⟨ns, qerr⟩, w4, t4⟩
        have ht4 := s.repo.FindTop10ByOrderByCreatedAtDesc_trace w3
        rw [h4] at ht4
        simp only at ht4
        cases b with
        | false =>
          rw [GetRecentNotifications_notAcquired s w w1 w2 w3 e1 e3 t1 t2 t3 l3 h1 h2 h3]
          by_cases hl3 : l3 = []
          · cases qerr <;> simp [hl3, h4, ht1, ht2, ht3, ht4]
          · simp [hl3, ht1, ht2, ht3]
        | true =>
          rw [GetRecentNotifications_acquired s w w1 w2 e1 t1 t2 h1 h2]
          by_cases hl3 : l3 = []
          · subst hl3
            rw [rebuildRecent_miss s w2 w3 w4 e3 qerr t3 t4 ns h3 h4]
            cases qerr with
            | some err => simp [ht1, ht2, ht3, ht4, htd]
            | none =>
              by_cases hn : ns = []
              · simp [hn, ht1, ht2, ht3, ht4, htd]
              · rcases s.cache.PopulateRecentList_trace ns w4 with hp | ⟨cmds, perr, hp⟩ <;>
                  simp [hn, hp, ht1, ht2, ht3, ht4, htd]
          · rw [rebuildRecent_hit s w2 w3 l3 e3 t3 h3 hl3]
            simp [ht1, ht2, ht3, htd]
    · rw [GetRecentNotifications_hit s w w1 l1 e1 t1 h1 hl1]
      simp [ht1]
  · intro id w v hw hv hst
    have hnone := (s.cache.FindNotificationByID_error id w).2 hw
    rcases h1 : s.cache.FindNotificationByID id w with ⟨⟨c, e⟩, w1, t⟩
    rcases h2 : s.cache.FindNotificationByID id v with ⟨⟨c2, e2⟩, v1, u⟩
    rw [h1] at hnone hst
    rw [h2] at hv hst
    simp only at hnone hst
    simp only [Prod.mk.injEq] at hv
    obtain ⟨hc2, he2⟩ := hv
    subst hnone
    subst hc2
    subst he2
    subst hst
    unfold NotificationServiceImpl.GetNotificationByID
    simp [h1, h2]
  · intro w v hw hv hst
    have hnil := (s.cache.FindRecentNotifications_error w).2 hw
    rcases h1 : s.cache.FindRecentNotifications w with ⟨⟨l, e⟩, w1, t⟩
    rcases h2 : s.cache.FindRecentNotifications v with ⟨⟨l2, e2⟩, v1, u⟩
    rw [h1] at hnil hst
    rw [h2] at hv hst
    simp only at hnil hst
    simp only [Prod.mk.injEq] at hv
    obtain ⟨hl2, he2⟩ := hv
    subst hnil
    subst hl2
    subst he2
    subst hst
    unfold NotificationServiceImpl.GetRecentNotifications
    simp [h1, h2]

/-- Witness for C7: with Redis unreachable and the store failing, the caller of
either read gets the store's error; a per-id read whose cache is unreachable, or
whose entry does not unmarshal, returns the row of the store as a miss does; a
recent-list read whose cache is unreachable, or holds a member that does not
unmarshal after one that does, returns what the rebuild after a miss returns. -/
theorem read_errors_come_from_the_store_witness :
    (sampleService.GetNotificationByID 1 outageScript).1.2 ≠ none ∧
    (sampleService.GetRecentNotifications outageScript).1.2 ≠ none ∧
    (sampleService.GetNotificationByID 1 cacheDownScript).1 =
      (sampleService.GetNotificationByID 1 entityMissScript).1 ∧
    (sampleService.GetNotificationByID 1 corruptEntryScript).1 =
      (sampleService.GetNotificationByID 1 entityMissScript).1 ∧
    (sampleService.GetNotificationByID 1 entityMissScript).1 = (some nA, none) ∧
    (sampleService.GetRecentNotifications listDownScript).1 =
      (sampleService.GetRecentNotifications rebuildScript).1 ∧
    (sampleService.GetRecentNotifications corruptListScript).1 =
      (sampleService.GetRecentNotifications rebuildScript).1 ∧
    (sampleService.GetRecentNotifications rebuildScript).1 = ([nB, nA], none) :=
  ⟨((read_errors_come_from_the_store sampleService).1 1 outageScript).mpr (by decide),
    ((read_errors_come_from_the_store sampleService).2.1 outageScript).mpr
      ⟨[], Script.closed, by decide⟩,
    ((read_errors_come_from_the_store sampleService).2.2.2.2.1 1 cacheDownScript
      entityMissScript (by decide) (by decide) (by decide)).1,
    ((read_errors_come_from_the_store sampleService).2.2.2.2.1 1 corruptEntryScript
      entityMissScript (by decide) (by decide) (by decide)).1,
    by decide,
    ((read_errors_come_from_the_store sampleService).2.2.2.2.2 listDownScript
      rebuildScript (by decide) (by decide) (by decide)).1,
    ((read_errors_come_from_the_store sampleService).2.2.2.2.2 corruptListScript
      rebuildScript (by decide) (by decide) (by decide)).1,
    by decide⟩

end Propagation
/-! ## The sorted-set model and `PopulateRecentList` -/

section SortedSet

theorem ZLe.score_le {a b : Int × String} (h : ZLe a b) : a.1 ≤ b.1 := by
  rcases h with h | ⟨h, _⟩
  · exact le_of_lt h
  · exact le_of_eq h

namespace ZSet

theorem mem_add {score : Int} {member : String} {z : List (Int × String)} {x : Int × String} :
    x ∈ add score member z ↔ x = (score, member) ∨ (x ∈ z ∧ x.2 ≠ member) := by
  unfold add
  rw [List.mem_orderedInsert]
  simp [List.mem_filter]

theorem members_add (score : Int) (member : String) (z : List (Int × String)) :
    ((add score member z).map Prod.snd).Perm
      (member :: ((z.filter (fun e => decide (e.2 ≠ member))).map Prod.snd)) := by
  unfold add
  exact (List.perm_orderedInsert ZLe (score, member) _).map Prod.snd

theorem WF_add {score : Int} {member : String} {z : List (Int × String)} (h : WF z) :
    WF (add score member z) := by
  refine ⟨?_, ?_⟩
  · unfold add
    exact List.Sorted.orderedInsert _ _ (h.1.filter _)
  · rw [(members_add score member z).nodup_iff, List.nodup_cons]
    refine ⟨?_, ?_⟩
    · intro hm
      rcases List.mem_map.mp hm with ⟨e, he, hem⟩
      have := (List.mem_filter.mp he).2
      simp at this
      exact this hem
    · exact h.2.sublist ((List.filter_sublist _).map Prod.snd)

theorem WF_addAll (entries : List (Int × String)) :
    ∀ z : List (Int × String), WF z → WF (addAll entries z) := by
  induction entries with
  | nil => intro z h; exact h
  | cons e es ih => intro z h; exact ih _ (WF_add h)

theorem addAll_cons (e : Int × String) (es z : List (Int × String)) :
    addAll (e :: es) z = addAll es (add e.1 e.2 z) := rfl

theorem mem_addAll (entries : List (Int × String)) :
    ∀ (z : List (Int × String)) (x : Int × String),
      x ∈ addAll entries z → x ∈ entries ∨ x ∈ z := by
  induction entries with
  | nil => intro z x h; exact Or.inr h
  | cons e es ih =>
    intro z x h
    rw [addAll_cons] at h
    rcases ih _ x h with h1 | h1
    · exact Or.inl (List.mem_cons_of_mem _ h1)
    · rcases mem_add.mp h1 with h2 | h2
      · exact Or.inl (h2 ▸ List.mem_cons_self _ _)
      · exact Or.inr h2.1

theorem member_add_of_member {score : Int} {member m : String} {z : List (Int × String)}
    (h : m ∈ z.map Prod.snd) : m ∈ (add score member z).map Prod.snd := by
  rcases List.mem_map.mp h with ⟨x, hx, hxm⟩
  by_cases hm : m = member
  · exact List.mem_map.mpr ⟨(score, member), mem_add.mpr (Or.inl rfl), hm.symm⟩
  · exact List.mem_map.mpr ⟨x, mem_add.mpr (Or.inr ⟨hx, hxm ▸ hm⟩), hxm⟩

theorem members_addAll (entries : List (Int × String)) :
    ∀ (z : List (Int × String)) (m : String),
      (m ∈ entries.map Prod.snd ∨ m ∈ z.map Prod.snd) → m ∈ (addAll entries z).map Prod.snd := by
  induction entries with
  | nil =>
    intro z m h
    rcases h with h | h
    · simp at h
    · exact h
  | cons e es ih =>
    intro z m h
    rw [addAll_cons]
    rcases h with h | h
    · rw [List.map_cons, List.mem_cons] at h
      rcases h with h | h
      · exact ih _ m (Or.inr (List.mem_map.mpr ⟨(e.1, e.2), mem_add.mpr (Or.inl rfl), h.symm⟩))
      · exact ih _ m (Or.inl h)
    · exact ih _ m (Or.inr (member_add_of_member h))

theorem length_add_pos (score : Int) (member : String) (z : List (Int × String)) :
    0 < (add score member z).length := by
  unfold add
  rw [List.orderedInsert_length]
  exact Nat.succ_pos _

theorem length_addAll_pos (entries : List (Int × String)) :
    ∀ z : List (Int × String), (entries ≠ [] ∨ z ≠ []) → 0 < (addAll entries z).length := by
  induction entries with
  | nil =>
    intro z h
    rcases h with h | h
    · exact absurd rfl h
    · exact List.length_pos.mpr h
  | cons e es ih =>
    intro z _
    rw [addAll_cons]
    exact ih _ (Or.inr (List.length_pos.mp (length_add_pos _ _ _)))

/-- Redis `ZREMRANGEBYRANK key 0 -11` keeps the ten highest ranks. -/
theorem remRangeByRank_top10 (z : List (Int × String)) :
    remRangeByRank 0 (-11) z = z.drop (z.length - 10) := by
  unfold remRangeByRank rankRange
  by_cases h : z.length ≤ 10
  · have h1 : (0 : Int) > (z.length : Int) + -11 := by omega
    simp [h1, Nat.sub_eq_zero_of_le h]
  · have h1 : ¬ ((0 : Int) > (z.length : Int) + -11) := by omega
    have h2 : ¬ ((0 : Int) ≥ (z.length : Int)) := by omega
    have h3 : ¬ ((z.length : Int) + -11 ≥ (z.length : Int)) := by omega
    have h4 : ((z.length : Int) + -11).toNat + 1 = z.length - 10 := by omega
    simp [h1, h2, h3, h4]

end ZSet

end SortedSet
section Pipeline

theorem Store.setKey_setKey (w : Store) (k : String) (a b : Option RedisValue) :
    (w.setKey k a).setKey k b = w.setKey k b := by
  unfold Store.setKey
  congr 1
  funext x
  by_cases h : x = k <;> simp [h]

theorem Store.setKey_self (w : Store) (k : String) (v : Option RedisValue)
    (h : w.redis k = v) : w.setKey k v = w := by
  unfold Store.setKey
  cases w with
  | mk redis rows tx =>
    congr 1
    funext x
    by_cases hx : x = k
    · subst hx; simp [← h]
    · simp [hx]

theorem Store.setKey_zsetAt (w : Store) (k : String) (z : List (Int × String)) :
    (w.setKey k (some (RedisValue.zset z))).zsetAt k = z := by
  simp [Store.setKey, Store.zsetAt]

theorem execAll_cons_ok (c : PipeCmd) (cs : List PipeCmd) (w w1 : Store)
    (h : applyCmd c w = (none, w1)) : execAll (c :: cs) w = execAll cs w1 := by
  simp [execAll, h]

theorem execAll_zadds_zset (key : String) (rest : List PipeCmd)
    (entries : List (Int × String)) :
    ∀ (z : List (Int × String)) (w : Store), w.redis key = some (RedisValue.zset z) →
      execAll (entries.map (fun e => PipeCmd.ZAdd key e.1 e.2) ++ rest) w =
        execAll rest (w.setKey key (some (RedisValue.zset (ZSet.addAll entries z)))) := by
  induction entries with
  | nil =>
    intro z w h
    have hz : ZSet.addAll [] z = z := rfl
    rw [hz, Store.setKey_self w key _ h]
    rfl
  | cons e es ih =>
    intro z w h
    have hstep : applyCmd (PipeCmd.ZAdd key e.1 e.2) w =
        (none, w.setKey key (some (RedisValue.zset (ZSet.add e.1 e.2 z)))) := by
      simp [applyCmd, h]
    rw [List.map_cons, List.cons_append, execAll_cons_ok _ _ _ _ hstep,
      ih (ZSet.add e.1 e.2 z) _ (by simp [Store.setKey]), Store.setKey_setKey,
      ZSet.addAll_cons]

theorem execAll_zadds (key : String) (rest : List PipeCmd) (entries : List (Int × String))
    (w : Store) (hne : entries ≠ []) (hk : ∀ s, w.redis key ≠ some (RedisValue.str s)) :
    execAll (entries.map (fun e => PipeCmd.ZAdd key e.1 e.2) ++ rest) w =
      execAll rest
        (w.setKey key (some (RedisValue.zset (ZSet.addAll entries (w.zsetAt key))))) := by
  cases hv : w.redis key with
  | none =>
    cases entries with
    | nil => exact absurd rfl hne
    | cons e es =>
      have hstep : applyCmd (PipeCmd.ZAdd key e.1 e.2) w =
          (none, w.setKey key (some (RedisValue.zset (ZSet.add e.1 e.2 [])))) := by
        simp [applyCmd, hv]
      have hz : w.zsetAt key = [] := by simp [Store.zsetAt, hv]
      rw [List.map_cons, List.cons_append, execAll_cons_ok _ _ _ _ hstep,
        execAll_zadds_zset key rest es (ZSet.add e.1 e.2 []) _ (by simp [Store.setKey]),
        Store.setKey_setKey, hz, ZSet.addAll_cons]
  | some v =>
    cases v with
    | str s => exact absurd hv (hk s)
    | zset z =>
      have hz : w.zsetAt key = z := by simp [Store.zsetAt, hv]
      rw [execAll_zadds_zset key rest entries z w hv, hz]

theorem execAll_wrongType (key : String) (score : Int) (member s : String)
    (rest : List PipeCmd) (w : Store) (h : w.redis key = some (RedisValue.str s)) :
    (execAll (PipeCmd.ZAdd key score member :: rest) w).1 = some wrongType := by
  simp [execAll, applyCmd, h]

theorem execAll_trim (key : String) (z : List (Int × String)) (w : Store)
    (h : w.redis key = some (RedisValue.zset z)) (hz : z ≠ []) :
    execAll [PipeCmd.ZRemRangeByRank key 0 (-11)] w =
      (none, w.setKey key (some (RedisValue.zset (z.drop (z.length - 10))))) := by
  have hpos : 0 < z.length := List.length_pos.mpr hz
  have hd : z.drop (z.length - 10) ≠ [] := by
    intro hnil
    have := congrArg List.length hnil
    simp at this
    omega
  simp [execAll, applyCmd, h, ZSet.remRangeByRank_top10, hd]

theorem RedisCache.queueZAdds_ok {σ : Type} (r : RedisCache σ) (ns : List Notification) :
    ∀ pipe : List PipeCmd, (r.queueZAdds ns pipe).2 = none →
      (r.queueZAdds ns pipe).1 =
        pipe ++ (r.zaddEntries ns).map (fun e => PipeCmd.ZAdd r.recentListKey e.1 e.2) := by
  induction ns with
  | nil => intro pipe _; simp [RedisCache.queueZAdds, RedisCache.zaddEntries]
  | cons n rest ih =>
    intro pipe h
    unfold RedisCache.queueZAdds at h ⊢
    cases hm : (r.json.Marshal n).2 with
    | some err => simp [hm] at h
    | none =>
      simp only [hm] at h ⊢
      rw [ih _ h]
      simp [RedisCache.zaddEntries]

end Pipeline
section Populate

theorem RedisCache.queueZAdds_ok_iff {σ : Type} (r : RedisCache σ) (ns : List Notification) :
    ∀ pipe : List PipeCmd,
      (r.queueZAdds ns pipe).2 = none ↔ ∀ n ∈ ns, (r.json.Marshal n).2 = none := by
  induction ns with
  | nil => intro pipe; simp [RedisCache.queueZAdds]
  | cons n rest ih =>
    intro pipe
    unfold RedisCache.queueZAdds
    cases hm : (r.json.Marshal n).2 with
    | some err => simp [hm]
    | none => simp [hm, ih]

/-- Method `PopulateRecentList` on the reference server, when every entity marshals and
the key does not hold a string. -/
theorem RedisCache.PopulateRecentList_model (r : RedisCache Store) (hr : r.client = redisServer)
    (ns : List Notification) (w : Store) (hne : ns ≠ [])
    (hq : (r.queueZAdds ns []).2 = none)
    (hk : ∀ s, w.redis r.recentListKey ≠ some (RedisValue.str s)) :
    r.PopulateRecentList ns w =
      (none,
        w.setKey r.recentListKey (some (RedisValue.zset
          ((r.afterZAdds ns w).drop ((r.afterZAdds ns w).length - 10)))),
        [Event.Exec ((r.queueZAdds ns []).1 ++
          [PipeCmd.ZRemRangeByRank r.recentListKey 0 (-11)]) none]) := by
  have hlen : ¬ ns.length = 0 := fun h => hne (List.length_eq_zero.mp h)
  have hent : r.zaddEntries ns ≠ [] := by
    simpa [RedisCache.zaddEntries] using hne
  have hU : r.afterZAdds ns w ≠ [] :=
    List.length_pos.mp (ZSet.length_addAll_pos _ _ (Or.inl hent))
  have hexec : execAll ((r.queueZAdds ns []).1 ++
      [PipeCmd.ZRemRangeByRank r.recentListKey 0 (-11)]) w =
      (none, w.setKey r.recentListKey (some (RedisValue.zset
        ((r.afterZAdds ns w).drop ((r.afterZAdds ns w).length - 10))))) := by
    rw [r.queueZAdds_ok ns [] hq, List.nil_append,
      execAll_zadds r.recentListKey _ (r.zaddEntries ns) w hent hk,
      execAll_trim r.recentListKey (r.afterZAdds ns w) _ (by simp [Store.setKey]; rfl) hU,
      Store.setKey_setKey]
  unfold RedisCache.PopulateRecentList
  simp only [hlen, if_false, hq, M.bind_apply, RedisClient.Exec, hr]
  have hexec2 : redisServer.exec ((r.queueZAdds ns []).1 ++
      [PipeCmd.ZRemRangeByRank r.recentListKey 0 (-11)]) w = _ := hexec
  rw [hexec2]
  simp

/-- Method `PopulateRecentList` reports an error when the key holds a string. -/
theorem RedisCache.PopulateRecentList_wrongType (r : RedisCache Store)
    (hr : r.client = redisServer) (ns : List Notification) (w : Store) (hne : ns ≠ [])
    (s : String) (hk : w.redis r.recentListKey = some (RedisValue.str s)) :
    (r.PopulateRecentList ns w).1 ≠ none := by
  have hlen : ¬ ns.length = 0 := fun h => hne (List.length_eq_zero.mp h)
  unfold RedisCache.PopulateRecentList
  simp only [hlen, if_false]
  cases hq : (r.queueZAdds ns []).2 with
  | some err => simp
  | none =>
    have hcmds := r.queueZAdds_ok ns [] hq
    cases ns with
    | nil => exact absurd rfl hne
    | cons n rest =>
      have hw := execAll_wrongType r.recentListKey (UnixMilli n.CreatedAt)
        (r.json.Marshal n).1 s
        ((r.zaddEntries rest).map (fun e => PipeCmd.ZAdd r.recentListKey e.1 e.2) ++
          [PipeCmd.ZRemRangeByRank r.recentListKey 0 (-11)]) w hk
      have hx : (redisServer.exec ((r.queueZAdds (n :: rest) []).1 ++
          [PipeCmd.ZRemRangeByRank r.recentListKey 0 (-11)]) w).1 = some wrongType := by
        rw [hcmds]
        simpa [RedisCache.zaddEntries, redisServer] using hw
      simp [M.bind_apply, RedisClient.Exec, hr, hx]

/-- C10. On the reference Redis server, for every well-formed prior content of
the ranked collection: with an empty input `PopulateRecentList` leaves the state
unchanged and issues no command; with a non-empty input it succeeds exactly when
every entity marshals and the key does not hold a string, and after a successful
call the collection `A` has at most 10 members, namely the `min 10 |U|` members
of `U` of highest rank, where `U` holds the prior members and the inserted
entities (each inserted entity under its `createdAt` score): every member of `U`
left out of `A` has a score at most that of every member of `A`, and no other key
is touched. -/
theorem PopulateRecentList_keeps_top10 (r : RedisCache Store) (hr : r.client = redisServer)
    (ns : List Notification) (w : Store) (hwf : ZSet.WF (w.zsetAt r.recentListKey)) :
    (ns = [] → r.PopulateRecentList ns w = (none, w, [])) ∧
    (ns ≠ [] →
      ((r.PopulateRecentList ns w).1 = none ↔
        (∀ n ∈ ns, (r.json.Marshal n).2 = none) ∧
        ∀ s, w.redis r.recentListKey ≠ some (RedisValue.str s))) ∧
    (ns ≠ [] → (r.PopulateRecentList ns w).1 = none →
      ((r.PopulateRecentList ns w).2.1.zsetAt r.recentListKey).length ≤ 10 ∧
      ((r.PopulateRecentList ns w).2.1.zsetAt r.recentListKey).length =
        min 10 (r.afterZAdds ns w).length ∧
      ((r.PopulateRecentList ns w).2.1.zsetAt r.recentListKey).Sublist (r.afterZAdds ns w) ∧
      (∀ a ∈ r.afterZAdds ns w,
        a ∉ (r.PopulateRecentList ns w).2.1.zsetAt r.recentListKey →
        ∀ b ∈ (r.PopulateRecentList ns w).2.1.zsetAt r.recentListKey, a.1 ≤ b.1) ∧
      ((r.afterZAdds ns w).map Prod.snd).Nodup ∧
      (∀ n ∈ ns, (r.json.Marshal n).1 ∈ (r.afterZAdds ns w).map Prod.snd) ∧
      (∀ x ∈ w.zsetAt r.recentListKey, x.2 ∈ (r.afterZAdds ns w).map Prod.snd) ∧
      (∀ x ∈ r.afterZAdds ns w,
        (∃ n ∈ ns, x = (UnixMilli n.CreatedAt, (r.json.Marshal n).1)) ∨
        x ∈ w.zsetAt r.recentListKey) ∧
      (∀ k, k ≠ r.recentListKey →
        (r.PopulateRecentList ns w).2.1.redis k = w.redis k)) := by
  have hiff : ns ≠ [] → ((r.PopulateRecentList ns w).1 = none ↔
      (∀ n ∈ ns, (r.json.Marshal n).2 = none) ∧
      ∀ s, w.redis r.recentListKey ≠ some (RedisValue.str s)) := by
    intro hne
    constructor
    · intro hok
      have hlen : ¬ ns.length = 0 := fun h => hne (List.length_eq_zero.mp h)
      refine ⟨?_, ?_⟩
      · rw [← r.queueZAdds_ok_iff ns []]
        cases hq : (r.queueZAdds ns []).2 with
        | none => rfl
        | some err =>
          unfold RedisCache.PopulateRecentList at hok
          simp [hlen, hq] at hok
      · intro s hs
        exact r.PopulateRecentList_wrongType hr ns w hne s hs hok
    · rintro ⟨hm, hk⟩
      rw [r.PopulateRecentList_model hr ns w hne ((r.queueZAdds_ok_iff ns []).mpr hm) hk]
  refine ⟨?_, hiff, ?_⟩
  · intro h
    subst h
    rfl
  · intro hne hok
    obtain ⟨hm, hk⟩ := (hiff hne).mp hok
    have hU : ZSet.WF (r.afterZAdds ns w) := ZSet.WF_addAll _ _ hwf
    rw [r.PopulateRecentList_model hr ns w hne ((r.queueZAdds_ok_iff ns []).mpr hm) hk]
    simp only [Store.setKey_zsetAt]
    refine ⟨?_, ?_, ?_, ?_, hU.2, ?_, ?_, ?_, ?_⟩
    · rw [List.length_drop]; omega
    · rw [List.length_drop]; omega
    · exact List.drop_sublist _ _
    · intro a ha hna b hb
      have hta : a ∈ (r.afterZAdds ns w).take ((r.afterZAdds ns w).length - 10) := by
        have hsplit := List.take_append_drop ((r.afterZAdds ns w).length - 10)
          (r.afterZAdds ns w)
        rw [← hsplit] at ha
        rcases List.mem_append.mp ha with h | h
        · exact h
        · exact absurd h hna
      exact ZLe.score_le (hU.1.rel_of_mem_take_of_mem_drop hta hb)
    · intro n hn
      refine ZSet.members_addAll _ _ _ (Or.inl ?_)
      exact List.mem_map.mpr
        ⟨(UnixMilli n.CreatedAt, (r.json.Marshal n).1),
          List.mem_map.mpr ⟨n, hn, rfl⟩, rfl⟩
    · intro x hx
      exact ZSet.members_addAll _ _ _ (Or.inr (List.mem_map.mpr ⟨x, hx, rfl⟩))
    · intro x hx
      rcases ZSet.mem_addAll _ _ x hx with h | h
      · left
        rcases List.mem_map.mp h with ⟨n, hn, hnx⟩
        exact ⟨n, hn, hnx.symm⟩
      · exact Or.inr h
    · intro k hk2
      simp [Store.setKey, hk2]

/-- Witness for C10: ten members held, two entities inserted, the two lowest
ranks leave. -/
theorem PopulateRecentList_keeps_top10_witness :
    ((modelCache.PopulateRecentList [rowAt 11 0, rowAt 12 12] fullStore).2.1.zsetAt
        "notifications:recent").length ≤ 10 ∧
    (modelCache.PopulateRecentList [rowAt 11 0, rowAt 12 12] fullStore).2.1.zsetAt
        "notifications:recent" =
      [(2, "2"), (3, "3"), (4, "4"), (5, "5"), (6, "6"), (7, "7"), (8, "8"), (9, "9"),
        (10, "10"), (12, "12")] :=
  ⟨((PopulateRecentList_keeps_top10 modelCache rfl [rowAt 11 0, rowAt 12 12] fullStore
      (by decide)).2.2 (by decide) (by decide)).1,
    by decide⟩

end Populate

/-! ## The order of the cached recent list -/

section RecentOrder

/-- Counterexample to C11 as stated: two entities created at the same instant are
both returned, so the sequence is not strictly descending; and two entities
created within the same millisecond come back with the older one first. -/
theorem recent_list_strictly_descending_counterexample :
    (tieCache.FindRecentNotifications
      (tieCache.PopulateRecentList [tA, tB] emptyStore).2.1).1 = ([tB, tA], none) ∧
    ¬ (tB.CreatedAt > tA.CreatedAt) ∧
    (tieCache.FindRecentNotifications
      (tieCache.PopulateRecentList [uA, uB] emptyStore).2.1).1 = ([uB, uA], none) ∧
    uB.CreatedAt < uA.CreatedAt := by
  decide

theorem ZSet.revRange_all (z : List (Int × String)) (hz : z ≠ []) :
    ZSet.revRange 0 (-1) z = z.reverse.map Prod.snd := by
  have hpos : 0 < z.length := List.length_pos.mpr hz
  unfold ZSet.revRange ZSet.rankRange
  have h1 : ¬ ((0 : Int) > (z.length : Int) + -1) := by omega
  have h2 : ¬ ((0 : Int) ≥ (z.length : Int)) := by omega
  have h3 : ¬ ((z.length : Int) + -1 ≥ (z.length : Int)) := by omega
  have h4 : ((z.length : Int) + -1).toNat + 1 = z.length := by omega
  simp [h1, h2, h3, h4]

theorem RedisCache.unmarshalAll_ok (j : Json) (members : List String) :
    ∀ acc : List Notification, (∀ m ∈ members, (j.Unmarshal m).2 = none) →
      RedisCache.unmarshalAll j members acc =
        (acc ++ members.map (fun m => (j.Unmarshal m).1), none) := by
  induction members with
  | nil => intro acc _; simp [RedisCache.unmarshalAll]
  | cons m rest ih =>
    intro acc h
    unfold RedisCache.unmarshalAll
    have hm := h m (List.mem_cons_self _ _)
    simp only [hm]
    rw [ih _ (fun x hx => h x (List.mem_cons_of_mem _ hx))]
    simp

/-- On the reference server, what the read of a well-kept recent list returns. -/
theorem RedisCache.FindRecentNotifications_inv (r : RedisCache Store)
    (hr : r.client = redisServer) (w : Store) (h : r.RecentInv w) :
    (r.FindRecentNotifications w).1.1 =
      (w.zsetAt r.recentListKey).reverse.map (fun e => (r.json.Unmarshal e.2).1) := by
  cases hv : w.redis r.recentListKey with
  | none =>
    unfold RedisCache.FindRecentNotifications
    simp [RedisClient.ZRevRange, hr, redisServer, hv, Store.zsetAt]
  | some val =>
    cases val with
    | str s =>
      unfold RedisCache.FindRecentNotifications
      simp [RedisClient.ZRevRange, hr, redisServer, hv, Store.zsetAt]
    | zset z =>
      have hz : w.zsetAt r.recentListKey = z := by simp [Store.zsetAt, hv]
      rw [hz]
      unfold RedisCache.RecentInv at h
      rw [hz] at h
      have hrr : redisServer.zRevRange r.recentListKey 0 (-1) w =
          ((ZSet.revRange 0 (-1) z, none), w) := by simp [redisServer, hv]
      unfold RedisCache.FindRecentNotifications
      simp only [M.bind_apply, RedisClient.ZRevRange, hr, hrr]
      by_cases hnil : z = []
      · subst hnil
        simp [ZSet.revRange, ZSet.rankRange]
      · rw [ZSet.revRange_all z hnil]
        have hlen : ¬ (z.reverse.map Prod.snd).length = 0 := by
          simp [hnil]
        have hok : ∀ m ∈ z.reverse.map Prod.snd, (r.json.Unmarshal m).2 = none := by
          intro m hm
          rcases List.mem_map.mp hm with ⟨e, he, hem⟩
          rw [← hem]
          exact (h.2 e (List.mem_reverse.mp he)).1
        simp only [hlen, if_false, M.pure_apply]
        rw [RedisCache.unmarshalAll_ok r.json _ [] hok]
        simp [List.map_map, Function.comp]

theorem execAll_populate_str (key s : String) (a b : Int) (w : Store)
    (h : w.redis key = some (RedisValue.str s)) (entries : List (Int × String)) :
    (execAll (entries.map (fun e => PipeCmd.ZAdd key e.1 e.2) ++
      [PipeCmd.ZRemRangeByRank key a b]) w).2 = w := by
  induction entries with
  | nil => simp [execAll, applyCmd, h]
  | cons e es ih =>
    simp only [List.map_cons, List.cons_append, execAll, applyCmd, h]
    exact ih

/-- On the reference server `PopulateRecentList` either leaves the keyspace as it
was, or rewrites the recent list to the ten highest ranks of the prior members
and the entries of entities that all marshalled. -/
theorem RedisCache.PopulateRecentList_state (r : RedisCache Store)
    (hr : r.client = redisServer) (ns : List Notification) (w : Store) :
    (r.PopulateRecentList ns w).2.1 = w ∨
    ((r.PopulateRecentList ns w).2.1 =
      w.setKey r.recentListKey (some (RedisValue.zset
        ((r.afterZAdds ns w).drop ((r.afterZAdds ns w).length - 10))))) := by
  by_cases hne : ns = []
  · left
    subst hne
    rfl
  · have hlen : ¬ ns.length = 0 := fun h => hne (List.length_eq_zero.mp h)
    cases hq : (r.queueZAdds ns []).2 with
    | some err =>
      left
      unfold RedisCache.PopulateRecentList
      simp [hlen, hq]
    | none =>
      by_cases hk : ∀ s, w.redis r.recentListKey ≠ some (RedisValue.str s)
      · right
        rw [r.PopulateRecentList_model hr ns w hne hq hk]
      · left
        push_neg at hk
        obtain ⟨s, hs⟩ := hk
        have hx := execAll_populate_str r.recentListKey s 0 (-11) w hs (r.zaddEntries ns)
        have hcmds := r.queueZAdds_ok ns [] hq
        rw [List.nil_append] at hcmds
        rw [← hcmds] at hx
        have hx2 : (redisServer.exec ((r.queueZAdds ns []).1 ++
            [PipeCmd.ZRemRangeByRank r.recentListKey 0 (-11)]) w).2 = w := hx
        unfold RedisCache.PopulateRecentList
        simp only [hlen, if_false, hq, M.bind_apply, RedisClient.Exec, hr]
        cases hz : (redisServer.exec ((r.queueZAdds ns []).1 ++
            [PipeCmd.ZRemRangeByRank r.recentListKey 0 (-11)]) w).1 with
        | none => simp [hx2]
        | some err => simp [hx2]

theorem ZSet.WF_drop {z : List (Int × String)} (h : ZSet.WF z) (k : Nat) :
    ZSet.WF (z.drop k) :=
  ⟨List.Pairwise.sublist (List.drop_sublist k z) h.1,
    List.Nodup.sublist ((List.drop_sublist k z).map Prod.snd) h.2⟩

/-- The invariant of the recent list is kept by `PopulateRecentList` when the
codec gives back, for every entity written, an entity of the same millisecond. -/
theorem RedisCache.RecentInv_populate (r : RedisCache Store) (hr : r.client = redisServer)
    (ns : List Notification)
    (hj : ∀ n ∈ ns, (r.json.Unmarshal (r.json.Marshal n).1).2 = none ∧
      UnixMilli (r.json.Unmarshal (r.json.Marshal n).1).1.CreatedAt = UnixMilli n.CreatedAt)
    (w : Store) (hw : r.RecentInv w) : r.RecentInv (r.PopulateRecentList ns w).2.1 := by
  rcases r.PopulateRecentList_state hr ns w with h | h
  · rw [h]
    exact hw
  · rw [h]
    unfold RedisCache.RecentInv at hw ⊢
    rw [Store.setKey_zsetAt]
    refine ⟨ZSet.WF_drop (ZSet.WF_addAll _ _ hw.1) _, ?_⟩
    intro e he
    rcases ZSet.mem_addAll _ _ e (List.mem_of_mem_drop he) with h1 | h1
    · rcases List.mem_map.mp h1 with ⟨n, hn, hne⟩
      rw [← hne]
      exact hj n hn
    · exact hw.2 e h1

theorem UnixMilli_lt {a b : Int} (h : UnixMilli a < UnixMilli b) : a < b := by
  unfold UnixMilli at h
  by_contra hc
  push_neg at hc
  exact absurd (Int.ediv_le_ediv (by decide) hc) (not_le.mpr h)

/-- The read of a well-kept recent list is in descending order of whole milliseconds. -/
theorem RedisCache.FindRecentNotifications_sorted (r : RedisCache Store)
    (hr : r.client = redisServer) (w : Store) (h : r.RecentInv w) :
    ((r.FindRecentNotifications w).1.1).Pairwise
      (fun a b => UnixMilli b.CreatedAt ≤ UnixMilli a.CreatedAt) := by
  rw [r.FindRecentNotifications_inv hr w h, List.pairwise_map, List.pairwise_reverse]
  refine List.Pairwise.imp_of_mem ?_ h.1.1
  intro a b ha hb hab
  rw [(h.2 a ha).2, (h.2 b hb).2]
  exact ZLe.score_le hab

/-- On the reference server `ZREVRANGE key 0 -1` replies with the members of the
sorted set from the highest rank to the lowest. -/
theorem redisServer_zRevRange_all (key : String) (w : Store) :
    (redisServer.zRevRange key 0 (-1) w).1.1 = (w.zsetAt key).reverse.map Prod.snd := by
  cases hv : w.redis key with
  | none => simp [redisServer, hv, Store.zsetAt]
  | some val =>
    cases val with
    | str s => simp [redisServer, hv, Store.zsetAt]
    | zset z =>
      by_cases hnil : z = []
      · subst hnil
        simp [redisServer, hv, Store.zsetAt, ZSet.revRange, ZSet.rankRange]
      · simp [redisServer, hv, Store.zsetAt, ZSet.revRange_all z hnil]

/-- In a well-formed sorted set an entry of lower rank has a lower score or, at the
same score, a member that is strictly smaller. -/
theorem ZSet.WF_strict {z : List (Int × String)} (h : ZSet.WF z) :
    z.Pairwise (fun a b => a.1 < b.1 ∨ (a.1 = b.1 ∧ a.2 < b.2)) := by
  have hne : z.Pairwise (fun a b => a.2 ≠ b.2) := List.pairwise_map.mp h.2
  refine List.Pairwise.imp ?_ (List.Pairwise.and h.1 hne)
  rintro a b ⟨hab, hn⟩
  rcases hab with hlt | ⟨heq, hle⟩
  · exact Or.inl hlt
  · exact Or.inr ⟨heq, lt_of_le_of_ne hle hn⟩

/-- C11 (amended). On the reference Redis server, with a codec that gives back,
for every entity written, an entity of the same millisecond: a recent list that
is absent is well kept, `PopulateRecentList` and `ClearRecentList` keep it well
kept whatever entities are given, and the sequence `FindRecentNotifications`
returns from a well-kept list is descending, not necessarily strictly, by
`createdAt` taken in whole milliseconds; two returned entities of different
milliseconds are in strictly descending order of `createdAt`. The sequence is
the decoding, one for one and in order, of the members `ZREVRANGE` replies with,
each scored by the millisecond of the entity it decodes to; these members come
by descending score and, within one score (one millisecond), by strictly
descending member. -/
theorem recent_list_descending_by_millisecond (r : RedisCache Store)
    (hr : r.client = redisServer) (ns : List Notification)
    (hj : ∀ n ∈ ns, (r.json.Unmarshal (r.json.Marshal n).1).2 = none ∧
      UnixMilli (r.json.Unmarshal (r.json.Marshal n).1).1.CreatedAt = UnixMilli n.CreatedAt)
    (w : Store) (hw : r.RecentInv w) :
    (∀ w0 : Store, w0.redis r.recentListKey = none → r.RecentInv w0) ∧
    r.RecentInv (r.ClearRecentList w).2.1 ∧
    r.RecentInv (r.PopulateRecentList ns w).2.1 ∧
    ((r.FindRecentNotifications (r.PopulateRecentList ns w).2.1).1.1).Pairwise
      (fun a b => UnixMilli b.CreatedAt ≤ UnixMilli a.CreatedAt) ∧
    ((r.FindRecentNotifications (r.PopulateRecentList ns w).2.1).1.1).Pairwise
      (fun a b => UnixMilli a.CreatedAt ≠ UnixMilli b.CreatedAt →
        b.CreatedAt < a.CreatedAt) ∧
    (∃ entries : List (Int × String),
      (r.client.zRevRange r.recentListKey 0 (-1) (r.PopulateRecentList ns w).2.1).1.1 =
        entries.map Prod.snd ∧
      (r.FindRecentNotifications (r.PopulateRecentList ns w).2.1).1.1 =
        entries.map (fun e => (r.json.Unmarshal e.2).1) ∧
      (∀ e ∈ entries, UnixMilli (r.json.Unmarshal e.2).1.CreatedAt = e.1) ∧
      entries.Pairwise (fun a b => b.1 < a.1 ∨ (b.1 = a.1 ∧ b.2 < a.2))) := by
  have hbase : ∀ w0 : Store, w0.redis r.recentListKey = none → r.RecentInv w0 := by
    intro w0 h0
    unfold RedisCache.RecentInv
    simp [Store.zsetAt, h0, ZSet.WF]
  have hpop := r.RecentInv_populate hr ns hj w hw
  have hsorted := r.FindRecentNotifications_sorted hr _ hpop
  refine ⟨hbase, ?_, hpop, hsorted, ?_, ?_⟩
  · apply hbase
    simp [RedisCache.ClearRecentList, RedisClient.Del, hr, redisServer, Store.setKey]
  · refine List.Pairwise.imp ?_ hsorted
    intro a b hab hne
    exact UnixMilli_lt (lt_of_le_of_ne hab (fun h => hne h.symm))
  · refine ⟨((r.PopulateRecentList ns w).2.1.zsetAt r.recentListKey).reverse, ?_,
      r.FindRecentNotifications_inv hr _ hpop, ?_, ?_⟩
    · rw [hr]
      exact redisServer_zRevRange_all _ _
    · intro e he
      exact (hpop.2 e (List.mem_reverse.mp he)).2
    · rw [List.pairwise_reverse]
      exact ZSet.WF_strict hpop.1

/-- Witness for C11 (amended): two entities of one millisecond written to an empty
cache; the read returns both, the one with the greater member first although it
is the older one. -/
theorem recent_list_descending_by_millisecond_witness :
    tieCache.RecentInv emptyStore ∧
    ((tieCache.FindRecentNotifications
      (tieCache.PopulateRecentList [uA, uB] emptyStore).2.1).1.1).Pairwise
      (fun a b => UnixMilli b.CreatedAt ≤ UnixMilli a.CreatedAt) ∧
    (∃ entries : List (Int × String),
      (tieCache.client.zRevRange tieCache.recentListKey 0 (-1)
        (tieCache.PopulateRecentList [uA, uB] emptyStore).2.1).1.1 = entries.map Prod.snd ∧
      (tieCache.FindRecentNotifications
        (tieCache.PopulateRecentList [uA, uB] emptyStore).2.1).1.1 =
        entries.map (fun e => (tieCache.json.Unmarshal e.2).1) ∧
      (∀ e ∈ entries, UnixMilli (tieCache.json.Unmarshal e.2).1.CreatedAt = e.1) ∧
      entries.Pairwise (fun a b => b.1 < a.1 ∨ (b.1 = a.1 ∧ b.2 < a.2))) ∧
    (tieCache.client.zRevRange tieCache.recentListKey 0 (-1)
      (tieCache.PopulateRecentList [uA, uB] emptyStore).2.1).1.1 = ["4", "3"] ∧
    (tieCache.FindRecentNotifications
      (tieCache.PopulateRecentList [uA, uB] emptyStore).2.1).1.1 = [uB, uA] :=
  ⟨by unfold RedisCache.RecentInv; decide,
    (recent_list_descending_by_millisecond tieCache rfl [uA, uB] (by decide) emptyStore
      (by unfold RedisCache.RecentInv; decide)).2.2.2.1,
    (recent_list_descending_by_millisecond tieCache rfl [uA, uB] (by decide) emptyStore
      (by unfold RedisCache.RecentInv; decide)).2.2.2.2.2,
    by decide, by decide⟩

end RecentOrder

/-! ## The reference models and the read of the recent list -/

section ModelReads

theorem Store.zsetAt_setKey_str (w : Store) (k key v : String) :
    ((w.setKey k (some (RedisValue.str v))).zsetAt key).length ≤ (w.zsetAt key).length := by
  by_cases h : key = k
  · simp [Store.setKey, Store.zsetAt, h]
  · simp [Store.setKey, Store.zsetAt, h]

theorem Store.zsetAt_setKey_none (w : Store) (k key : String) :
    ((w.setKey k none).zsetAt key).length ≤ (w.zsetAt key).length := by
  by_cases h : key = k
  · simp [Store.setKey, Store.zsetAt, h]
  · simp [Store.setKey, Store.zsetAt, h]

theorem execAll_append (a b : List PipeCmd) :
    ∀ w : Store, (execAll (a ++ b) w).2 = (execAll b (execAll a w).2).2 := by
  induction a with
  | nil => intro w; rfl
  | cons c cs ih =>
    intro w
    simp only [List.cons_append, execAll]
    exact ih _

/-- After a pipeline that ends with the trim, the list holds at most ten members. -/
theorem execAll_trim_bound (cmds : List PipeCmd) (key : String) (w : Store) :
    ((execAll (cmds ++ [PipeCmd.ZRemRangeByRank key 0 (-11)]) w).2.zsetAt key).length ≤ 10 := by
  rw [execAll_append]
  generalize (execAll cmds w).2 = v
  cases hv : v.redis key with
  | none => simp [execAll, applyCmd, hv, Store.zsetAt]
  | some val =>
    cases val with
    | str s => simp [execAll, applyCmd, hv, Store.zsetAt]
    | zset z =>
      by_cases hz : z.drop (z.length - 10) = []
      · simp [execAll, applyCmd, hv, Store.zsetAt, ZSet.remRangeByRank_top10, hz, Store.setKey]
      · simp [execAll, applyCmd, hv, Store.zsetAt, ZSet.remRangeByRank_top10, hz, Store.setKey]
        omega

/-- On the reference server `PopulateRecentList` keeps the bound of ten members. -/
theorem RedisCache.PopulateRecentList_bound (r : RedisCache Store) (hr : r.client = redisServer)
    (ns : List Notification) (w : Store) (h : (w.zsetAt r.recentListKey).length ≤ 10) :
    ((r.PopulateRecentList ns w).2.1.zsetAt r.recentListKey).length ≤ 10 := by
  unfold RedisCache.PopulateRecentList
  by_cases hl : ns.length = 0
  · simpa [hl] using h
  · simp only [hl, if_false]
    cases hq : (r.queueZAdds ns []).2 with
    | some err => simpa using h
    | none =>
      have hb := execAll_trim_bound (r.queueZAdds ns []).1 r.recentListKey w
      have hx : redisServer.exec ((r.queueZAdds ns []).1 ++
          [PipeCmd.ZRemRangeByRank r.recentListKey 0 (-11)]) w =
          execAll ((r.queueZAdds ns []).1 ++
            [PipeCmd.ZRemRangeByRank r.recentListKey 0 (-11)]) w := rfl
      simp only [M.bind_apply, RedisClient.Exec, hr, hx]
      cases (execAll ((r.queueZAdds ns []).1 ++
          [PipeCmd.ZRemRangeByRank r.recentListKey 0 (-11)]) w).1 <;> simpa using hb

end ModelReads

section RecentBound

theorem RedisCache.SetNXWithExpiration_model (r : RedisCache Store)
    (hr : r.client = redisServer) (k v : String) (ttl : Int) (key : String) (w : Store) :
    ((r.SetNXWithExpiration k v ttl w).2.1.zsetAt key).length ≤ (w.zsetAt key).length := by
  unfold RedisCache.SetNXWithExpiration RedisClient.SetNX
  rw [hr]
  cases hv : w.redis k with
  | none =>
    simp only [redisServer, hv]
    exact Store.zsetAt_setKey_str w k key v
  | some val => simp [redisServer, hv]

theorem RedisCache.DeleteKey_model (r : RedisCache Store) (hr : r.client = redisServer)
    (k key : String) (w : Store) :
    ((r.DeleteKey k w).2.1.zsetAt key).length ≤ (w.zsetAt key).length := by
  unfold RedisCache.DeleteKey RedisClient.Del
  rw [hr]
  exact Store.zsetAt_setKey_none w k key

end RecentBound

/-! ## The paths of the write operations -/

section WritePaths
variable {σ : Type}

/-- What `BeginTx` returns for each reply of `Begin`. -/
theorem BeginTx_eq (r : NotificationRepository σ) (w : σ) :
    r.BeginTx w = ((r, (r.db.begin w).1), (r.db.begin w).2, [Event.Begin (r.db.begin w).1]) := by
  unfold NotificationRepository.BeginTx
  simp only [M.bind_apply, GormDB.Begin]
  cases (r.db.begin w).1 <;> simp

/-- What `FindNotificationAndLockByID` returns for each reply of the locking `First`. -/
theorem FindNotificationAndLockByID_eq (r : NotificationRepository σ) (id : Int) (w w2 : σ)
    (row : Notification) (err : Option Error)
    (h : r.db.firstForUpdate id w = ((row, err), w2)) :
    r.FindNotificationAndLockByID id w =
      ((if err = some Error.ErrRecordNotFound then (none, none)
        else match err with
          | some e => (none, some e)
          | none => (some row, none)), w2, [Event.FirstForUpdate id row err]) := by
  unfold NotificationRepository.FindNotificationAndLockByID
  simp only [M.bind_apply, GormDB.FirstForUpdate, h]
  by_cases hn : err = some Error.ErrRecordNotFound
  · simp [hn]
  · cases err <;> simp_all

/-- Path: `Begin` fails. -/
theorem UpdateNotification_beginError (s : NotificationServiceImpl σ) (id : Int)
    (req : UpdateNotificationRequest) (w w1 : σ) (err : Error)
    (hb : s.repo.db.begin w = (some err, w1)) :
    s.UpdateNotification id req w =
      ((none, some (Error.Errorf "failed to begin transaction" err)), w1,
        [Event.Begin (some err)]) := by
  unfold NotificationServiceImpl.UpdateNotification
  simp [BeginTx_eq, hb]

/-- Path: the locking read fails with an error other than not-found. -/
theorem UpdateNotification_lockError (s : NotificationServiceImpl σ) (id : Int)
    (req : UpdateNotificationRequest) (w w1 w2 : σ) (row : Notification) (err : Error)
    (hb : s.repo.db.begin w = (none, w1))
    (hf : s.repo.db.firstForUpdate id w1 = ((row, some err), w2))
    (hne : err ≠ Error.ErrRecordNotFound) :
    s.UpdateNotification id req w =
      ((none, some (Error.Errorf "failed to find and lock notification" err)),
        (s.repo.db.rollback w2).2,
        [Event.Begin none, Event.FirstForUpdate id row (some err),
          Event.Rollback (s.repo.db.rollback w2).1]) := by
  unfold NotificationServiceImpl.UpdateNotification
  simp [BeginTx_eq, hb, FindNotificationAndLockByID_eq s.repo id w1 w2 row _ hf, hne,
    NotificationRepository.Rollback, GormDB.Rollback]

/-- Path: the locking read finds no row. -/
theorem UpdateNotification_notFound (s : NotificationServiceImpl σ) (id : Int)
    (req : UpdateNotificationRequest) (w w1 w2 : σ) (row : Notification)
    (hb : s.repo.db.begin w = (none, w1))
    (hf : s.repo.db.firstForUpdate id w1 = ((row, some Error.ErrRecordNotFound), w2)) :
    s.UpdateNotification id req w =
      ((none, none), (s.repo.db.rollback w2).2,
        [Event.Begin none, Event.FirstForUpdate id row (some Error.ErrRecordNotFound),
          Event.Rollback (s.repo.db.rollback w2).1]) := by
  unfold NotificationServiceImpl.UpdateNotification
  simp [BeginTx_eq, hb, FindNotificationAndLockByID_eq s.repo id w1 w2 row _ hf,
    NotificationRepository.Rollback, GormDB.Rollback]

/-- Path: `Save` fails. -/
theorem UpdateNotification_saveError (s : NotificationServiceImpl σ) (id : Int)
    (req : UpdateNotificationRequest) (w w1 w2 w3 : σ) (row out : Notification) (err : Error)
    (hb : s.repo.db.begin w = (none, w1))
    (hf : s.repo.db.firstForUpdate id w1 = ((row, none), w2))
    (hs : s.repo.db.save { row with Subject := req.Subject, Content := req.Content } w2 =
      ((out, some err), w3)) :
    s.UpdateNotification id req w =
      ((none, some (Error.Errorf "failed to update notification" err)),
        (s.repo.db.rollback w3).2,
        [Event.Begin none, Event.FirstForUpdate id row none,
          Event.Save { row with Subject := req.Subject, Content := req.Content } out (some err),
          Event.Rollback (s.repo.db.rollback w3).1]) := by
  unfold NotificationServiceImpl.UpdateNotification
  simp [BeginTx_eq, hb, FindNotificationAndLockByID_eq s.repo id w1 w2 row _ hf,
    NotificationRepository.Save, GormDB.Save, hs,
    NotificationRepository.Rollback, GormDB.Rollback]

/-- Path: `Commit` fails. -/
theorem UpdateNotification_commitError (s : NotificationServiceImpl σ) (id : Int)
    (req : UpdateNotificationRequest) (w w1 w2 w3 w4 : σ) (row out : Notification) (err : Error)
    (hb : s.repo.db.begin w = (none, w1))
    (hf : s.repo.db.firstForUpdate id w1 = ((row, none), w2))
    (hs : s.repo.db.save { row with Subject := req.Subject, Content := req.Content } w2 =
      ((out, none), w3))
    (hc : s.repo.db.commit w3 = (some err, w4)) :
    s.UpdateNotification id req w =
      ((none, some (Error.Errorf "failed to commit transaction" err)), w4,
        [Event.Begin none, Event.FirstForUpdate id row none,
          Event.Save { row with Subject := req.Subject, Content := req.Content } out none,
          Event.Commit (some err)]) := by
  unfold NotificationServiceImpl.UpdateNotification
  simp [BeginTx_eq, hb, FindNotificationAndLockByID_eq s.repo id w1 w2 row _ hf,
    NotificationRepository.Save, GormDB.Save, hs,
    NotificationRepository.Commit, GormDB.Commit, hc]

/-- Path: the update is committed. -/
theorem UpdateNotification_ok (s : NotificationServiceImpl σ) (id : Int)
    (req : UpdateNotificationRequest) (w w1 w2 w3 w4 : σ) (row out : Notification)
    (hb : s.repo.db.begin w = (none, w1))
    (hf : s.repo.db.firstForUpdate id w1 = ((row, none), w2))
    (hs : s.repo.db.save { row with Subject := req.Subject, Content := req.Content } w2 =
      ((out, none), w3))
    (hc : s.repo.db.commit w3 = (none, w4)) :
    s.UpdateNotification id req w =
      ((some out, none), w4,
        [Event.Begin none, Event.FirstForUpdate id row none,
          Event.Save { row with Subject := req.Subject, Content := req.Content } out none,
          Event.Commit none, Event.Go (Task.UpdateFanout id out)]) := by
  unfold NotificationServiceImpl.UpdateNotification
  simp [BeginTx_eq, hb, FindNotificationAndLockByID_eq s.repo id w1 w2 row _ hf,
    NotificationRepository.Save, GormDB.Save, hs,
    NotificationRepository.Commit, GormDB.Commit, hc]

end WritePaths

section WritePaths2
variable {σ : Type}

/-- Path of `DeleteNotification`: `Begin` fails. -/
theorem DeleteNotification_beginError (s : NotificationServiceImpl σ) (id : Int)
    (w w1 : σ) (err : Error) (hb : s.repo.db.begin w = (some err, w1)) :
    s.DeleteNotification id w =
      ((false, some (Error.Errorf "failed to begin transaction" err)), w1,
        [Event.Begin (some err)]) := by
  unfold NotificationServiceImpl.DeleteNotification
  simp [BeginTx_eq, hb]

/-- Path of `DeleteNotification`: the locking read fails with an error other than not-found. -/
theorem DeleteNotification_lockError (s : NotificationServiceImpl σ) (id : Int)
    (w w1 w2 : σ) (row : Notification) (err : Error)
    (hb : s.repo.db.begin w = (none, w1))
    (hf : s.repo.db.firstForUpdate id w1 = ((row, some err), w2))
    (hne : err ≠ Error.ErrRecordNotFound) :
    s.DeleteNotification id w =
      ((false, some (Error.Errorf "failed to find and lock notification" err)),
        (s.repo.db.rollback w2).2,
        [Event.Begin none, Event.FirstForUpdate id row (some err),
          Event.Rollback (s.repo.db.rollback w2).1]) := by
  unfold NotificationServiceImpl.DeleteNotification
  simp [BeginTx_eq, hb, FindNotificationAndLockByID_eq s.repo id w1 w2 row _ hf, hne,
    NotificationRepository.Rollback, GormDB.Rollback]

/-- Path of `DeleteNotification`: the locking read finds no row. -/
theorem DeleteNotification_notFound (s : NotificationServiceImpl σ) (id : Int)
    (w w1 w2 : σ) (row : Notification)
    (hb : s.repo.db.begin w = (none, w1))
    (hf : s.repo.db.firstForUpdate id w1 = ((row, some Error.ErrRecordNotFound), w2)) :
    s.DeleteNotification id w =
      ((false, none), (s.repo.db.rollback w2).2,
        [Event.Begin none, Event.FirstForUpdate id row (some Error.ErrRecordNotFound),
          Event.Rollback (s.repo.db.rollback w2).1]) := by
  unfold NotificationServiceImpl.DeleteNotification
  simp [BeginTx_eq, hb, FindNotificationAndLockByID_eq s.repo id w1 w2 row _ hf,
    NotificationRepository.Rollback, GormDB.Rollback]

/-- Path of `DeleteNotification`: `Delete` fails. -/
theorem DeleteNotification_deleteError (s : NotificationServiceImpl σ) (id : Int)
    (w w1 w2 w3 : σ) (row : Notification) (err : Error)
    (hb : s.repo.db.begin w = (none, w1))
    (hf : s.repo.db.firstForUpdate id w1 = ((row, none), w2))
    (hd : s.repo.db.delete id w2 = (some err, w3)) :
    s.DeleteNotification id w =
      ((false, some (Error.Errorf "failed to delete notification" err)),
        (s.repo.db.rollback w3).2,
        [Event.Begin none, Event.FirstForUpdate id row none, Event.Delete id (some err),
          Event.Rollback (s.repo.db.rollback w3).1]) := by
  unfold NotificationServiceImpl.DeleteNotification
  simp [BeginTx_eq, hb, FindNotificationAndLockByID_eq s.repo id w1 w2 row _ hf,
    NotificationRepository.DeleteByID, GormDB.Delete, hd,
    NotificationRepository.Rollback, GormDB.Rollback]

/-- Path of `DeleteNotification`: `Commit` fails. -/
theorem DeleteNotification_commitError (s : NotificationServiceImpl σ) (id : Int)
    (w w1 w2 w3 w4 : σ) (row : Notification) (err : Error)
    (hb : s.repo.db.begin w = (none, w1))
    (hf : s.repo.db.firstForUpdate id w1 = ((row, none), w2))
    (hd : s.repo.db.delete id w2 = (none, w3))
    (hc : s.repo.db.commit w3 = (some err, w4)) :
    s.DeleteNotification id w =
      ((false, some (Error.Errorf "failed to commit transaction" err)), w4,
        [Event.Begin none, Event.FirstForUpdate id row none, Event.Delete id none,
          Event.Commit (some err)]) := by
  unfold NotificationServiceImpl.DeleteNotification
  simp [BeginTx_eq, hb, FindNotificationAndLockByID_eq s.repo id w1 w2 row _ hf,
    NotificationRepository.DeleteByID, GormDB.Delete, hd,
    NotificationRepository.Commit, GormDB.Commit, hc]

/-- Path of `DeleteNotification`: the deletion is committed. -/
theorem DeleteNotification_ok (s : NotificationServiceImpl σ) (id : Int)
    (w w1 w2 w3 w4 : σ) (row : Notification)
    (hb : s.repo.db.begin w = (none, w1))
    (hf : s.repo.db.firstForUpdate id w1 = ((row, none), w2))
    (hd : s.repo.db.delete id w2 = (none, w3))
    (hc : s.repo.db.commit w3 = (none, w4)) :
    s.DeleteNotification id w =
      ((true, none), w4,
        [Event.Begin none, Event.FirstForUpdate id row none, Event.Delete id none,
          Event.Commit none, Event.Go (Task.DeleteFanout id row)]) := by
  unfold NotificationServiceImpl.DeleteNotification
  simp [BeginTx_eq, hb, FindNotificationAndLockByID_eq s.repo id w1 w2 row _ hf,
    NotificationRepository.DeleteByID, GormDB.Delete, hd,
    NotificationRepository.Commit, GormDB.Commit, hc]

/-- Path of `CreateNotification`: `Begin` fails. -/
theorem CreateNotification_beginError (s : NotificationServiceImpl σ)
    (req : NotificationRequest) (w w1 : σ) (err : Error)
    (hb : s.repo.db.begin w = (some err, w1)) :
    s.CreateNotification req w =
      ((none, some (Error.Errorf "failed to begin transaction" err)), w1,
        [Event.Begin (some err)]) := by
  unfold NotificationServiceImpl.CreateNotification
  simp [BeginTx_eq, hb]

/-- Path of `CreateNotification`: `Save` fails. -/
theorem CreateNotification_saveError (s : NotificationServiceImpl σ)
    (req : NotificationRequest) (w w1 w2 : σ) (out : Notification) (err : Error)
    (hb : s.repo.db.begin w = (none, w1))
    (hs : s.repo.db.save ⟨0, req.Type_, req.Recipient, req.Subject, req.Content, zeroTime, 0⟩
      w1 = ((out, some err), w2)) :
    s.CreateNotification req w =
      ((none, some (Error.Errorf "failed to save notification" err)),
        (s.repo.db.rollback w2).2,
        [Event.Begin none,
          Event.Save ⟨0, req.Type_, req.Recipient, req.Subject, req.Content, zeroTime, 0⟩ out
            (some err),
          Event.Rollback (s.repo.db.rollback w2).1]) := by
  unfold NotificationServiceImpl.CreateNotification
  simp [BeginTx_eq, hb, NotificationRepository.Save, GormDB.Save, hs,
    NotificationRepository.Rollback, GormDB.Rollback]

/-- Path of `CreateNotification`: `Commit` fails. -/
theorem CreateNotification_commitError (s : NotificationServiceImpl σ)
    (req : NotificationRequest) (w w1 w2 w3 : σ) (out : Notification) (err : Error)
    (hb : s.repo.db.begin w = (none, w1))
    (hs : s.repo.db.save ⟨0, req.Type_, req.Recipient, req.Subject, req.Content, zeroTime, 0⟩
      w1 = ((out, none), w2))
    (hc : s.repo.db.commit w2 = (some err, w3)) :
    s.CreateNotification req w =
      ((none, some (Error.Errorf "failed to commit transaction" err)), w3,
        [Event.Begin none,
          Event.Save ⟨0, req.Type_, req.Recipient, req.Subject, req.Content, zeroTime, 0⟩ out
            none,
          Event.Commit (some err)]) := by
  unfold NotificationServiceImpl.CreateNotification
  simp [BeginTx_eq, hb, NotificationRepository.Save, GormDB.Save, hs,
    NotificationRepository.Commit, GormDB.Commit, hc]

/-- Path of `CreateNotification`: the creation is committed. -/
theorem CreateNotification_ok (s : NotificationServiceImpl σ)
    (req : NotificationRequest) (w w1 w2 w3 : σ) (out : Notification)
    (hb : s.repo.db.begin w = (none, w1))
    (hs : s.repo.db.save ⟨0, req.Type_, req.Recipient, req.Subject, req.Content, zeroTime, 0⟩
      w1 = ((out, none), w2))
    (hc : s.repo.db.commit w2 = (none, w3)) :
    s.CreateNotification req w =
      ((some out, none), w3,
        [Event.Begin none,
          Event.Save ⟨0, req.Type_, req.Recipient, req.Subject, req.Content, zeroTime, 0⟩ out
            none,
          Event.Commit none, Event.Go (Task.CreateFanout out)]) := by
  unfold NotificationServiceImpl.CreateNotification
  simp [BeginTx_eq, hb, NotificationRepository.Save, GormDB.Save, hs,
    NotificationRepository.Commit, GormDB.Commit, hc]

end WritePaths2

/-! ## Claims about the write operations -/

section WriteClaims

/-- The locking read of the reference store finds nothing for an id without row. -/
theorem database_firstForUpdate_absent (now : Int) (w : Store) (id : Int)
    (h : w.findRow id = none) :
    (database now).firstForUpdate id w = ((default, some Error.ErrRecordNotFound), w) := by
  simp [database, h]

/-- On the reference store, `DeleteNotification` of an id without row reports
not-found and leaves the table as it was, with no transaction open. -/
theorem DeleteNotification_model_absent (s : NotificationServiceImpl Store) (now : Int)
    (hs : s.repo.db = database now) (w : Store) (id : Int) (h : w.findRow id = none) :
    s.DeleteNotification id w =
      ((false, none), { w with tx := none },
        [Event.Begin none, Event.FirstForUpdate id default (some Error.ErrRecordNotFound),
          Event.Rollback none]) := by
  have hb : s.repo.db.begin w = (none, { w with tx := some w.rows }) := by rw [hs]; rfl
  have hf : s.repo.db.firstForUpdate id { w with tx := some w.rows } =
      ((default, some Error.ErrRecordNotFound), { w with tx := some w.rows }) := by
    rw [hs]
    exact database_firstForUpdate_absent now _ id h
  rw [DeleteNotification_notFound s id w _ _ default hb hf, hs]
  rfl

/-- C13. For an id that has no row (the locking read replies `ErrRecordNotFound`),
`UpdateNotification` returns no entity and no error and `DeleteNotification`
returns `false` and no error; each execution is exactly `Begin`, the locking
read and `Rollback`: no `Save`, no `Delete`, no Redis call, no message, no
goroutine. On the reference store, `DeleteNotification` of an absent id leaves
the table unchanged and a second `DeleteNotification` of the same id reports
not-found again, with no error. -/
theorem absent_id_is_not_found :
    (∀ (σ : Type) (s : NotificationServiceImpl σ) (id : Int) (req : UpdateNotificationRequest)
        (w w1 w2 : σ) (row : Notification),
      s.repo.db.begin w = (none, w1) →
      s.repo.db.firstForUpdate id w1 = ((row, some Error.ErrRecordNotFound), w2) →
      (s.UpdateNotification id req w).1 = (none, none) ∧
      (s.DeleteNotification id w).1 = (false, none) ∧
      (s.UpdateNotification id req w).2.2 =
        [Event.Begin none, Event.FirstForUpdate id row (some Error.ErrRecordNotFound),
          Event.Rollback (s.repo.db.rollback w2).1] ∧
      (s.DeleteNotification id w).2.2 =
        [Event.Begin none, Event.FirstForUpdate id row (some Error.ErrRecordNotFound),
          Event.Rollback (s.repo.db.rollback w2).1] ∧
      (s.UpdateNotification id req w).2.2.countP Event.isStoreWrite = 0 ∧
      (s.DeleteNotification id w).2.2.countP Event.isStoreWrite = 0 ∧
      (s.UpdateNotification id req w).2.2.countP Event.isGo = 0 ∧
      (s.DeleteNotification id w).2.2.countP Event.isGo = 0 ∧
      (s.UpdateNotification id req w).2.2.countP Event.isCacheCall = 0 ∧
      (s.DeleteNotification id w).2.2.countP Event.isCacheCall = 0 ∧
      (s.UpdateNotification id req w).2.2.countP Event.isSendSync = 0 ∧
      (s.DeleteNotification id w).2.2.countP Event.isSendSync = 0) ∧
    (∀ (s : NotificationServiceImpl Store) (now : Int), s.repo.db = database now →
      ∀ (w : Store) (id : Int), w.findRow id = none →
      (s.DeleteNotification id w).1 = (false, none) ∧
      (s.DeleteNotification id w).2.1.rows = w.rows ∧
      (s.DeleteNotification id (s.DeleteNotification id w).2.1).1 = (false, none) ∧
      (s.DeleteNotification id (s.DeleteNotification id w).2.1).2.1.rows = w.rows) := by
  refine ⟨?_, ?_⟩
  · intro σ s id req w w1 w2 row hb hf
    rw [UpdateNotification_notFound s id req w w1 w2 row hb hf,
      DeleteNotification_notFound s id w w1 w2 row hb hf]
    simp [Event.isStoreWrite, Event.isGo, Event.isCacheCall, Event.isSendSync]
  · intro s now hs w id h
    have h1 := DeleteNotification_model_absent s now hs w id h
    have h2 := DeleteNotification_model_absent s now hs { w with tx := none } id h
    rw [h1]
    simp only
    rw [h2]
    simp

/-- Witness for C13: deleting an id that is not in the sample table, twice. -/
theorem absent_id_is_not_found_witness :
    (sampleModel.DeleteNotification 7 sampleStore).1 = (false, none) ∧
    (sampleModel.DeleteNotification 7 sampleStore).2.1.rows = [nA, nB] ∧
    (sampleModel.DeleteNotification 7 (sampleModel.DeleteNotification 7 sampleStore).2.1).1 =
      (false, none) ∧
    (sampleModel.DeleteNotification 7
      (sampleModel.DeleteNotification 7 sampleStore).2.1).2.1.rows = [nA, nB] :=
  absent_id_is_not_found.2 sampleModel 1700000002000000000 rfl sampleStore 7 (by decide)

end WriteClaims

section UpdateFrame
variable {σ : Type}

/-- Every execution of `UpdateNotification`, by the replies of the store. -/
theorem UpdateNotification_cases (s : NotificationServiceImpl σ) (id : Int)
    (req : UpdateNotificationRequest) (w : σ) :
    (∃ w1 err, s.UpdateNotification id req w =
      ((none, some (Error.Errorf "failed to begin transaction" err)), w1,
        [Event.Begin (some err)])) ∨
    (∃ w1 row err r, err ≠ Error.ErrRecordNotFound ∧ s.UpdateNotification id req w =
      ((none, some (Error.Errorf "failed to find and lock notification" err)), w1,
        [Event.Begin none, Event.FirstForUpdate id row (some err), Event.Rollback r])) ∨
    (∃ w1 row r, s.UpdateNotification id req w =
      ((none, none), w1,
        [Event.Begin none, Event.FirstForUpdate id row (some Error.ErrRecordNotFound),
          Event.Rollback r])) ∨
    (∃ w1 row out err r, s.UpdateNotification id req w =
      ((none, some (Error.Errorf "failed to update notification" err)), w1,
        [Event.Begin none, Event.FirstForUpdate id row none,
          Event.Save { row with Subject := req.Subject, Content := req.Content } out (some err),
          Event.Rollback r])) ∨
    (∃ w1 row out err, s.UpdateNotification id req w =
      ((none, some (Error.Errorf "failed to commit transaction" err)), w1,
        [Event.Begin none, Event.FirstForUpdate id row none,
          Event.Save { row with Subject := req.Subject, Content := req.Content } out none,
          Event.Commit (some err)])) ∨
    (∃ w1 row out, s.UpdateNotification id req w =
      ((some out, none), w1,
        [Event.Begin none, Event.FirstForUpdate id row none,
          Event.Save { row with Subject := req.Subject, Content := req.Content } out none,
          Event.Commit none, Event.Go (Task.UpdateFanout id out)])) := by
  rcases hb : s.repo.db.begin w with ⟨berr, w1⟩
  cases berr with
  | some err => exact Or.inl ⟨_, _, UpdateNotification_beginError s id req w w1 err hb⟩
  | none =>
    rcases hf : s.repo.db.firstForUpdate id w1 with ⟨⟨row, ferr⟩, w2⟩
    cases ferr with
    | some err =>
      by_cases hne : err = Error.ErrRecordNotFound
      · subst hne
        exact Or.inr (Or.inr (Or.inl ⟨_, _, _, UpdateNotification_notFound s id req w w1 w2 row hb hf⟩))
      · exact Or.inr (Or.inl ⟨_, _, _, _, hne,
          UpdateNotification_lockError s id req w w1 w2 row err hb hf hne⟩)
    | none =>
      rcases hs : s.repo.db.save { row with Subject := req.Subject, Content := req.Content } w2
        with ⟨⟨out, serr⟩, w3⟩
      cases serr with
      | some err =>
        exact Or.inr (Or.inr (Or.inr (Or.inl ⟨_, _, _, _, _,
          UpdateNotification_saveError s id req w w1 w2 w3 row out err hb hf hs⟩)))
      | none =>
        rcases hc : s.repo.db.commit w3 with ⟨cerr, w4⟩
        cases cerr with
        | some err =>
          exact Or.inr (Or.inr (Or.inr (Or.inr (Or.inl ⟨_, _, _, _,
            UpdateNotification_commitError s id req w w1 w2 w3 w4 row out err hb hf hs hc⟩))))
        | none =>
          exact Or.inr (Or.inr (Or.inr (Or.inr (Or.inr ⟨_, _, _,
            UpdateNotification_ok s id req w w1 w2 w3 w4 row out hb hf hs hc⟩))))

/-- The executions of `UpdateNotification` in which the locking read found `row`. -/
theorem UpdateNotification_found_cases (s : NotificationServiceImpl σ) (id : Int)
    (req : UpdateNotificationRequest) (w w1 w2 : σ) (row : Notification)
    (hb : s.repo.db.begin w = (none, w1))
    (hf : s.repo.db.firstForUpdate id w1 = ((row, none), w2)) :
    (∃ w3 out err r, s.UpdateNotification id req w =
      ((none, some (Error.Errorf "failed to update notification" err)), w3,
        [Event.Begin none, Event.FirstForUpdate id row none,
          Event.Save { row with Subject := req.Subject, Content := req.Content } out (some err),
          Event.Rollback r])) ∨
    (∃ w3 out err, s.UpdateNotification id req w =
      ((none, some (Error.Errorf "failed to commit transaction" err)), w3,
        [Event.Begin none, Event.FirstForUpdate id row none,
          Event.Save { row with Subject := req.Subject, Content := req.Content } out none,
          Event.Commit (some err)])) ∨
    (∃ w3 out, s.UpdateNotification id req w =
      ((some out, none), w3,
        [Event.Begin none, Event.FirstForUpdate id row none,
          Event.Save { row with Subject := req.Subject, Content := req.Content } out none,
          Event.Commit none, Event.Go (Task.UpdateFanout id out)])) := by
  rcases hs : s.repo.db.save { row with Subject := req.Subject, Content := req.Content } w2
    with ⟨⟨out, serr⟩, w3⟩
  cases serr with
  | some err =>
    exact Or.inl ⟨_, _, _, _, UpdateNotification_saveError s id req w w1 w2 w3 row out err hb hf hs⟩
  | none =>
    rcases hc : s.repo.db.commit w3 with ⟨cerr, w4⟩
    cases cerr with
    | some err =>
      exact Or.inr (Or.inl ⟨_, _, _,
        UpdateNotification_commitError s id req w w1 w2 w3 w4 row out err hb hf hs hc⟩)
    | none =>
      exact Or.inr (Or.inr ⟨_, _,
        UpdateNotification_ok s id req w w1 w2 w3 w4 row out hb hf hs hc⟩)

/-- C14. When the locking read of `UpdateNotification` finds a row: every `Save`
of the execution is given the row with the subject and content of the request
and every other field as read; the entity returned, if any, is the struct that
`Save` left behind the pointer; and when `Save` succeeds leaving the struct as
passed (as gorm does for a row that has its id and creation time) and the commit
succeeds, the entity returned has the subject and content of the request and the
id, type, recipient, createdAt and version of the row read under the lock. -/
theorem UpdateNotification_changes_only_subject_and_content
    (s : NotificationServiceImpl σ) (id : Int) (req : UpdateNotificationRequest)
    (w w1 w2 : σ) (row : Notification)
    (hb : s.repo.db.begin w = (none, w1))
    (hf : s.repo.db.firstForUpdate id w1 = ((row, none), w2)) :
    (∀ v out err, Event.Save v out err ∈ (s.UpdateNotification id req w).2.2 →
      v.Subject = req.Subject ∧ v.Content = req.Content ∧ v.ID = row.ID ∧
      v.Type_ = row.Type_ ∧ v.Recipient = row.Recipient ∧ v.CreatedAt = row.CreatedAt ∧
      v.Version = row.Version) ∧
    (s.UpdateNotification id req w).2.2.countP Event.isSave = 1 ∧
    (∀ n, (s.UpdateNotification id req w).1.1 = some n →
      Event.Save { row with Subject := req.Subject, Content := req.Content } n none ∈
        (s.UpdateNotification id req w).2.2) ∧
    (∀ w3 w4,
      s.repo.db.save { row with Subject := req.Subject, Content := req.Content } w2 =
        (({ row with Subject := req.Subject, Content := req.Content }, none), w3) →
      s.repo.db.commit w3 = (none, w4) →
      ∃ n, (s.UpdateNotification id req w).1 = (some n, none) ∧
        n.Subject = req.Subject ∧ n.Content = req.Content ∧ n.ID = row.ID ∧
        n.Type_ = row.Type_ ∧ n.Recipient = row.Recipient ∧ n.CreatedAt = row.CreatedAt ∧
        n.Version = row.Version) := by
  refine ⟨?_, ?_, ?_, ?_⟩
  · intro v out err hmem
    rcases UpdateNotification_found_cases s id req w w1 w2 row hb hf with
      ⟨w3, o, e, r, h⟩ | ⟨w3, o, e, h⟩ | ⟨w3, o, h⟩ <;>
    · rw [h] at hmem
      simp at hmem
      rw [hmem.1]
      simp
  · rcases UpdateNotification_found_cases s id req w w1 w2 row hb hf with
      ⟨w3, o, e, r, h⟩ | ⟨w3, o, e, h⟩ | ⟨w3, o, h⟩ <;>
    · rw [h]
      simp [Event.isSave]
  · intro n hn
    rcases UpdateNotification_found_cases s id req w w1 w2 row hb hf with
      ⟨w3, o, e, r, h⟩ | ⟨w3, o, e, h⟩ | ⟨w3, o, h⟩ <;>
    · rw [h] at hn ⊢
      simp at hn ⊢
      try exact hn.symm
  · intro w3 w4 hs hc
    refine ⟨{ row with Subject := req.Subject, Content := req.Content }, ?_,
      rfl, rfl, rfl, rfl, rfl, rfl, rfl⟩
    rw [UpdateNotification_ok s id req w w1 w2 w3 w4 row _ hb hf hs hc]

/-- Witness for C14: updating the first sample row on the reference store. -/
theorem UpdateNotification_changes_only_subject_and_content_witness :
    ∃ n, (sampleModel.UpdateNotification 1 ⟨"changed", "new text"⟩ sampleStore).1 =
        (some n, none) ∧
      n.Subject = "changed" ∧ n.Content = "new text" ∧ n.ID = nA.ID ∧
      n.Type_ = nA.Type_ ∧ n.Recipient = nA.Recipient ∧ n.CreatedAt = nA.CreatedAt ∧
      n.Version = nA.Version :=
  (UpdateNotification_changes_only_subject_and_content sampleModel 1
    ⟨"changed", "new text"⟩ sampleStore _ _ nA rfl rfl).2.2.2 _ _ rfl rfl

end UpdateFrame

section WriteCases
variable {σ : Type}

/-- Every execution of `DeleteNotification`, by the replies of the store. -/
theorem DeleteNotification_cases (s : NotificationServiceImpl σ) (id : Int) (w : σ) :
    (∃ w1 err, s.DeleteNotification id w =
      ((false, some (Error.Errorf "failed to begin transaction" err)), w1,
        [Event.Begin (some err)])) ∨
    (∃ w1 row err r, err ≠ Error.ErrRecordNotFound ∧ s.DeleteNotification id w =
      ((false, some (Error.Errorf "failed to find and lock notification" err)), w1,
        [Event.Begin none, Event.FirstForUpdate id row (some err), Event.Rollback r])) ∨
    (∃ w1 row r, s.DeleteNotification id w =
      ((false, none), w1,
        [Event.Begin none, Event.FirstForUpdate id row (some Error.ErrRecordNotFound),
          Event.Rollback r])) ∨
    (∃ w1 row err r, s.DeleteNotification id w =
      ((false, some (Error.Errorf "failed to delete notification" err)), w1,
        [Event.Begin none, Event.FirstForUpdate id row none, Event.Delete id (some err),
          Event.Rollback r])) ∨
    (∃ w1 row err, s.DeleteNotification id w =
      ((false, some (Error.Errorf "failed to commit transaction" err)), w1,
        [Event.Begin none, Event.FirstForUpdate id row none, Event.Delete id none,
          Event.Commit (some err)])) ∨
    (∃ w1 row, s.DeleteNotification id w =
      ((true, none), w1,
        [Event.Begin none, Event.FirstForUpdate id row none, Event.Delete id none,
          Event.Commit none, Event.Go (Task.DeleteFanout id row)])) := by
  rcases hb : s.repo.db.begin w with ⟨berr, w1⟩
  cases berr with
  | some err => exact Or.inl ⟨_, _, DeleteNotification_beginError s id w w1 err hb⟩
  | none =>
    rcases hf : s.repo.db.firstForUpdate id w1 with ⟨⟨row, ferr⟩, w2⟩
    cases ferr with
    | some err =>
      by_cases hne : err = Error.ErrRecordNotFound
      · subst hne
        exact Or.inr (Or.inr (Or.inl ⟨_, _, _, DeleteNotification_notFound s id w w1 w2 row hb hf⟩))
      · exact Or.inr (Or.inl ⟨_, _, _, _, hne,
          DeleteNotification_lockError s id w w1 w2 row err hb hf hne⟩)
    | none =>
      rcases hd : s.repo.db.delete id w2 with ⟨derr, w3⟩
      cases derr with
      | some err =>
        exact Or.inr (Or.inr (Or.inr (Or.inl ⟨_, _, _, _,
          DeleteNotification_deleteError s id w w1 w2 w3 row err hb hf hd⟩)))
      | none =>
        rcases hc : s.repo.db.commit w3 with ⟨cerr, w4⟩
        cases cerr with
        | some err =>
          exact Or.inr (Or.inr (Or.inr (Or.inr (Or.inl ⟨_, _, _,
            DeleteNotification_commitError s id w w1 w2 w3 w4 row err hb hf hd hc⟩))))
        | none =>
          exact Or.inr (Or.inr (Or.inr (Or.inr (Or.inr ⟨_, _,
            DeleteNotification_ok s id w w1 w2 w3 w4 row hb hf hd hc⟩))))

/-- Every execution of `CreateNotification`, by the replies of the store. -/
theorem CreateNotification_cases (s : NotificationServiceImpl σ) (req : NotificationRequest)
    (w : σ) :
    (∃ w1 err, s.CreateNotification req w =
      ((none, some (Error.Errorf "failed to begin transaction" err)), w1,
        [Event.Begin (some err)])) ∨
    (∃ w1 out err r, s.CreateNotification req w =
      ((none, some (Error.Errorf "failed to save notification" err)), w1,
        [Event.Begin none,
          Event.Save ⟨0, req.Type_, req.Recipient, req.Subject, req.Content, zeroTime, 0⟩ out
            (some err),
          Event.Rollback r])) ∨
    (∃ w1 out err, s.CreateNotification req w =
      ((none, some (Error.Errorf "failed to commit transaction" err)), w1,
        [Event.Begin none,
          Event.Save ⟨0, req.Type_, req.Recipient, req.Subject, req.Content, zeroTime, 0⟩ out
            none,
          Event.Commit (some err)])) ∨
    (∃ w1 out, s.CreateNotification req w =
      ((some out, none), w1,
        [Event.Begin none,
          Event.Save ⟨0, req.Type_, req.Recipient, req.Subject, req.Content, zeroTime, 0⟩ out
            none,
          Event.Commit none, Event.Go (Task.CreateFanout out)])) := by
  rcases hb : s.repo.db.begin w with ⟨berr, w1⟩
  cases berr with
  | some err => exact Or.inl ⟨_, _, CreateNotification_beginError s req w w1 err hb⟩
  | none =>
    rcases hs : s.repo.db.save
      ⟨0, req.Type_, req.Recipient, req.Subject, req.Content, zeroTime, 0⟩ w1
      with ⟨⟨out, serr⟩, w2⟩
    cases serr with
    | some err =>
      exact Or.inr (Or.inl ⟨_, _, _, _, CreateNotification_saveError s req w w1 w2 out err hb hs⟩)
    | none =>
      rcases hc : s.repo.db.commit w2 with ⟨cerr, w3⟩
      cases cerr with
      | some err =>
        exact Or.inr (Or.inr (Or.inl ⟨_, _, _,
          CreateNotification_commitError s req w w1 w2 w3 out err hb hs hc⟩))
      | none =>
        exact Or.inr (Or.inr (Or.inr ⟨_, _, CreateNotification_ok s req w w1 w2 w3 out hb hs hc⟩))

/-- The calls `SendNotification` makes: none when the message does not marshal,
one `SendSync` otherwise. -/
theorem SendNotification_trace (p : NotificationProducer σ) (m : NotificationMessage) (w : σ) :
    (p.SendNotification m w).2.2 =
      match (p.marshal m).2 with
      | some _ => []
      | none =>
        [Event.SendSync p.topic m.NotificationMessageType (p.marshal m).1
          (p.producer.sendSync p.topic m.NotificationMessageType (p.marshal m).1 w).1.1
          (p.producer.sendSync p.topic m.NotificationMessageType (p.marshal m).1 w).1.2] := by
  unfold NotificationProducer.SendNotification
  cases hm : (p.marshal m).2 with
  | some err => simp
  | none =>
    simp only [M.bind_apply, MQProducer.SendSync]
    cases (p.producer.sendSync p.topic m.NotificationMessageType (p.marshal m).1 w).1.2 with
    | some err => simp
    | none =>
      by_cases hst : (p.producer.sendSync p.topic m.NotificationMessageType
        (p.marshal m).1 w).1.1 = SendOK <;> simp [hst]

/-- The calls `CacheNotification` makes: none when the entity does not marshal,
one `SET` otherwise. -/
theorem CacheNotification_trace (r : RedisCache σ) (n : Notification) (w : σ) :
    (r.CacheNotification n w).2.2 =
      match (r.json.Marshal n).2 with
      | some _ => []
      | none =>
        [Event.Set (r.notificationKey n.ID) (r.json.Marshal n).1 r.cacheTTL
          (r.client.set (r.notificationKey n.ID) (r.json.Marshal n).1 r.cacheTTL w).1] := by
  unfold RedisCache.CacheNotification
  cases hm : (r.json.Marshal n).2 with
  | some err => simp
  | none =>
    simp only [M.bind_apply, RedisClient.Set]
    cases (r.client.set (r.notificationKey n.ID) (r.json.Marshal n).1 r.cacheTTL w).1 <;> simp

theorem ClearRecentList_trace (r : RedisCache σ) (w : σ) :
    (r.ClearRecentList w).2.2 = [Event.Del r.recentListKey (r.client.del r.recentListKey w).1] :=
  rfl

theorem DeleteNotification_trace (r : RedisCache σ) (id : Int) (w : σ) :
    (r.DeleteNotification id w).2.2 =
      [Event.Del (r.notificationKey id) (r.client.del (r.notificationKey id) w).1] :=
  rfl

end WriteCases

section Fanout
variable {σ : Type}

/-- The fan-out of an update or of a delete: the two `DEL`s, then the publish. -/
theorem runTask_invalidate (s : NotificationServiceImpl σ) (id : Int)
    (m : NotificationMessage) (v : σ) :
    ((do
        let _ ← s.cache.ClearRecentList
        let _ ← s.cache.DeleteNotification id
        let _ ← s.producer.SendNotification m
        pure ()) : M σ Unit) v =
      ((),
        (s.producer.SendNotification m
          (s.cache.client.del (s.cache.notificationKey id)
            (s.cache.client.del s.cache.recentListKey v).2).2).2.1,
        [Event.Del s.cache.recentListKey (s.cache.client.del s.cache.recentListKey v).1,
          Event.Del (s.cache.notificationKey id)
            (s.cache.client.del (s.cache.notificationKey id)
              (s.cache.client.del s.cache.recentListKey v).2).1] ++
          (s.producer.SendNotification m
            (s.cache.client.del (s.cache.notificationKey id)
              (s.cache.client.del s.cache.recentListKey v).2).2).2.2) := by
  simp [RedisCache.ClearRecentList, RedisCache.DeleteNotification, RedisClient.Del]

/-- C15. In `UpdateNotification` and in `DeleteNotification` a goroutine is started
exactly when the commit succeeded, and at most one. Its task carries the given
id and the entity returned by the update (respectively the row read under the
lock by the delete, which then returns `true`). Run, the task issues `DEL` of
the recent-list key, `DEL` of the per-id key of that id (no `SET`), and, when the
message marshals, one `SendSync` tagged `UPDATE` (respectively `DELETE`) of
the message made of the id, type, recipient, subject and content of that entity.
Once the transaction has begun, the row is read under the lock and the `Save`
(respectively the `Delete`) succeeds, the commit is attempted: when it succeeds
the update returns the saved entity (the delete returns `true`) and the last
call is the start of the goroutine; when it fails the wrapped error is returned
and no goroutine is started. -/
theorem fanout_exactly_after_commit (s : NotificationServiceImpl σ) (id : Int)
    (req : UpdateNotificationRequest) (w : σ) :
    (((∃ t, Event.Go t ∈ (s.UpdateNotification id req w).2.2) ↔
        Event.Commit none ∈ (s.UpdateNotification id req w).2.2) ∧
      (s.UpdateNotification id req w).2.2.countP Event.isGo ≤ 1 ∧
      ∀ t, Event.Go t ∈ (s.UpdateNotification id req w).2.2 →
        ∃ n, t = Task.UpdateFanout id n ∧ (s.UpdateNotification id req w).1 = (some n, none)) ∧
    (((∃ t, Event.Go t ∈ (s.DeleteNotification id w).2.2) ↔
        Event.Commit none ∈ (s.DeleteNotification id w).2.2) ∧
      (s.DeleteNotification id w).2.2.countP Event.isGo ≤ 1 ∧
      (Event.Commit none ∈ (s.DeleteNotification id w).2.2 →
        (s.DeleteNotification id w).1 = (true, none)) ∧
      ∀ t, Event.Go t ∈ (s.DeleteNotification id w).2.2 →
        ∃ n, t = Task.DeleteFanout id n ∧
          Event.FirstForUpdate id n none ∈ (s.DeleteNotification id w).2.2) ∧
    (∀ (n : Notification) (v : σ),
      (s.producer.marshal (NewNotificationMessage n MessageTypeUpdate)).2 = none →
      ∃ e1 e2 status e3,
        (s.runTask (Task.UpdateFanout id n) v).2.2 =
          [Event.Del s.cache.recentListKey e1,
            Event.Del (s.cache.notificationKey id) e2,
            Event.SendSync s.producer.topic "UPDATE"
              (s.producer.marshal
                ⟨n.ID, n.Type_, "UPDATE", n.Recipient, n.Subject, n.Content⟩).1 status e3]) ∧
    (∀ (n : Notification) (v : σ),
      (s.producer.marshal (NewNotificationMessage n MessageTypeDelete)).2 = none →
      ∃ e1 e2 status e3,
        (s.runTask (Task.DeleteFanout id n) v).2.2 =
          [Event.Del s.cache.recentListKey e1,
            Event.Del (s.cache.notificationKey id) e2,
            Event.SendSync s.producer.topic "DELETE"
              (s.producer.marshal
                ⟨n.ID, n.Type_, "DELETE", n.Recipient, n.Subject, n.Content⟩).1 status e3]) ∧
    (∀ (w1 w2 w3 w4 : σ) (row out : Notification) (cerr : Option Error),
      s.repo.db.begin w = (none, w1) →
      s.repo.db.firstForUpdate id w1 = ((row, none), w2) →
      s.repo.db.save { row with Subject := req.Subject, Content := req.Content } w2 =
        ((out, none), w3) →
      s.repo.db.commit w3 = (cerr, w4) →
      (cerr = none →
        s.UpdateNotification id req w =
          ((some out, none), w4,
            [Event.Begin none, Event.FirstForUpdate id row none,
              Event.Save { row with Subject := req.Subject, Content := req.Content } out none,
              Event.Commit none, Event.Go (Task.UpdateFanout id out)])) ∧
      (∀ err, cerr = some err →
        s.UpdateNotification id req w =
          ((none, some (Error.Errorf "failed to commit transaction" err)), w4,
            [Event.Begin none, Event.FirstForUpdate id row none,
              Event.Save { row with Subject := req.Subject, Content := req.Content } out none,
              Event.Commit (some err)]))) ∧
    (∀ (w1 w2 w3 w4 : σ) (row : Notification) (cerr : Option Error),
      s.repo.db.begin w = (none, w1) →
      s.repo.db.firstForUpdate id w1 = ((row, none), w2) →
      s.repo.db.delete id w2 = (none, w3) →
      s.repo.db.commit w3 = (cerr, w4) →
      (cerr = none →
        s.DeleteNotification id w =
          ((true, none), w4,
            [Event.Begin none, Event.FirstForUpdate id row none, Event.Delete id none,
              Event.Commit none, Event.Go (Task.DeleteFanout id row)])) ∧
      (∀ err, cerr = some err →
        s.DeleteNotification id w =
          ((false, some (Error.Errorf "failed to commit transaction" err)), w4,
            [Event.Begin none, Event.FirstForUpdate id row none, Event.Delete id none,
              Event.Commit (some err)]))) := by
  refine ⟨?_, ?_, ?_, ?_, ?_, ?_⟩

  · rcases UpdateNotification_cases s id req w with
      ⟨w1, e, h⟩ | ⟨w1, row, e, r, _, h⟩ | ⟨w1, row, r, h⟩ | ⟨w1, row, o, e, r, h⟩ |
      ⟨w1, row, o, e, h⟩ | ⟨w1, row, o, h⟩ <;>
    · rw [h]
      simp [Event.isGo]
  · rcases DeleteNotification_cases s id w with
      ⟨w1, e, h⟩ | ⟨w1, row, e, r, _, h⟩ | ⟨w1, row, r, h⟩ | ⟨w1, row, e, r, h⟩ |
      ⟨w1, row, e, h⟩ | ⟨w1, row, h⟩ <;>
    · rw [h]
      simp [Event.isGo]
  · intro n v hm
    have ht := SendNotification_trace s.producer (NewNotificationMessage n MessageTypeUpdate)
      (s.cache.client.del (s.cache.notificationKey id)
        (s.cache.client.del s.cache.recentListKey v).2).2
    rw [hm] at ht
    have hrun : (s.runTask (Task.UpdateFanout id n) v).2.2 =
        [Event.Del s.cache.recentListKey (s.cache.client.del s.cache.recentListKey v).1,
          Event.Del (s.cache.notificationKey id)
            (s.cache.client.del (s.cache.notificationKey id)
              (s.cache.client.del s.cache.recentListKey v).2).1] ++
          (s.producer.SendNotification (NewNotificationMessage n MessageTypeUpdate)
            (s.cache.client.del (s.cache.notificationKey id)
              (s.cache.client.del s.cache.recentListKey v).2).2).2.2 :=
      congrArg (fun r => r.2.2)
        (runTask_invalidate s id (NewNotificationMessage n MessageTypeUpdate) v)
    rw [ht] at hrun
    exact ⟨_, _, _, _, hrun⟩
  · intro n v hm
    have ht := SendNotification_trace s.producer (NewNotificationMessage n MessageTypeDelete)
      (s.cache.client.del (s.cache.notificationKey id)
        (s.cache.client.del s.cache.recentListKey v).2).2
    rw [hm] at ht
    have hrun : (s.runTask (Task.DeleteFanout id n) v).2.2 =
        [Event.Del s.cache.recentListKey (s.cache.client.del s.cache.recentListKey v).1,
          Event.Del (s.cache.notificationKey id)
            (s.cache.client.del (s.cache.notificationKey id)
              (s.cache.client.del s.cache.recentListKey v).2).1] ++
          (s.producer.SendNotification (NewNotificationMessage n MessageTypeDelete)
            (s.cache.client.del (s.cache.notificationKey id)
              (s.cache.client.del s.cache.recentListKey v).2).2).2.2 :=
      congrArg (fun r => r.2.2)
        (runTask_invalidate s id (NewNotificationMessage n MessageTypeDelete) v)
    rw [ht] at hrun
    exact ⟨_, _, _, _, hrun⟩
  · intro w1 w2 w3 w4 row out cerr hb hf hs hc
    constructor
    · intro h
      subst h
      exact UpdateNotification_ok s id req w w1 w2 w3 w4 row out hb hf hs hc
    · intro err h
      subst h
      exact UpdateNotification_commitError s id req w w1 w2 w3 w4 row out err hb hf hs hc
  · intro w1 w2 w3 w4 row cerr hb hf hd hc
    constructor
    · intro h
      subst h
      exact DeleteNotification_ok s id w w1 w2 w3 w4 row hb hf hd hc
    · intro err h
      subst h
      exact DeleteNotification_commitError s id w w1 w2 w3 w4 row err hb hf hd hc

/-- Witness for C15: a committed delete returns `true` and starts the fan-out of
the row it read; run to its end, the fan-out clears the list, deletes the entry
and publishes the `DELETE` event; a delete whose commit fails returns the error
and starts nothing. A committed update starts the fan-out of the updated entity,
and that fan-out publishes the `UPDATE` event. -/
theorem fanout_exactly_after_commit_witness :
    (sampleService.DeleteNotification 1 deleteScript).1 = (true, none) ∧
    (sampleService.DeleteNotification 1 deleteScript).2.2 =
      [Event.Begin none, Event.FirstForUpdate 1 nA none, Event.Delete 1 none,
        Event.Commit none, Event.Go (Task.DeleteFanout 1 nA)] ∧
    (sampleService.settled (sampleService.DeleteNotification 1) deleteScript).2.2 =
      [Event.Begin none, Event.FirstForUpdate 1 nA none, Event.Delete 1 none,
        Event.Commit none, Event.Go (Task.DeleteFanout 1 nA),
        Event.Del "notifications:recent" none, Event.Del "notification:1" none,
        Event.SendSync "notification-topic" "DELETE" "DELETE:1" SendOK none] ∧
    (sampleService.DeleteNotification 1 deleteCommitFailScript).1 =
      (false, some (Error.Errorf "failed to commit transaction" Script.closed)) ∧
    (sampleService.DeleteNotification 1 deleteCommitFailScript).2.2.countP Event.isGo = 0 ∧
    (∃ n, Task.UpdateFanout 1 { nA with Subject := "changed", Content := "new text" } =
        Task.UpdateFanout 1 n ∧
      (sampleService.UpdateNotification 1 ⟨"changed", "new text"⟩ updateScript).1 =
        (some n, none)) ∧
    (sampleService.runTask
        (Task.UpdateFanout 1 { nA with Subject := "changed", Content := "new text" })
        fanoutScript).2.2 =
      [Event.Del "notifications:recent" none, Event.Del "notification:1" none,
        Event.SendSync "notification-topic" "UPDATE" "UPDATE:1" SendOK none] :=
  ⟨congrArg (fun r => r.1)
      (((fanout_exactly_after_commit sampleService 1 ⟨"", ""⟩ deleteScript).2.2.2.2.2
        _ _ _ _ nA none rfl rfl rfl rfl).1 rfl),
    congrArg (fun r => r.2.2)
      (((fanout_exactly_after_commit sampleService 1 ⟨"", ""⟩ deleteScript).2.2.2.2.2
        _ _ _ _ nA none rfl rfl rfl rfl).1 rfl),
    by decide,
    congrArg (fun r => r.1)
      (((fanout_exactly_after_commit sampleService 1 ⟨"", ""⟩ deleteCommitFailScript).2.2.2.2.2
        _ _ _ _ nA (some Script.closed) rfl rfl rfl rfl).2 Script.closed rfl),
    by decide,
    (fanout_exactly_after_commit sampleService 1 ⟨"changed", "new text"⟩ updateScript).1.2.2
      (Task.UpdateFanout 1 { nA with Subject := "changed", Content := "new text" })
      (by decide),
    by decide⟩

end Fanout

/-! ## The reference models and the write operations -/

section ModelWrites

theorem Store.findRow_id {w : Store} {id : Int} {row : Notification}
    (h : w.findRow id = some row) : row.ID = id := by
  have := List.find?_some h
  simpa using this

theorem find_replace (rows : List Notification) (id : Int) (row v : Notification)
    (h : rows.find? (fun r => decide (r.ID = id)) = some row) (hv : v.ID = id) :
    (rows.map (fun r => if r.ID = id then v else r)).find? (fun r => decide (r.ID = id)) =
      some v := by
  induction rows with
  | nil => simp at h
  | cons r rest ih =>
    by_cases hr : r.ID = id
    · simp [List.find?, hr, hv]
    · simp only [List.find?, hr, decide_False] at h
      simp [List.find?, hr, ih h]

/-- On the reference store, `Save` of a struct whose id has a row replaces that
row and leaves the struct as passed. -/
theorem database_save_existing (now : Int) (w : Store) (id : Int) (row v : Notification)
    (h : w.findRow id = some row) (hid : id ≠ 0) (hv : v.ID = id) :
    (database now).save v w =
      ((v, none), { w with rows := w.rows.map (fun r => if r.ID = id then v else r) }) := by
  have h1 : ¬ v.ID = 0 := by rw [hv]; exact hid
  have h2 : (w.findRow v.ID).isSome = true := by rw [hv, h]; rfl
  simp only [database, Store.saveRow]
  rw [if_neg h1, if_pos h2, hv]

/-- On the reference broker, `SendNotification` leaves the state as it was. -/
theorem SendNotification_broker (p : NotificationProducer Store) (hp : p.producer = broker)
    (m : NotificationMessage) (w : Store) : (p.SendNotification m w).2.1 = w := by
  unfold NotificationProducer.SendNotification
  cases (p.marshal m).2 with
  | some err => rfl
  | none =>
    simp only [M.bind_apply, MQProducer.SendSync, hp]
    simp [broker]

/-- On the reference models, the state a committed update leaves once its
fan-out has run: the row replaced, the recent list and the per-id entry gone. -/
theorem settled_update_model (s : NotificationServiceImpl Store) (now : Int)
    (hdb : s.repo.db = database now) (hc : s.cache.client = redisServer)
    (hp : s.producer.producer = broker) (w : Store) (id : Int)
    (req : UpdateNotificationRequest) (row : Notification)
    (hrow : w.findRow id = some row) (hid : id ≠ 0) :
    s.UpdateNotification id req w =
      ((some { row with Subject := req.Subject, Content := req.Content }, none),
        { w with
          rows := w.rows.map (fun r =>
            if r.ID = id then { row with Subject := req.Subject, Content := req.Content }
            else r)
          tx := none },
        [Event.Begin none, Event.FirstForUpdate id row none,
          Event.Save { row with Subject := req.Subject, Content := req.Content }
            { row with Subject := req.Subject, Content := req.Content } none,
          Event.Commit none,
          Event.Go (Task.UpdateFanout id
            { row with Subject := req.Subject, Content := req.Content })]) ∧
    (s.settled (s.UpdateNotification id req) w).2.1 =
      (({ w with
          rows := w.rows.map (fun r =>
            if r.ID = id then { row with Subject := req.Subject, Content := req.Content }
            else r)
          tx := none } : Store).setKey s.cache.recentListKey none).setKey
        (s.cache.notificationKey id) none := by
  have hb : s.repo.db.begin w = (none, { w with tx := some w.rows }) := by rw [hdb]; rfl
  have hf : s.repo.db.firstForUpdate id { w with tx := some w.rows } =
      ((row, none), { w with tx := some w.rows }) := by
    rw [hdb]
    have : ({ w with tx := some w.rows } : Store).findRow id = some row := hrow
    simp [database, this]
  have hrid : row.ID = id := Store.findRow_id hrow
  have hvid : ({ row with Subject := req.Subject, Content := req.Content } : Notification).ID =
      id := hrid
  have hs := database_save_existing now { w with tx := some w.rows } id row
    { row with Subject := req.Subject, Content := req.Content } hrow hid hvid
  rw [← hdb] at hs
  have hcm : s.repo.db.commit
      ({ ({ w with tx := some w.rows } : Store) with
        rows := w.rows.map (fun r =>
          if r.ID = id then { row with Subject := req.Subject, Content := req.Content }
          else r) }) =
      (none, { w with
        rows := w.rows.map (fun r =>
          if r.ID = id then { row with Subject := req.Subject, Content := req.Content }
          else r)
        tx := none }) := by rw [hdb]; rfl
  have hupd := UpdateNotification_ok s id req w _ _ _ _ row _ hb hf hs hcm
  refine ⟨hupd, ?_⟩
  unfold NotificationServiceImpl.settled
  rw [hupd]
  simp only [spawned, NotificationServiceImpl.runTasks, M.bind_apply, M.pure_apply]
  have hrun := congrArg (fun r => r.2.1)
    (runTask_invalidate s id
      (NewNotificationMessage { row with Subject := req.Subject, Content := req.Content }
        MessageTypeUpdate)
      ({ w with
        rows := w.rows.map (fun r =>
          if r.ID = id then { row with Subject := req.Subject, Content := req.Content }
          else r)
        tx := none } : Store))
  have hrun2 : (s.runTask (Task.UpdateFanout id
      { row with Subject := req.Subject, Content := req.Content }) _).2.1 = _ := hrun
  rw [hrun2, SendNotification_broker s.producer hp, hc]
  rfl

end ModelWrites

section UpdateInvalidation

/-- On the reference server, the lookup of an id whose key is absent is a miss. -/
theorem RedisCache.FindNotificationByID_absent (r : RedisCache Store)
    (hr : r.client = redisServer) (id : Int) (w : Store)
    (h : w.redis (r.notificationKey id) = none) :
    r.FindNotificationByID id w =
      ((none, none), w, [Event.Get (r.notificationKey id) "" (some Error.redisNil)]) := by
  unfold RedisCache.FindNotificationByID
  simp [RedisClient.Get, hr, redisServer, h]

/-- On the reference store, `FindByID` of an id that has a row returns it. -/
theorem FindByID_model (repo : NotificationRepository Store) (now : Int)
    (hdb : repo.db = database now) (id : Int) (w : Store) (row : Notification)
    (h : w.findRow id = some row) :
    repo.FindByID id w = ((some row, none), w, [Event.First id row none]) := by
  have hf : repo.db.first id w = ((row, none), w) := by simp [hdb, database, h]
  rw [FindByID_eq repo id w w row none hf]
  simp

theorem flakyServer_never : flakyServer Faults.never = redisServer := rfl

/-- A `DEL` through the flaky client leaves the table as it was, and leaves no
entry under the key when it succeeds or when there was none. -/
theorem flakyServer_del (f : Faults) (key : String) (w : Store) :
    ((flakyServer f).del key w).2.rows = w.rows ∧
    (∀ k, w.redis k = none → ((flakyServer f).del key w).2.redis k = none) ∧
    (((flakyServer f).del key w).1 = none → ((flakyServer f).del key w).2.redis key = none) := by
  cases hf : f.del key w with
  | none =>
    refine ⟨by simp [flakyServer, hf, redisServer, Store.setKey], ?_, ?_⟩
    · intro k hk
      by_cases h : k = key <;> simp [flakyServer, hf, redisServer, Store.setKey, h, hk]
    · intro _
      simp [flakyServer, hf, redisServer, Store.setKey]
  | some err =>
    refine ⟨by simp [flakyServer, hf], ?_, ?_⟩
    · intro k hk
      simpa [flakyServer, hf] using hk
    · intro h
      simp [flakyServer, hf] at h

/-- Through the flaky client, the per-id read of an id that has no entry gives no
entity and leaves the state as it was. -/
theorem RedisCache.FindNotificationByID_flaky_absent (r : RedisCache Store) (f : Faults)
    (hr : r.client = flakyServer f) (id : Int) (w : Store)
    (h : w.redis (r.notificationKey id) = none) :
    (r.FindNotificationByID id w).1.1 = none ∧ (r.FindNotificationByID id w).2.1 = w := by
  unfold RedisCache.FindNotificationByID
  simp only [M.bind_apply, RedisClient.Get, hr]
  cases hf : f.get (r.notificationKey id) w with
  | none => simp [flakyServer, hf, redisServer, h]
  | some err =>
    by_cases hn : err = Error.redisNil
    · simp [flakyServer, hf, hn]
    · simp [flakyServer, hf, hn]

/-- On the reference store behind a flaky Redis client, a committed update followed
by its fan-out: the calls of the fan-out are the two `DEL`s, each with the reply
the client gave, then the publish; the table holds the updated row. -/
theorem settled_update_flaky (s : NotificationServiceImpl Store) (now : Int) (f : Faults)
    (hdb : s.repo.db = database now) (hc : s.cache.client = flakyServer f)
    (hp : s.producer.producer = broker) (w : Store) (id : Int)
    (req : UpdateNotificationRequest) (row : Notification)
    (hrow : w.findRow id = some row) (hid : id ≠ 0) :
    (s.UpdateNotification id req w).1 =
      (some { row with Subject := req.Subject, Content := req.Content }, none) ∧
    ∃ (wu : Store) (st : List Event),
      wu.rows = w.rows.map (fun r =>
        if r.ID = id then { row with Subject := req.Subject, Content := req.Content }
        else r) ∧
      (∀ e ∈ st, e.isSendSync = true) ∧
      (s.settled (s.UpdateNotification id req) w).2.1 =
        ((flakyServer f).del (s.cache.notificationKey id)
          ((flakyServer f).del s.cache.recentListKey wu).2).2 ∧
      (s.settled (s.UpdateNotification id req) w).2.2 =
        [Event.Begin none, Event.FirstForUpdate id row none,
          Event.Save { row with Subject := req.Subject, Content := req.Content }
            { row with Subject := req.Subject, Content := req.Content } none,
          Event.Commit none,
          Event.Go (Task.UpdateFanout id
            { row with Subject := req.Subject, Content := req.Content })] ++
        ([Event.Del s.cache.recentListKey ((flakyServer f).del s.cache.recentListKey wu).1,
          Event.Del (s.cache.notificationKey id)
            ((flakyServer f).del (s.cache.notificationKey id)
              ((flakyServer f).del s.cache.recentListKey wu).2).1] ++ st) := by
  have hupd : s.UpdateNotification id req w = _ :=
    (settled_update_model { s with cache := { s.cache with client := redisServer } } now hdb rfl
      hp w id req row hrow hid).1
  refine ⟨by rw [hupd],
    ({ w with
      rows := w.rows.map (fun r =>
        if r.ID = id then { row with Subject := req.Subject, Content := req.Content }
        else r)
      tx := none } : Store),
    (s.producer.SendNotification
      (NewNotificationMessage { row with Subject := req.Subject, Content := req.Content }
        MessageTypeUpdate)
      ((flakyServer f).del (s.cache.notificationKey id)
        ((flakyServer f).del s.cache.recentListKey
          ({ w with
            rows := w.rows.map (fun r =>
              if r.ID = id then { row with Subject := req.Subject, Content := req.Content }
              else r)
            tx := none } : Store)).2).2).2.2,
    rfl, ?_, ?_, ?_⟩
  · intro e he
    rw [SendNotification_trace] at he
    cases hm : (s.producer.marshal
        (NewNotificationMessage { row with Subject := req.Subject, Content := req.Content }
          MessageTypeUpdate)).2 with
    | some err => simp [hm] at he
    | none =>
      simp only [hm, List.mem_singleton] at he
      rw [he]
      rfl
  · unfold NotificationServiceImpl.settled
    rw [hupd]
    simp only [spawned, NotificationServiceImpl.runTasks, M.bind_apply, M.pure_apply]
    have hrun := congrArg (fun r => r.2.1)
      (runTask_invalidate s id
        (NewNotificationMessage { row with Subject := req.Subject, Content := req.Content }
          MessageTypeUpdate)
        ({ w with
          rows := w.rows.map (fun r =>
            if r.ID = id then { row with Subject := req.Subject, Content := req.Content }
            else r)
          tx := none } : Store))
    have hrun2 : (s.runTask (Task.UpdateFanout id
        { row with Subject := req.Subject, Content := req.Content }) _).2.1 = _ := hrun
    rw [hrun2, SendNotification_broker s.producer hp, hc]
  · unfold NotificationServiceImpl.settled
    rw [hupd]
    simp only [spawned, NotificationServiceImpl.runTasks, M.bind_apply, M.pure_apply]
    have hrun := congrArg (fun r => r.2.2)
      (runTask_invalidate s id
        (NewNotificationMessage { row with Subject := req.Subject, Content := req.Content }
          MessageTypeUpdate)
        ({ w with
          rows := w.rows.map (fun r =>
            if r.ID = id then { row with Subject := req.Subject, Content := req.Content }
            else r)
          tx := none } : Store))
    have hrun2 : (s.runTask (Task.UpdateFanout id
        { row with Subject := req.Subject, Content := req.Content }) _).2.2 = _ := hrun
    rw [hrun2, hc]
    simp

/-- Counterexample to C16 as stated: the per-id entry of row 1 holds the old
subject, Redis refuses every `DEL`; the update succeeds, its fan-out runs to its
end (both `DEL`s answered with an error, which is only logged, then the publish),
and the next `GetNotificationByID 1` returns the cached entity with the old
subject and content. -/
theorem update_invalidates_cached_entity_counterexample :
    ((flakyModel delDown).UpdateNotification 1 ⟨"changed", "new text"⟩ staleStore).1 =
      (some { nA with Subject := "changed", Content := "new text" }, none) ∧
    ((flakyModel delDown).settled
        ((flakyModel delDown).UpdateNotification 1 ⟨"changed", "new text"⟩) staleStore).2.2 =
      [Event.Begin none, Event.FirstForUpdate 1 nA none,
        Event.Save { nA with Subject := "changed", Content := "new text" }
          { nA with Subject := "changed", Content := "new text" } none,
        Event.Commit none,
        Event.Go (Task.UpdateFanout 1 { nA with Subject := "changed", Content := "new text" }),
        Event.Del "notifications:recent" (some Script.closed),
        Event.Del "notification:1" (some Script.closed),
        Event.SendSync "notification-topic" "UPDATE" "UPDATE:1" SendOK none] ∧
    ((flakyModel delDown).GetNotificationByID 1
      ((flakyModel delDown).settled
        ((flakyModel delDown).UpdateNotification 1 ⟨"changed", "new text"⟩)
        staleStore).2.1).1 = (some nA, none) ∧
    nA.Subject ≠ "changed" := by
  decide

/-- C16 (amended). On the reference store, behind a Redis client whose calls may
fail in any way, for every entity that has a row (and so an id other than zero)
and whatever its per-id cache entry holds: `UpdateNotification` succeeds and
returns the row with the subject and content of the request, and once its
fan-out has run, with nothing else in between, if a `DEL` of the per-id key of
that id was answered without error, then `GetNotificationByID` of that id gets
no entity from the cache, reads the store once and returns that same entity,
with the new subject and content. -/
theorem update_invalidates_cached_entity (s : NotificationServiceImpl Store) (now : Int)
    (f : Faults) (hdb : s.repo.db = database now) (hc : s.cache.client = flakyServer f)
    (hp : s.producer.producer = broker) (w : Store) (id : Int)
    (req : UpdateNotificationRequest) (row : Notification)
    (hrow : w.findRow id = some row) (hid : id ≠ 0)
    (hdel : Event.Del (s.cache.notificationKey id) none ∈
      (s.settled (s.UpdateNotification id req) w).2.2) :
    (s.UpdateNotification id req w).1 =
      (some { row with Subject := req.Subject, Content := req.Content }, none) ∧
    (s.GetNotificationByID id (s.settled (s.UpdateNotification id req) w).2.1).1 =
      (some { row with Subject := req.Subject, Content := req.Content }, none) ∧
    (s.GetNotificationByID id (s.settled (s.UpdateNotification id req) w).2.1).2.2.countP
      Event.isStoreQuery = 1 := by
  obtain ⟨hupd, wu, st, hrows, hst, hstate, htrace⟩ :=
    settled_update_flaky s now f hdb hc hp w id req row hrow hid
  have hd1 := flakyServer_del f s.cache.recentListKey wu
  have hd2 := flakyServer_del f (s.cache.notificationKey id)
    ((flakyServer f).del s.cache.recentListKey wu).2
  have hkey : ((s.settled (s.UpdateNotification id req) w).2.1).redis
      (s.cache.notificationKey id) = none := by
    rw [hstate]
    rw [htrace] at hdel
    rcases List.mem_append.mp hdel with h | h
    · simp at h
    · rcases List.mem_append.mp h with h | h
      · rcases List.mem_cons.mp h with h | h
        · injection h with hk he
          apply hd2.2.1
          rw [hk]
          exact hd1.2.2 he.symm
        · rw [List.mem_singleton] at h
          injection h with _ he
          exact hd2.2.2 he.symm
      · exact absurd (hst _ h) (by simp [Event.isSendSync])
  have hrid : row.ID = id := Store.findRow_id hrow
  have hfind : ((s.settled (s.UpdateNotification id req) w).2.1).findRow id =
      some { row with Subject := req.Subject, Content := req.Content } := by
    have hr : ((s.settled (s.UpdateNotification id req) w).2.1).rows =
        w.rows.map (fun r =>
          if r.ID = id then { row with Subject := req.Subject, Content := req.Content }
          else r) := by
      rw [hstate, hd2.1, hd1.1, hrows]
    unfold Store.findRow
    rw [hr]
    exact find_replace w.rows id row _ hrow hrid
  have hmiss := s.cache.FindNotificationByID_flaky_absent f hc id _ hkey
  have h1 : s.cache.FindNotificationByID id (s.settled (s.UpdateNotification id req) w).2.1 =
      ((none, (s.cache.FindNotificationByID id
          (s.settled (s.UpdateNotification id req) w).2.1).1.2),
        (s.settled (s.UpdateNotification id req) w).2.1,
        [Event.Get (s.cache.notificationKey id)
          (s.cache.client.get (s.cache.notificationKey id)
            (s.settled (s.UpdateNotification id req) w).2.1).1.1
          (s.cache.client.get (s.cache.notificationKey id)
            (s.settled (s.UpdateNotification id req) w).2.1).1.2]) :=
    Prod.ext (Prod.ext hmiss.1 rfl)
      (Prod.ext hmiss.2 (s.cache.FindNotificationByID_trace id _))
  have h2 := FindByID_model s.repo now hdb id _ _ hfind
  refine ⟨hupd, ?_, ?_⟩
  · rw [GetNotificationByID_miss s id _ _ _ _ none _ _ _ h1 h2]
  · rw [GetNotificationByID_miss s id _ _ _ _ none _ _ _ h1 h2]
    simp [Event.isStoreQuery]

/-- Witness for C16 (amended): the cache holds the old JSON of row 1; the `DEL` of
the recent list fails, the `DEL` of the per-id entry succeeds, and the `GET` of
the read fails: the read returns the new subject and content from the store. On
the reference server, where no call fails, a read made before the fan-out has
run still returns the cached old entity. -/
theorem update_invalidates_cached_entity_witness :
    Event.Del "notification:1" none ∈
      ((flakyModel recentDown).settled
        ((flakyModel recentDown).UpdateNotification 1 ⟨"changed", "new text"⟩)
        staleStore).2.2 ∧
    ((flakyModel recentDown).GetNotificationByID 1
      ((flakyModel recentDown).settled
        ((flakyModel recentDown).UpdateNotification 1 ⟨"changed", "new text"⟩)
        staleStore).2.1).1 =
      (some { nA with Subject := "changed", Content := "new text" }, none) ∧
    (sampleModel.GetNotificationByID 1
      (sampleModel.UpdateNotification 1 ⟨"changed", "new text"⟩ staleStore).2.1).1 =
      (some nA, none) :=
  ⟨by decide,
    (update_invalidates_cached_entity (flakyModel recentDown) 1700000002000000000 recentDown
      rfl rfl rfl staleStore 1 ⟨"changed", "new text"⟩ nA (by decide) (by decide)
      (by decide)).2.1,
    by decide⟩

end UpdateInvalidation

section Background
variable {σ : Type}

/-- The fan-out of a create: the publish, then the `SET`, then the `DEL`. -/
theorem runTask_create (s : NotificationServiceImpl σ) (n : Notification) (v : σ) :
    s.runTask (Task.CreateFanout n) v =
      ((),
        (s.cache.ClearRecentList
          (s.cache.CacheNotification n
            (s.producer.SendNotification (NewNotificationMessage n MessageTypeCreate)
              v).2.1).2.1).2.1,
        (s.producer.SendNotification (NewNotificationMessage n MessageTypeCreate) v).2.2 ++
          (s.cache.CacheNotification n
            (s.producer.SendNotification (NewNotificationMessage n MessageTypeCreate)
              v).2.1).2.2 ++
          (s.cache.ClearRecentList
            (s.cache.CacheNotification n
              (s.producer.SendNotification (NewNotificationMessage n MessageTypeCreate)
                v).2.1).2.1).2.2) := by
  simp [NotificationServiceImpl.runTask]

/-- C18. The value, the error, the state and the calls of `CreateNotification`,
`UpdateNotification` and `DeleteNotification` are the same under any other
behaviour of the cache and of the producer, the only collaborators the
post-commit steps use. The fan-out itself runs each of its three steps once, in
order, each in the state the previous one left, whatever the previous one
returned: no step is issued twice, and the steps after a failed one are still
issued. -/
theorem fanout_outcomes_stay_in_the_background (s : NotificationServiceImpl σ) :
    (∀ (cache2 : RedisCache σ) (producer2 : NotificationProducer σ)
        (req : NotificationRequest) (w : σ),
      NotificationServiceImpl.CreateNotification
        { s with cache := cache2, producer := producer2 } req w =
      s.CreateNotification req w) ∧
    (∀ (cache2 : RedisCache σ) (producer2 : NotificationProducer σ) (id : Int)
        (req : UpdateNotificationRequest) (w : σ),
      NotificationServiceImpl.UpdateNotification
        { s with cache := cache2, producer := producer2 } id req w =
      s.UpdateNotification id req w) ∧
    (∀ (cache2 : RedisCache σ) (producer2 : NotificationProducer σ) (id : Int) (w : σ),
      NotificationServiceImpl.DeleteNotification
        { s with cache := cache2, producer := producer2 } id w =
      s.DeleteNotification id w) ∧
    (∀ (n : Notification) (v : σ),
      (s.runTask (Task.CreateFanout n) v).2.2 =
        (s.producer.SendNotification (NewNotificationMessage n MessageTypeCreate) v).2.2 ++
          (s.cache.CacheNotification n
            (s.producer.SendNotification (NewNotificationMessage n MessageTypeCreate)
              v).2.1).2.2 ++
          (s.cache.ClearRecentList
            (s.cache.CacheNotification n
              (s.producer.SendNotification (NewNotificationMessage n MessageTypeCreate)
                v).2.1).2.1).2.2 ∧
      (s.runTask (Task.CreateFanout n) v).2.2.countP Event.isSendSync ≤ 1 ∧
      (s.runTask (Task.CreateFanout n) v).2.2.countP Event.isSet ≤ 1 ∧
      (s.runTask (Task.CreateFanout n) v).2.2.countP Event.isDel = 1 ∧
      ((s.producer.marshal (NewNotificationMessage n MessageTypeCreate)).2 = none →
        (s.runTask (Task.CreateFanout n) v).2.2.countP Event.isSendSync = 1) ∧
      ((s.cache.json.Marshal n).2 = none →
        (s.runTask (Task.CreateFanout n) v).2.2.countP Event.isSet = 1)) ∧
    (∀ (id : Int) (n : Notification) (v : σ),
      (s.runTask (Task.UpdateFanout id n) v).2.2 =
        (s.cache.ClearRecentList v).2.2 ++
          (s.cache.DeleteNotification id (s.cache.ClearRecentList v).2.1).2.2 ++
          (s.producer.SendNotification (NewNotificationMessage n MessageTypeUpdate)
            (s.cache.DeleteNotification id (s.cache.ClearRecentList v).2.1).2.1).2.2 ∧
      (s.runTask (Task.UpdateFanout id n) v).2.2.countP Event.isDel = 2 ∧
      (s.runTask (Task.UpdateFanout id n) v).2.2.countP Event.isSendSync ≤ 1 ∧
      ((s.producer.marshal (NewNotificationMessage n MessageTypeUpdate)).2 = none →
        (s.runTask (Task.UpdateFanout id n) v).2.2.countP Event.isSendSync = 1)) ∧
    (∀ (id : Int) (n : Notification) (v : σ),
      (s.runTask (Task.DeleteFanout id n) v).2.2 =
        (s.cache.ClearRecentList v).2.2 ++
          (s.cache.DeleteNotification id (s.cache.ClearRecentList v).2.1).2.2 ++
          (s.producer.SendNotification (NewNotificationMessage n MessageTypeDelete)
            (s.cache.DeleteNotification id (s.cache.ClearRecentList v).2.1).2.1).2.2 ∧
      (s.runTask (Task.DeleteFanout id n) v).2.2.countP Event.isDel = 2 ∧
      (s.runTask (Task.DeleteFanout id n) v).2.2.countP Event.isSendSync ≤ 1 ∧
      ((s.producer.marshal (NewNotificationMessage n MessageTypeDelete)).2 = none →
        (s.runTask (Task.DeleteFanout id n) v).2.2.countP Event.isSendSync = 1)) := by
  refine ⟨fun _ _ _ _ => rfl, fun _ _ _ _ _ => rfl, fun _ _ _ _ => rfl, ?_, ?_, ?_⟩
  · intro n v
    rw [runTask_create]
    simp only [SendNotification_trace, CacheNotification_trace, ClearRecentList_trace]
    cases hm : (s.producer.marshal (NewNotificationMessage n MessageTypeCreate)).2 <;>
      cases hj : (s.cache.json.Marshal n).2 <;>
      simp [Event.isSendSync, Event.isSet, Event.isDel]
  · intro id n v
    have hrun := congrArg (fun r => r.2.2)
      (runTask_invalidate s id (NewNotificationMessage n MessageTypeUpdate) v)
    have hrun2 : (s.runTask (Task.UpdateFanout id n) v).2.2 = _ := hrun
    rw [hrun2]
    simp only [SendNotification_trace, ClearRecentList_trace, DeleteNotification_trace]
    cases hm : (s.producer.marshal (NewNotificationMessage n MessageTypeUpdate)).2 <;>
      simp [Event.isSendSync, Event.isDel, RedisCache.ClearRecentList,
        RedisCache.DeleteNotification, RedisClient.Del]
  · intro id n v
    have hrun := congrArg (fun r => r.2.2)
      (runTask_invalidate s id (NewNotificationMessage n MessageTypeDelete) v)
    have hrun2 : (s.runTask (Task.DeleteFanout id n) v).2.2 = _ := hrun
    rw [hrun2]
    simp only [SendNotification_trace, ClearRecentList_trace, DeleteNotification_trace]
    cases hm : (s.producer.marshal (NewNotificationMessage n MessageTypeDelete)).2 <;>
      simp [Event.isSendSync, Event.isDel, RedisCache.ClearRecentList,
        RedisCache.DeleteNotification, RedisClient.Del]

/-- Witness for C18: the broker refuses the message of a create; the entity is
cached and the recent list cleared all the same, and nothing is sent twice. -/
theorem fanout_outcomes_stay_in_the_background_witness :
    (sampleService.runTask (Task.CreateFanout nA) brokerDownScript).2.2 =
      [Event.SendSync "notification-topic" "CREATE" "CREATE:1" SendOK (some Script.closed),
        Event.Set "notification:1" "A" (10 * Minute) none,
        Event.Del "notifications:recent" none] :=
  ((fanout_outcomes_stay_in_the_background sampleService).2.2.2.1 nA brokerDownScript).1.trans
    (by decide)

end Background

section RoundTrip

end RoundTrip

section RoundTripClaim

end RoundTripClaim

section Rollback
variable {σ : Type}

/-- Counterexample to C19 as stated: the commit of a create fails, the error is
returned, and the execution holds no `Rollback`. -/
theorem rollback_before_error_counterexample :
    sampleService.CreateNotification sampleRequest commitFailScript =
      ((none, some (Error.Errorf "failed to commit transaction" Script.closed)), Script.empty,
        [Event.Begin none, Event.Save sampleDraft nA none, Event.Commit (some Script.closed)]) ∧
    (sampleService.CreateNotification sampleRequest commitFailScript).2.2.countP
      Event.isRollback = 0 := by
  decide

/-- C19, amended. In `CreateNotification`, `UpdateNotification` and
`DeleteNotification`: whenever a `Save`, a `Delete` or the locking read fails
inside the open transaction, an error is returned and `Rollback` is called
exactly once, as the last call before returning; whenever the commit fails, an
error is returned, the failed commit is the last call, and no `Rollback` is
called. -/
theorem rollback_before_error (s : NotificationServiceImpl σ) :
    (∀ (req : NotificationRequest) (w : σ),
      ((∃ e ∈ (s.CreateNotification req w).2.2, e.isFailedTxStep = true) →
        (s.CreateNotification req w).1.2 ≠ none ∧
        (s.CreateNotification req w).2.2.countP Event.isRollback = 1 ∧
        ∃ r, (s.CreateNotification req w).2.2.getLast? = some (Event.Rollback r)) ∧
      (∀ err, Event.Commit (some err) ∈ (s.CreateNotification req w).2.2 →
        (s.CreateNotification req w).1.2 ≠ none ∧
        (s.CreateNotification req w).2.2.countP Event.isRollback = 0 ∧
        (s.CreateNotification req w).2.2.getLast? = some (Event.Commit (some err)))) ∧
    (∀ (id : Int) (req : UpdateNotificationRequest) (w : σ),
      ((∃ e ∈ (s.UpdateNotification id req w).2.2, e.isFailedTxStep = true) →
        (s.UpdateNotification id req w).1.2 ≠ none ∧
        (s.UpdateNotification id req w).2.2.countP Event.isRollback = 1 ∧
        ∃ r, (s.UpdateNotification id req w).2.2.getLast? = some (Event.Rollback r)) ∧
      (∀ err, Event.Commit (some err) ∈ (s.UpdateNotification id req w).2.2 →
        (s.UpdateNotification id req w).1.2 ≠ none ∧
        (s.UpdateNotification id req w).2.2.countP Event.isRollback = 0 ∧
        (s.UpdateNotification id req w).2.2.getLast? = some (Event.Commit (some err)))) ∧
    (∀ (id : Int) (w : σ),
      ((∃ e ∈ (s.DeleteNotification id w).2.2, e.isFailedTxStep = true) →
        (s.DeleteNotification id w).1.2 ≠ none ∧
        (s.DeleteNotification id w).2.2.countP Event.isRollback = 1 ∧
        ∃ r, (s.DeleteNotification id w).2.2.getLast? = some (Event.Rollback r)) ∧
      (∀ err, Event.Commit (some err) ∈ (s.DeleteNotification id w).2.2 →
        (s.DeleteNotification id w).1.2 ≠ none ∧
        (s.DeleteNotification id w).2.2.countP Event.isRollback = 0 ∧
        (s.DeleteNotification id w).2.2.getLast? = some (Event.Commit (some err)))) := by
  refine ⟨?_, ?_, ?_⟩
  · intro req w
    rcases CreateNotification_cases s req w with
      ⟨w1, e, h⟩ | ⟨w1, o, e, r, h⟩ | ⟨w1, o, e, h⟩ | ⟨w1, o, h⟩ <;>
    · rw [h]
      simp [Event.isFailedTxStep, Event.isRollback]
  · intro id req w
    rcases UpdateNotification_cases s id req w with
      ⟨w1, e, h⟩ | ⟨w1, row, e, r, hne, h⟩ | ⟨w1, row, r, h⟩ | ⟨w1, row, o, e, r, h⟩ |
      ⟨w1, row, o, e, h⟩ | ⟨w1, row, o, h⟩ <;>
    · rw [h]
      simp [Event.isFailedTxStep, Event.isRollback]
  · intro id w
    rcases DeleteNotification_cases s id w with
      ⟨w1, e, h⟩ | ⟨w1, row, e, r, hne, h⟩ | ⟨w1, row, r, h⟩ | ⟨w1, row, e, r, h⟩ |
      ⟨w1, row, e, h⟩ | ⟨w1, row, h⟩ <;>
    · rw [h]
      simp [Event.isFailedTxStep, Event.isRollback]

/-- Witness for the amended C19: the insert of a create fails and the
transaction is rolled back before the error is returned. -/
theorem rollback_before_error_witness :
    (sampleService.CreateNotification sampleRequest saveFailScript).1.2 ≠ none ∧
    (sampleService.CreateNotification sampleRequest saveFailScript).2.2.countP
      Event.isRollback = 1 ∧
    ∃ r, (sampleService.CreateNotification sampleRequest saveFailScript).2.2.getLast? =
      some (Event.Rollback r) :=
  ((rollback_before_error sampleService).1 sampleRequest saveFailScript).1
    ⟨Event.Save sampleDraft sampleDraft
      (some (Error.New "Error 1406: Data too long for column")), by decide, rfl⟩

end Rollback

section Validation
variable {σ : Type}

/-- The valid notification types are `EMAIL` and `SMS`. -/
theorem NotificationType.IsValid_iff (t : NotificationType) :
    t.IsValid = true ↔ t = "EMAIL" ∨ t = "SMS" := by
  unfold NotificationType.IsValid validNotificationTypes NotificationTypeEmail
    NotificationTypeSMS
  by_cases h1 : t = "EMAIL"
  · simp [List.lookup, h1]
  · by_cases h2 : t = "SMS"
    · subst h2
      simp [List.lookup]
    · have b1 : (t == "EMAIL") = false := by simpa using h1
      have b2 : (t == "SMS") = false := by simpa using h2
      simp [List.lookup, b1, b2, h1, h2]

/-- C20. For every create request whose type is neither `EMAIL` nor `SMS`, the
create handler answers 400 with an error body, makes no call at all (so no
entity store access) and leaves the outside state as it was; and in every
execution of the create handler, every entity given to `Save` has type `EMAIL`
or `SMS`. -/
theorem invalid_type_is_rejected (h : NotificationHandler σ)
    (bound : NotificationRequest × Option Error) (w : σ) :
    (bound.1.Type_ ≠ "EMAIL" → bound.1.Type_ ≠ "SMS" →
      (h.CreateNotification bound w).1.status = StatusBadRequest ∧
      (∃ msg, (h.CreateNotification bound w).1.body = Body.error ⟨msg⟩) ∧
      (h.CreateNotification bound w).2.1 = w ∧
      (h.CreateNotification bound w).2.2 = []) ∧
    (∀ v out err, Event.Save v out err ∈ (h.CreateNotification bound w).2.2 →
      v.Type_ = "EMAIL" ∨ v.Type_ = "SMS") := by
  refine ⟨?_, ?_⟩
  · intro h1 h2
    have hv : bound.1.Type_.IsValid = false := by
      cases hb : bound.1.Type_.IsValid with
      | false => rfl
      | true =>
        rcases (NotificationType.IsValid_iff _).mp hb with h | h
        · exact absurd h h1
        · exact absurd h h2
    unfold NotificationHandler.CreateNotification
    cases bound.2 with
    | some err => simp
    | none => simp [hv]
  · intro v out err hmem
    unfold NotificationHandler.CreateNotification at hmem
    cases hb2 : bound.2 with
    | some e => simp [hb2] at hmem
    | none =>
      cases hv : bound.1.Type_.IsValid with
      | false => simp [hb2, hv] at hmem
      | true =>
        have hvalid := (NotificationType.IsValid_iff _).mp hv
        simp only [hb2, hv, Bool.not_true, Bool.false_eq_true, if_false, M.bind_apply] at hmem
        rcases CreateNotification_cases h.service bound.1 w with
          ⟨w1, e, hc⟩ | ⟨w1, o, e, r, hc⟩ | ⟨w1, o, e, hc⟩ | ⟨w1, o, hc⟩
        · rw [hc] at hmem
          simp at hmem
        · rw [hc] at hmem
          simp at hmem
          rw [hmem.1]
          exact hvalid
        · rw [hc] at hmem
          simp at hmem
          rw [hmem.1]
          exact hvalid
        · rw [hc] at hmem
          simp at hmem
          rw [hmem.1]
          exact hvalid

/-- Witness for C20: a request of type `PUSH` is answered 400 and nothing is called. -/
theorem invalid_type_is_rejected_witness :
    (sampleHandler.CreateNotification (pushRequest, none) rebuildScript).1.status =
      StatusBadRequest ∧
    (∃ msg, (sampleHandler.CreateNotification (pushRequest, none) rebuildScript).1.body =
      Body.error ⟨msg⟩) ∧
    (sampleHandler.CreateNotification (pushRequest, none) rebuildScript).2.1 = rebuildScript ∧
    (sampleHandler.CreateNotification (pushRequest, none) rebuildScript).2.2 = [] :=
  (invalid_type_is_rejected sampleHandler (pushRequest, none) rebuildScript).1
    (by decide) (by decide)

end Validation

/-! ## The type names -/

section TypeNames

/-- The lookup in `validNotificationTypes`, with `false` for a missing key. -/
theorem validNotificationTypes_lookup (s : String) :
    (validNotificationTypes.lookup s).getD false = true ↔ s = "EMAIL" ∨ s = "SMS" := by
  unfold validNotificationTypes NotificationTypeEmail NotificationTypeSMS
  by_cases h1 : s = "EMAIL"
  · simp [List.lookup, h1]
  · by_cases h2 : s = "SMS"
    · subst h2
      simp [List.lookup]
    · have b1 : (s == "EMAIL") = false := by simpa using h1
      have b2 : (s == "SMS") = false := by simpa using h2
      simp [List.lookup, b1, b2, h1, h2]

/-- The lookup in `validMessageTypes`, with `false` for a missing key. -/
theorem validMessageTypes_lookup (s : String) :
    (validMessageTypes.lookup s).getD false = true ↔
      s = "CREATE" ∨ s = "UPDATE" ∨ s = "DELETE" := by
  unfold validMessageTypes MessageTypeCreate MessageTypeUpdate MessageTypeDelete
  by_cases h1 : s = "CREATE"
  · simp [List.lookup, h1]
  · by_cases h2 : s = "UPDATE"
    · subst h2
      simp [List.lookup]
    · by_cases h3 : s = "DELETE"
      · subst h3
        simp [List.lookup]
      · have b1 : (s == "CREATE") = false := by simpa using h1
        have b2 : (s == "UPDATE") = false := by simpa using h2
        have b3 : (s == "DELETE") = false := by simpa using h3
        simp [List.lookup, b1, b2, b3, h1, h2, h3]

/-- C21. For every string `s` and whatever the receiver: `FromString s` returns no
error exactly when `s` is `EMAIL` or `SMS`, and then returns `s` itself;
otherwise it returns the empty type and the error `unsupported type: s`.
`NotificationType(s).IsValid()` is true exactly when `FromString s` returns no
error, and `NotificationMessageType(s).IsValid()` is true exactly when `s` is
`CREATE`, `UPDATE` or `DELETE`; the empty string is valid for neither. -/
theorem type_names_are_validated (s : String) (t : NotificationType) :
    ((NotificationType.FromString t s).2 = none ↔ s = "EMAIL" ∨ s = "SMS") ∧
    ((NotificationType.FromString t s).2 = none → NotificationType.FromString t s = (s, none)) ∧
    ((NotificationType.FromString t s).2 ≠ none →
      NotificationType.FromString t s =
        ("", some (Error.New ("unsupported type: " ++ s)))) ∧
    (NotificationType.IsValid s = true ↔ (NotificationType.FromString t s).2 = none) ∧
    (NotificationMessageType.IsValid s = true ↔
      s = "CREATE" ∨ s = "UPDATE" ∨ s = "DELETE") ∧
    NotificationType.IsValid "" = false ∧
    NotificationMessageType.IsValid "" = false := by
  have hl := validNotificationTypes_lookup s
  have hfrom : (NotificationType.FromString t s).2 = none ↔
      (validNotificationTypes.lookup s).getD false = true := by
    unfold NotificationType.FromString
    cases hb : (validNotificationTypes.lookup s).getD false <;> simp [hb]
  refine ⟨hfrom.trans hl, ?_, ?_, ?_, ?_, by decide, by decide⟩
  · intro h
    have hv := hfrom.mp h
    unfold NotificationType.FromString
    simp [hv]
  · intro h
    have hv : (validNotificationTypes.lookup s).getD false = false := by
      cases hb : (validNotificationTypes.lookup s).getD false with
      | false => rfl
      | true => exact absurd (hfrom.mpr hb) h
    unfold NotificationType.FromString
    simp [hv]
  · unfold NotificationType.IsValid
    exact hfrom.symm
  · unfold NotificationMessageType.IsValid
    exact validMessageTypes_lookup s

/-- Witness for C21: the rows of the test tables. `EMAIL` and `SMS` are accepted
and returned, `INVALID` and the empty string are refused with the empty type;
`CREATE`, `UPDATE` and `DELETE` are the valid message types. -/
theorem type_names_are_validated_witness :
    (NotificationType.FromString "" "EMAIL").2 = none ∧
    NotificationType.FromString "" "EMAIL" = ("EMAIL", none) ∧
    NotificationType.FromString "" "SMS" = ("SMS", none) ∧
    NotificationType.FromString "" "INVALID" =
      ("", some (Error.New "unsupported type: INVALID")) ∧
    NotificationType.FromString "" "" = ("", some (Error.New "unsupported type: ")) ∧
    NotificationType.IsValid "INVALID" = false ∧
    NotificationMessageType.IsValid "CREATE" = true ∧
    NotificationMessageType.IsValid "UPDATE" = true ∧
    NotificationMessageType.IsValid "DELETE" = true ∧
    NotificationMessageType.IsValid "INVALID" = false :=
  ⟨(type_names_are_validated "EMAIL" "").1.mpr (Or.inl rfl), by decide, by decide, by decide,
    by decide, by decide, by decide, by decide, by decide, by decide⟩

end TypeNames

/-! ## The per-id cache keys -/

section Keys

theorem digitChar_toNat (k : Nat) (h : k < 10) : (Nat.digitChar k).toNat = 48 + k := by
  interval_cases k <;> rfl

theorem decimalValue_append (a : List Char) (c : Char) :
    decimalValue (a ++ [c]) = decimalValue a * 10 + (c.toNat - 48) := by
  simp [decimalValue, List.foldl_append]

/-- With enough fuel `Nat.toDigitsCore 10` puts in front of `ds` a list of digits
that stands for `n`. -/
theorem toDigitsCore_spec : ∀ (fuel n : Nat) (ds : List Char), n < fuel →
    ∃ pre, Nat.toDigitsCore 10 fuel n ds = pre ++ ds ∧ decimalValue pre = n ∧
      ∀ c ∈ pre, 48 ≤ c.toNat
  | 0, n, _, h => absurd h (Nat.not_lt_zero n)
  | fuel + 1, n, ds, h => by
    have hd : (Nat.digitChar (n % 10)).toNat = 48 + n % 10 :=
      digitChar_toNat _ (Nat.mod_lt _ (by decide))
    unfold Nat.toDigitsCore
    by_cases h0 : n / 10 = 0
    · simp only [h0, if_true]
      refine ⟨[Nat.digitChar (n % 10)], rfl, ?_, ?_⟩
      · have hn : n % 10 = n := Nat.mod_eq_of_lt (by omega)
        have hv : decimalValue [Nat.digitChar (n % 10)] =
            (Nat.digitChar (n % 10)).toNat - 48 := by
          simp [decimalValue]
        rw [hv, hd]
        omega
      · intro c hc
        rw [List.mem_singleton] at hc
        rw [hc, hd]
        omega
    · simp only [h0, if_false]
      obtain ⟨pre, hp, hv, hall⟩ :=
        toDigitsCore_spec fuel (n / 10) (Nat.digitChar (n % 10) :: ds) (by omega)
      refine ⟨pre ++ [Nat.digitChar (n % 10)], by simp [hp], ?_, ?_⟩
      · rw [decimalValue_append, hv, hd]
        omega
      · intro c hc
        rcases List.mem_append.mp hc with h1 | h1
        · exact hall c h1
        · rw [List.mem_singleton] at h1
          rw [h1, hd]
          omega

theorem toDigits_spec (n : Nat) :
    decimalValue (Nat.toDigits 10 n) = n ∧ ∀ c ∈ Nat.toDigits 10 n, 48 ≤ c.toNat := by
  obtain ⟨pre, hp, hv, hall⟩ := toDigitsCore_spec (n + 1) n [] (Nat.lt_succ_self n)
  unfold Nat.toDigits
  rw [hp, List.append_nil]
  exact ⟨hv, hall⟩

theorem toString_ofNat_data (n : Nat) :
    (toString (Int.ofNat n)).data = Nat.toDigits 10 n := rfl

theorem toString_negSucc_data (n : Nat) :
    (toString (Int.negSucc n)).data = '-' :: Nat.toDigits 10 (n + 1) := rfl

/-- The decimal rendering of an integer, as `%d` prints it, determines the integer. -/
theorem toString_int_injective (i j : Int) (h : toString i = toString j) : i = j := by
  have hd : (toString i).data = (toString j).data := congrArg String.data h
  cases i with
  | ofNat a =>
    cases j with
    | ofNat b =>
      rw [toString_ofNat_data, toString_ofNat_data] at hd
      have := congrArg decimalValue hd
      rw [(toDigits_spec a).1, (toDigits_spec b).1] at this
      rw [this]
    | negSucc b =>
      rw [toString_ofNat_data, toString_negSucc_data] at hd
      have hm : '-' ∈ Nat.toDigits 10 a := by rw [hd]; exact List.mem_cons_self _ _
      exact absurd ((toDigits_spec a).2 _ hm) (by decide)
  | negSucc a =>
    cases j with
    | ofNat b =>
      rw [toString_ofNat_data, toString_negSucc_data] at hd
      have hm : '-' ∈ Nat.toDigits 10 b := by rw [← hd]; exact List.mem_cons_self _ _
      exact absurd ((toDigits_spec b).2 _ hm) (by decide)
    | negSucc b =>
      rw [toString_negSucc_data, toString_negSucc_data] at hd
      have := congrArg decimalValue (List.cons_injective hd)
      rw [(toDigits_spec (a + 1)).1, (toDigits_spec (b + 1)).1] at this
      have hab : a = b := by omega
      rw [hab]

/-- Two ids that give the same per-id key are the same id. -/
theorem RedisCache.notificationKey_injective {σ : Type} (r : RedisCache σ) (i j : Int)
    (h : r.notificationKey i = r.notificationKey j) : i = j := by
  unfold RedisCache.notificationKey at h
  have hd := congrArg String.data h
  rw [String.data_append, String.data_append] at hd
  exact toString_int_injective i j (String.ext (List.append_cancel_left hd))

/-- On the reference server the answer of a per-id cache read depends only on
what the keyspace holds under the key of that id. -/
theorem RedisCache.FindNotificationByID_congr (r : RedisCache Store)
    (hr : r.client = redisServer) (id : Int) (w v : Store)
    (h : v.redis (r.notificationKey id) = w.redis (r.notificationKey id)) :
    (r.FindNotificationByID id v).1 = (r.FindNotificationByID id w).1 := by
  unfold RedisCache.FindNotificationByID
  simp only [M.bind_apply, RedisClient.Get, hr]
  cases hw : w.redis (r.notificationKey id) with
  | none => simp [redisServer, h, hw]
  | some val =>
    cases val with
    | str data =>
      cases hu : (r.json.Unmarshal data).2 <;> simp [redisServer, h, hw, hu, Error.redisNil]
    | zset z => simp [redisServer, h, hw, wrongType, Error.redisNil, Error.New]

/-- C22. For a fixed key prefix `p`: `CacheNotification` of an entity with id `i`
writes only the key `p ++ decimal i`, `FindNotificationByID i` reads that same key
and `DeleteNotification i` deletes that same key, and two ids, negative ones
included, give the same key only when they are equal. On the reference Redis
server, for two different ids `i` and `j`: invalidating `i` leaves no entry under
the key of `i` (the next read of `i` is a miss) and leaves what is held under the
key of `j`, and the answer of a read of `j`, as they were; caching an entity
under `i` leaves the entry of `j` as it was too. -/
theorem per_id_keys_do_not_collide :
    (∀ (σ : Type) (r : RedisCache σ) (i j : Int) (n : Notification) (w : σ),
      (∀ e ∈ (r.CacheNotification n w).2.2, ∃ v ttl err,
        e = Event.Set (r.notificationKeyPrefix ++ toString n.ID) v ttl err) ∧
      (∃ v err, (r.FindNotificationByID i w).2.2 =
        [Event.Get (r.notificationKeyPrefix ++ toString i) v err]) ∧
      (∃ err, (r.DeleteNotification i w).2.2 =
        [Event.Del (r.notificationKeyPrefix ++ toString i) err]) ∧
      (r.notificationKeyPrefix ++ toString i = r.notificationKeyPrefix ++ toString j ↔
        i = j)) ∧
    (∀ (r : RedisCache Store), r.client = redisServer →
      ∀ (i j : Int) (n : Notification) (w : Store), i ≠ j → n.ID = i →
        (r.DeleteNotification i w).2.1.redis (r.notificationKey i) = none ∧
        (r.FindNotificationByID i (r.DeleteNotification i w).2.1).1 = (none, none) ∧
        (r.DeleteNotification i w).2.1.redis (r.notificationKey j) =
          w.redis (r.notificationKey j) ∧
        (r.FindNotificationByID j (r.DeleteNotification i w).2.1).1 =
          (r.FindNotificationByID j w).1 ∧
        (r.CacheNotification n w).2.1.redis (r.notificationKey j) =
          w.redis (r.notificationKey j) ∧
        ((r.json.Marshal n).2 = none →
          (r.CacheNotification n w).2.1.redis (r.notificationKey i) =
            some (RedisValue.str (r.json.Marshal n).1))) := by
  constructor
  · intro σ r i j n w
    refine ⟨?_, ⟨_, _, r.FindNotificationByID_trace i w⟩, ⟨_, DeleteNotification_trace r i w⟩,
      ⟨fun h => r.notificationKey_injective i j h, fun h => by rw [h]⟩⟩
    intro e he
    rw [CacheNotification_trace] at he
    cases hm : (r.json.Marshal n).2 with
    | some err => simp [hm] at he
    | none =>
      simp only [hm, List.mem_singleton] at he
      exact ⟨_, _, _, he⟩
  · intro r hr i j n w hij hn
    have hkey : r.notificationKey j ≠ r.notificationKey i :=
      fun h => hij (r.notificationKey_injective j i h).symm
    have hdel : (r.DeleteNotification i w).2.1 = w.setKey (r.notificationKey i) none := by
      simp [RedisCache.DeleteNotification, RedisClient.Del, hr, redisServer]
    have h1 : (r.DeleteNotification i w).2.1.redis (r.notificationKey i) = none := by
      rw [hdel]
      simp [Store.setKey]
    have h3 : (r.DeleteNotification i w).2.1.redis (r.notificationKey j) =
        w.redis (r.notificationKey j) := by
      rw [hdel]
      simp [Store.setKey, hkey]
    refine ⟨h1, ?_, h3, r.FindNotificationByID_congr hr j _ _ h3, ?_, ?_⟩
    · rw [r.FindNotificationByID_absent hr i _ h1]
    · unfold RedisCache.CacheNotification
      cases hm : (r.json.Marshal n).2 with
      | some err => simp
      | none =>
        simp [M.bind_apply, RedisClient.Set, hr, redisServer, Store.setKey, hn, hkey]
    · intro hm
      unfold RedisCache.CacheNotification
      simp [hm, M.bind_apply, RedisClient.Set, hr, redisServer, Store.setKey, hn]

/-- Witness for C22: with entries cached under the ids 5 and -5, invalidating 5
removes the entry of 5 and leaves the entry of -5. -/
theorem per_id_keys_do_not_collide_witness :
    modelCache.notificationKey 5 = "notification:5" ∧
    modelCache.notificationKey (-5) = "notification:-5" ∧
    (modelCache.DeleteNotification 5 pairStore).2.1.redis (modelCache.notificationKey 5) =
      none ∧
    (modelCache.DeleteNotification 5 pairStore).2.1.redis (modelCache.notificationKey (-5)) =
      some (RedisValue.str "B") :=
  ⟨by decide, by decide,
    (per_id_keys_do_not_collide.2 modelCache rfl 5 (-5) (rowAt 5 0) pairStore
      (by decide) rfl).1,
    ((per_id_keys_do_not_collide.2 modelCache rfl 5 (-5) (rowAt 5 0) pairStore
      (by decide) rfl).2.2.1).trans (by decide)⟩

end Keys

/-! ## The bound of ten over the states the service reaches -/

section Reachable

end Reachable

section RecentBoundClaim

end RecentBoundClaim

end NotificationService
